import Mathlib

/-!
# central_esp: connection scheduler and discovery sequencer

A shallow embedding of `app/src/main.c`: the peer table `devices[3]`, the
scheduler thread body `sensor_function`, the connection callbacks `connected`
and `disconnected`, the discovery callback `discover_func`, the sequencer step
`next_action`, the subscribe callback `subscribe_func` with its work item
`subscribe_work`, and the shell handlers that enable and disable operation.

Conventions of the embedding.

* The globals of `main.c` are the fields of `State`; every C function becomes a
  function from `State` to `State` (or to `Option State` where the C code may
  dereference a null pointer or spin in an unbounded loop).
* `uint8_t` and `uint16_t` values are natural numbers, with `% 256` and
  `% 65536` written at every increment of the source.
* Pointers to `struct bt_conn` are `Option Nat`: `none` is `NULL`, `some n` is
  the connection object number `n`.
* The Kconfig feature set (`CONFIG_APP_ESS_TEMPERATURE` and the like) is the
  parameter `Kconfig`; code under `#ifdef` is guarded by the matching flag.
* Calls into Zephyr (`k_sleep`, `bt_conn_le_create`, `bt_gatt_discover`, ...)
  are appended, in program order, to the field `calls`; the values Zephyr
  returns are arguments of the embedded function.  Log output is not modelled.
* The table `devices` is a function on indices; the entries of the C array are
  the indices below `DEVICE_COUNT`.
* An event (one wake-up of the scheduler thread, one callback, one work item,
  one shell command) runs to completion before the next one starts.
-/

namespace CentralEsp

/-! ## Data model -/

/-- Number of entries of the table `devices` (`ARRAY_SIZE(devices)`). -/
def DEVICE_COUNT : Nat := 3

/-- The C enumeration `device_state_t`. -/
inductive device_state_t where
  | STATE_IDLE
  | STATE_CONNECTING
  | STATE_CONNECTED
  | STATE_DISCOVERING
  | STATE_ACTIVE
deriving DecidableEq, Repr

/-- The compile-time feature set: one flag per `CONFIG_APP_*` symbol tested by
`main.c`. -/
structure Kconfig where
  APP_ESS_TEMPERATURE : Bool
  APP_ESS_HUMIDITY : Bool
  APP_ESS_PRESSURE : Bool
  APP_ESS_DEW_POINT : Bool
  APP_BATTERY_LEVEL : Bool
deriving DecidableEq, Repr

/-- The enumerators that `handle_status_t` can declare; which of them exist,
and their numeric values, depend on the feature set (see `handle_status_enum`). -/
inductive handle_status_t where
  | FIND_ESS_SERVICE
  | FIND_TEMPERATURE
  | FIND_TEMPERATURE_CCC
  | FIND_HUMIDITY
  | FIND_HUMIDITY_CCC
  | FIND_PRESSURE
  | FIND_PRESSURE_CCC
  | FIND_DEW_POINT
  | FIND_DEW_POINT_CCC
  | FIND_BATTERY_SERVICE
  | FIND_BATTERY_LEVEL
  | FIND_BATTERY_LEVEL_CCC
  | SUBSCRIBE_TEMPERATURE
  | SUBSCRIBE_HUMDIITY
  | SUBSCRIBE_PRESSURE
  | SUBSCRIBE_DEW_POINT
  | SUBSCRIBE_BATTERY_LEVEL
  | AWAITING_READINGS
deriving DecidableEq, Repr

open handle_status_t device_state_t

/-- The declaration of `enum handle_status_t` (lines 47-86) after
preprocessing: the enumerators in declaration order.  The numeric value of an
enumerator is its position in this list. -/
def handle_status_enum (cfg : Kconfig) : List handle_status_t :=
  [FIND_ESS_SERVICE]
  ++ (if cfg.APP_ESS_TEMPERATURE then [FIND_TEMPERATURE, FIND_TEMPERATURE_CCC] else [])
  ++ (if cfg.APP_ESS_HUMIDITY then [FIND_HUMIDITY, FIND_HUMIDITY_CCC] else [])
  ++ (if cfg.APP_ESS_PRESSURE then [FIND_PRESSURE, FIND_PRESSURE_CCC] else [])
  ++ (if cfg.APP_ESS_DEW_POINT then [FIND_DEW_POINT, FIND_DEW_POINT_CCC] else [])
  ++ (if cfg.APP_BATTERY_LEVEL then
        [FIND_BATTERY_SERVICE, FIND_BATTERY_LEVEL, FIND_BATTERY_LEVEL_CCC] else [])
  ++ (if cfg.APP_ESS_TEMPERATURE then [SUBSCRIBE_TEMPERATURE] else [])
  ++ (if cfg.APP_ESS_HUMIDITY then [SUBSCRIBE_HUMDIITY] else [])
  ++ (if cfg.APP_ESS_PRESSURE then [SUBSCRIBE_PRESSURE] else [])
  ++ (if cfg.APP_ESS_DEW_POINT then [SUBSCRIBE_DEW_POINT] else [])
  ++ (if cfg.APP_BATTERY_LEVEL then [SUBSCRIBE_BATTERY_LEVEL] else [])
  ++ [AWAITING_READINGS]

/-- Numeric value of an enumerator of `handle_status_t` under a feature set. -/
def enum_value (cfg : Kconfig) (e : handle_status_t) : Nat :=
  (handle_status_enum cfg).indexOf e

/-- The enumerator with a given numeric value, if there is one. -/
def enum_at (cfg : Kconfig) (v : Nat) : Option handle_status_t :=
  (handle_status_enum cfg)[v]?

/-- The 16-bit UUID constants that `main.c` copies into the global `uuid` and
compares with `bt_uuid_cmp`.  They are pairwise distinct assigned numbers of the
Bluetooth specification; only their identity matters here.  `ZERO` is the value
of `BT_UUID_INIT_16(0)`. -/
inductive bt_uuid_16 where
  | ZERO
  | BT_UUID_ESS
  | BT_UUID_TEMPERATURE
  | BT_UUID_HUMIDITY
  | BT_UUID_PRESSURE
  | BT_UUID_DEW_POINT
  | BT_UUID_BAS
  | BT_UUID_BAS_BATTERY_LEVEL
  | BT_UUID_GATT_CCC
deriving DecidableEq, Repr

open bt_uuid_16

/-- The discovery kinds of Zephyr that `main.c` uses.  `BT_GATT_DISCOVER_PRIMARY`
is the enumerator with value zero. -/
inductive discover_type where
  | BT_GATT_DISCOVER_PRIMARY
  | BT_GATT_DISCOVER_CHARACTERISTIC
  | BT_GATT_DISCOVER_DESCRIPTOR
deriving DecidableEq, Repr

open discover_type

/-- Lowest attribute handle (`BT_ATT_FIRST_ATTRIBUTE_HANDLE`). -/
def BT_ATT_FIRST_ATTRIBUTE_HANDLE : Nat := 0x0001

/-- Highest attribute handle (`BT_ATT_LAST_ATTRIBUTE_HANDLE`). -/
def BT_ATT_LAST_ATTRIBUTE_HANDLE : Nat := 0xffff

/-- Value written to the CCC descriptor to enable notifications
(`BT_GATT_CCC_NOTIFY`). -/
def BT_GATT_CCC_NOTIFY : Nat := 0x0001

/-- The part of `struct bt_gatt_attr` that the callbacks read: the attribute
handle, and the result of `bt_gatt_attr_value_handle` on the attribute. -/
structure bt_gatt_attr where
  handle : Nat
  value_handle : Nat
deriving DecidableEq, Repr

/-- The fields of `struct bt_gatt_subscribe_params` that `main.c` writes.  The
two callback pointers are recorded as "is set to `notify_func`" and "is set to
`subscribe_func`". -/
structure bt_gatt_subscribe_params where
  notify : Bool
  subscribe : Bool
  value_handle : Nat
  ccc_handle : Nat
  value : Nat
deriving DecidableEq, Repr

/-- The fields of `struct bt_gatt_discover_params` that `main.c` writes.  `uuid`
is true when the pointer holds `&uuid.uuid` and false when it is `NULL`; `func`
is true when the pointer holds `discover_func`. -/
structure bt_gatt_discover_params where
  uuid : Bool
  func : Bool
  start_handle : Nat
  end_handle : Nat
  type : discover_type
deriving DecidableEq, Repr

/-- The C structure `device_handles`. -/
structure device_handles where
  status : Nat
  service : Nat
  battery_service : Nat
  temperature : bt_gatt_subscribe_params
  humidity : bt_gatt_subscribe_params
  pressure : bt_gatt_subscribe_params
  dew_point : bt_gatt_subscribe_params
  battery_level : bt_gatt_subscribe_params
deriving DecidableEq, Repr

/-- The C structure `device_readings`; a `double` field is given by the value
of the `double` it holds, a rational number. -/
structure device_readings where
  temperature : ℚ
  humidity : ℚ
  pressure : ℚ
  dew_point : Int
  battery_level : Nat
  received : Nat
deriving DecidableEq

/-- The mutable part of the C structure `device_params` (the address and the
name never change and no decision depends on them). -/
structure device_params where
  state : device_state_t
  connection : Option Nat
  handles : device_handles
  readings : device_readings
deriving DecidableEq

/-- Calls into the Zephyr kernel and Bluetooth host made by the embedded
functions, with the arguments that identify them. -/
inductive call where
  | k_sleep (ms : Nat)
  | bt_conn_le_create (index : Nat)
  | bt_conn_unref (conn : Nat)
  | bt_conn_disconnect (conn : Nat)
  | bt_gatt_discover (conn : Option Nat) (uuid : bt_uuid_16) (params : bt_gatt_discover_params)
  | bt_gatt_subscribe (conn : Option Nat) (which : handle_status_t)
      (params : bt_gatt_subscribe_params)
  | k_sem_give_next_action_sem
  | k_work_submit_subscribe_workqueue
deriving DecidableEq, Repr

/-- The globals of `main.c` that the scheduler and the sequencer use. -/
structure State where
  devices : Nat → device_params
  current_index : Nat
  disabled : Bool
  busy : Bool
  connection_failures : Nat
  uuid : bt_uuid_16
  discover_params : bt_gatt_discover_params
  calls : List call

/-- All-zero `struct bt_gatt_subscribe_params`. -/
def bt_gatt_subscribe_params.zero : bt_gatt_subscribe_params :=
  { notify := false, subscribe := false, value_handle := 0, ccc_handle := 0, value := 0 }

/-- All-zero `struct bt_gatt_discover_params`. -/
def bt_gatt_discover_params.zero : bt_gatt_discover_params :=
  { uuid := false, func := false, start_handle := 0, end_handle := 0,
    type := BT_GATT_DISCOVER_PRIMARY }

/-- All-zero `struct device_handles` (the result of `memset` on it). -/
def device_handles.zero : device_handles :=
  { status := 0, service := 0, battery_service := 0,
    temperature := bt_gatt_subscribe_params.zero,
    humidity := bt_gatt_subscribe_params.zero,
    pressure := bt_gatt_subscribe_params.zero,
    dew_point := bt_gatt_subscribe_params.zero,
    battery_level := bt_gatt_subscribe_params.zero }

/-- All-zero `struct device_readings` (the result of `memset` on it). -/
def device_readings.zero : device_readings :=
  { temperature := 0, humidity := 0, pressure := 0, dew_point := 0, battery_level := 0,
    received := 0 }

/-- A statically initialised entry of `devices`: every mutable field is zero. -/
def device_params.zero : device_params :=
  { state := STATE_IDLE, connection := none, handles := device_handles.zero,
    readings := device_readings.zero }

/-- The globals when `main` returns (lines 845-927): every peer Idle with
zeroed handles, `current_index = 0`, `busy = false`, no failures, and
`disabled` set unless `CONFIG_APP_START_BOOTUP` is selected. -/
def initial_state (start_bootup : Bool) : State :=
  { devices := fun _ => device_params.zero
    current_index := 0
    disabled := !start_bootup
    busy := false
    connection_failures := 0
    uuid := ZERO
    discover_params := bt_gatt_discover_params.zero
    calls := [] }

/-- Assignment to fields of `devices[i]`. -/
def State.modify_device (s : State) (i : Nat) (f : device_params → device_params) : State :=
  { s with devices := Function.update s.devices i (f (s.devices i)) }

/-- Append one call to the record of calls. -/
def State.call (s : State) (c : call) : State :=
  { s with calls := s.calls ++ [c] }

/-- The statement pair `++current_index; if (current_index >= DEVICE_COUNT)
current_index = 0;` on a `uint8_t`. -/
def advance_current_index (current_index : Nat) : Nat :=
  if (current_index + 1) % 256 ≥ DEVICE_COUNT then 0 else (current_index + 1) % 256

/-! ## The scheduler thread: `sensor_function` (lines 692-746) -/

/-- The loop of lines 705-712, `while (i < DEVICE_COUNT) { if (devices[i].state
== STATE_IDLE) break; ++i; }`, started at `i` with `n = DEVICE_COUNT - i`
iterations left; the result is the final value of `i`. -/
def idle_scan (devices : Nat → device_params) : Nat → Nat → Nat
  | 0, i => i
  | n + 1, i => if (devices i).state = STATE_IDLE then i else idle_scan devices n (i + 1)

/-- The loop of lines 718-724, `while (devices[current_index].state !=
STATE_IDLE) { ++current_index; if (current_index >= DEVICE_COUNT)
current_index = 0; }`.  The C loop has no bound of its own; `fuel` bounds the
number of evaluations of its condition and `none` means the bound was reached. -/
def advance_to_idle (devices : Nat → device_params) : Nat → Nat → Option Nat
  | 0, _ => none
  | fuel + 1, current_index =>
    if (devices current_index).state ≠ STATE_IDLE then
      advance_to_idle devices fuel (advance_current_index current_index)
    else some current_index

/-- The backoff of lines 729-736: the `k_sleep` call made for a given value of
`connection_failures`, if any, with its duration in milliseconds. -/
def backoff (connection_failures : Nat) : List call :=
  if connection_failures ≥ 28 then [call.k_sleep 10000]
  else if connection_failures > 16 then [call.k_sleep 4000]
  else if connection_failures > 8 then [call.k_sleep 800]
  else []

/-- Total time slept, in milliseconds, by the `k_sleep` calls of a list of calls. -/
def slept_ms : List call → Nat
  | [] => 0
  | call.k_sleep ms :: cs => ms + slept_ms cs
  | _ :: cs => slept_ms cs

/-- The delay in milliseconds that lines 729-736 apply before the connection
request. -/
def backoff_delay (connection_failures : Nat) : Nat :=
  slept_ms (backoff connection_failures)

/-- What `bt_conn_le_create` does with the request: it returns zero and stores a
new connection object in `*conn`, or it returns a non-zero error and stores
nothing (the error value is only logged). -/
inductive bt_conn_le_create_result where
  | accepted (conn : Nat)
  | rejected
deriving DecidableEq, Repr

/-- Lines 726-727: `busy = true; devices[current_index].state =
STATE_CONNECTING;` with `current_index` as left by the selection loop. -/
def select_peer (s : State) (current_index : Nat) : State :=
  ({ s with current_index := current_index, busy := true }).modify_device current_index
    (fun d => { d with state := STATE_CONNECTING })

/-- Lines 729-744: the backoff sleep, the call of `bt_conn_le_create` on
`devices[current_index]`, and the handling of its return value. -/
def create_connection (r : bt_conn_le_create_result) (s : State) : State :=
  let s1 : State :=
    { s with calls := s.calls ++ backoff s.connection_failures
                        ++ [call.bt_conn_le_create s.current_index] }
  match r with
  | .accepted conn => s1.modify_device s1.current_index (fun d => { d with connection := some conn })
  | .rejected => { s1 with busy := false }

/-- One iteration of the `while (1)` loop of `sensor_function`, from the return
of `k_sem_take` to the next `k_sem_take`. -/
def sensor_function (fuel : Nat) (r : bt_conn_le_create_result) (s : State) : Option State :=
  if s.disabled || s.busy then some s
  else if idle_scan s.devices DEVICE_COUNT 0 = DEVICE_COUNT then some s
  else
    match advance_to_idle s.devices fuel s.current_index with
    | none => none
    | some current_index => some (create_connection r (select_peer s current_index))

/-! ## Connection callbacks: `connected` (lines 582-634), `disconnected` (lines 636-685) -/

/-- The callback `connected(conn, conn_err)`; `discover_err` is the value
returned by the `bt_gatt_discover` call of line 628. -/
def connected (cfg : Kconfig) (conn : Nat) (conn_err : Nat) (discover_err : Int) (s : State) :
    State :=
  if conn_err ≠ 0 then
    let s1 := (s.call (call.bt_conn_unref conn)).modify_device s.current_index
      (fun d => { d with state := STATE_IDLE })
    let s2 : State :=
      { s1 with
        busy := false
        connection_failures :=
          if s.connection_failures < 30 then (s.connection_failures + 1) % 256
          else s.connection_failures
        current_index := advance_current_index s.current_index }
    s2.call call.k_sem_give_next_action_sem
  else
    let s1 := ({ s with connection_failures := 0 }).modify_device s.current_index
      (fun d => { d with
        state := STATE_CONNECTED
        handles := { device_handles.zero with status := enum_value cfg FIND_ESS_SERVICE } })
    let params : bt_gatt_discover_params :=
      { s.discover_params with
        uuid := true, func := true
        start_handle := BT_ATT_FIRST_ATTRIBUTE_HANDLE
        end_handle := BT_ATT_LAST_ATTRIBUTE_HANDLE
        type := BT_GATT_DISCOVER_PRIMARY }
    let s2 : State := { s1 with uuid := BT_UUID_ESS, discover_params := params }
    let s3 := s2.call (call.bt_gatt_discover (some conn) BT_UUID_ESS params)
    if discover_err ≠ 0 then s3.call (call.bt_conn_disconnect conn) else s3

/-- The loop of lines 658-673 of `disconnected`, started at `i` with
`n = DEVICE_COUNT - i` iterations left: the first entry from `i` on whose
connection is `conn` is reset, and the failure count is cleared when that entry
was Active. -/
def disconnected_search (conn : Nat) : Nat → Nat → State → State
  | 0, _, s => s
  | n + 1, i, s =>
    if (s.devices i).connection = some conn then
      let s1 : State :=
        if (s.devices i).state = STATE_ACTIVE then { s with connection_failures := 0 } else s
      s1.modify_device i (fun d =>
        { d with
          state := STATE_IDLE
          connection := none
          handles := { d.handles with status := 0 }
          readings := device_readings.zero })
    else disconnected_search conn n (i + 1) s

/-- The callback `disconnected(conn, reason)`; `reason` is only logged. -/
def disconnected (conn : Nat) (s : State) : State :=
  let is_current : Bool := (s.devices s.current_index).connection = some conn
  let i : Nat := if is_current then s.current_index else 0
  let s1 : State :=
    if is_current && ((s.devices s.current_index).state ≠ STATE_ACTIVE && s.busy) then
      { s with busy := false }
    else s
  let s2 := disconnected_search conn (DEVICE_COUNT - i) i s1
  let s3 : State :=
    if is_current then { s2 with current_index := advance_current_index s2.current_index }
    else s2
  (s3.call (call.bt_conn_unref conn)).call call.k_sem_give_next_action_sem

/-! ## The sequencer: `next_action` (lines 332-506) -/

/-- The values the `switch` of `next_action` leaves in the locals `action`,
`service` and `param`, and the constant it copies into the global `uuid` (none
when the case copies nothing).  `param` names the subscribe step whose
`bt_gatt_subscribe_params` the pointer designates. -/
structure switch_result where
  action : Nat
  service : Nat
  uuid : Option bt_uuid_16
  param : Option handle_status_t
deriving DecidableEq, Repr

/-- The `switch` of lines 352-462 on the numeric value of `handles.status`;
`none` is the `default` case.  A case label exists only when its enumerator is
declared under the feature set, which is what `enum_at` returns. -/
def next_action_switch (cfg : Kconfig) (status : Nat) : Option switch_result :=
  match enum_at cfg status with
  | some FIND_TEMPERATURE =>
    some { action := 0, service := 0, uuid := some BT_UUID_TEMPERATURE, param := none }
  | some FIND_HUMIDITY =>
    some { action := 0, service := 0, uuid := some BT_UUID_HUMIDITY, param := none }
  | some FIND_PRESSURE =>
    some { action := 0, service := 0, uuid := some BT_UUID_PRESSURE, param := none }
  | some FIND_DEW_POINT =>
    some { action := 0, service := 0, uuid := some BT_UUID_DEW_POINT, param := none }
  | some FIND_BATTERY_SERVICE =>
    some { action := 1, service := 0, uuid := some BT_UUID_BAS, param := none }
  | some FIND_BATTERY_LEVEL =>
    some { action := 0, service := 1, uuid := some BT_UUID_BAS_BATTERY_LEVEL, param := none }
  | some FIND_TEMPERATURE_CCC
  | some FIND_HUMIDITY_CCC
  | some FIND_PRESSURE_CCC
  | some FIND_DEW_POINT_CCC
  | some FIND_BATTERY_LEVEL_CCC =>
    some { action := 2, service := 0, uuid := some BT_UUID_GATT_CCC, param := none }
  | some SUBSCRIBE_TEMPERATURE =>
    some { action := 3, service := 0, uuid := none, param := some SUBSCRIBE_TEMPERATURE }
  | some SUBSCRIBE_HUMDIITY =>
    some { action := 3, service := 0, uuid := none, param := some SUBSCRIBE_HUMDIITY }
  | some SUBSCRIBE_PRESSURE =>
    some { action := 3, service := 0, uuid := none, param := some SUBSCRIBE_PRESSURE }
  | some SUBSCRIBE_DEW_POINT =>
    some { action := 3, service := 0, uuid := none, param := some SUBSCRIBE_DEW_POINT }
  | some SUBSCRIBE_BATTERY_LEVEL =>
    some { action := 3, service := 0, uuid := none, param := some SUBSCRIBE_BATTERY_LEVEL }
  | _ => none

/-- Read the `bt_gatt_subscribe_params` member of `device_handles` that a
subscribe step designates. -/
def device_handles.param (h : device_handles) : handle_status_t → bt_gatt_subscribe_params
  | SUBSCRIBE_TEMPERATURE => h.temperature
  | SUBSCRIBE_HUMDIITY => h.humidity
  | SUBSCRIBE_PRESSURE => h.pressure
  | SUBSCRIBE_DEW_POINT => h.dew_point
  | _ => h.battery_level

/-- Write the `bt_gatt_subscribe_params` member of `device_handles` that a
subscribe step designates. -/
def device_handles.set_param (h : device_handles) (which : handle_status_t)
    (p : bt_gatt_subscribe_params) : device_handles :=
  match which with
  | SUBSCRIBE_TEMPERATURE => { h with temperature := p }
  | SUBSCRIBE_HUMDIITY => { h with humidity := p }
  | SUBSCRIBE_PRESSURE => { h with pressure := p }
  | SUBSCRIBE_DEW_POINT => { h with dew_point := p }
  | _ => { h with battery_level := p }

/-- Lines 466-505 of `next_action`: the request issued for the values of
`action`, `service` and `param` chosen by the `switch`.  The result is `none`
when the code reads `attr->handle` through a null `attr`.  The values returned
by `bt_gatt_subscribe` and `bt_gatt_discover` are only logged. -/
def next_action_request (conn : Option Nat) (attr : Option bt_gatt_attr) (r : switch_result)
    (s : State) : Option State :=
  let h := (s.devices s.current_index).handles
  let discover (p : bt_gatt_discover_params) : State :=
    let p1 := { p with uuid := true }
    ({ s with discover_params := p1 }).call (call.bt_gatt_discover conn s.uuid p1)
  if r.action = 0 then
    let start := if r.service = 0 then (h.service + 1) % 65536 else (h.battery_service + 1) % 65536
    some (discover { s.discover_params with
      start_handle := start, type := BT_GATT_DISCOVER_CHARACTERISTIC })
  else if r.action = 1 then
    some (discover { s.discover_params with
      start_handle := BT_ATT_FIRST_ATTRIBUTE_HANDLE
      end_handle := BT_ATT_LAST_ATTRIBUTE_HANDLE
      type := BT_GATT_DISCOVER_PRIMARY })
  else if r.action = 2 then
    match attr with
    | none => none
    | some a =>
      some (discover { s.discover_params with
        start_handle := (a.handle + 2) % 65536, type := BT_GATT_DISCOVER_DESCRIPTOR })
  else if r.action = 3 then
    match r.param with
    | none => none
    | some which =>
      let p := { h.param which with
        subscribe := true, notify := true, value := BT_GATT_CCC_NOTIFY }
      some ((s.modify_device s.current_index
        (fun d => { d with handles := d.handles.set_param which p })).call
          (call.bt_gatt_subscribe conn which p))
  else some s

/-- The function `next_action(conn, attr)`; `none` is a null-pointer
dereference. -/
def next_action (cfg : Kconfig) (conn : Option Nat) (attr : Option bt_gatt_attr) (s : State) :
    Option State :=
  let status := (s.devices s.current_index).handles.status + 1
  let s1 := s.modify_device s.current_index
    (fun d => { d with handles := { d.handles with status := status } })
  if status = enum_value cfg AWAITING_READINGS then
    some ((({ s1 with busy := false }).modify_device s.current_index
      (fun d => { d with
        state := STATE_ACTIVE
        handles := { d.handles with status := enum_value cfg AWAITING_READINGS } })).call
          call.k_sem_give_next_action_sem)
  else
    match next_action_switch cfg status with
    | none => some s1
    | some r =>
      let s2 : State :=
        match r.uuid with
        | some u => { s1 with uuid := u }
        | none => s1
      next_action_request conn attr r s2

/-- The work item `subscribe_work` (lines 508-511). -/
def subscribe_work (cfg : Kconfig) (s : State) : Option State :=
  next_action cfg (s.devices s.current_index).connection none s

/-- The callback `subscribe_func(conn, err, params)` (lines 319-330): a failed
subscription requests a disconnect, a successful one submits the work item
`subscribe_work`. -/
def subscribe_func (conn : Nat) (err : Nat) (s : State) : State :=
  if err ≠ 0 then s.call (call.bt_conn_disconnect conn)
  else s.call call.k_work_submit_subscribe_workqueue

/-! ## The discovery callback: `discover_func` (lines 513-580) -/

/-- Lines 526-571 of `discover_func`: the `if`/`else if` chain that records the
handle of the attribute found, selected by the UUID that `discover_params.uuid`
points to (the global `uuid`), as an assignment to fields of the entry
`devices[current_index]`. -/
def discover_record_fields (cfg : Kconfig) (a : bt_gatt_attr) (uuid : bt_uuid_16)
    (d : device_params) : device_params :=
  let h := d.handles
  let set (h1 : device_handles) : device_params := { d with handles := h1 }
  if uuid = BT_UUID_ESS then
    { d with state := STATE_DISCOVERING, handles := { h with service := a.handle } }
  else if cfg.APP_ESS_TEMPERATURE && uuid = BT_UUID_TEMPERATURE then
    set { h with temperature := { h.temperature with value_handle := a.value_handle } }
  else if cfg.APP_ESS_TEMPERATURE && (uuid = BT_UUID_GATT_CCC
      && h.status = enum_value cfg FIND_TEMPERATURE_CCC) then
    set { h with temperature := { h.temperature with ccc_handle := a.handle } }
  else if cfg.APP_ESS_HUMIDITY && uuid = BT_UUID_HUMIDITY then
    set { h with humidity := { h.humidity with value_handle := a.value_handle } }
  else if cfg.APP_ESS_HUMIDITY && (uuid = BT_UUID_GATT_CCC
      && h.status = enum_value cfg FIND_HUMIDITY_CCC) then
    set { h with humidity := { h.humidity with ccc_handle := a.handle } }
  else if cfg.APP_ESS_PRESSURE && uuid = BT_UUID_PRESSURE then
    set { h with pressure := { h.pressure with value_handle := a.value_handle } }
  else if cfg.APP_ESS_PRESSURE && (uuid = BT_UUID_GATT_CCC
      && h.status = enum_value cfg FIND_PRESSURE_CCC) then
    set { h with pressure := { h.pressure with ccc_handle := a.handle } }
  else if cfg.APP_ESS_DEW_POINT && uuid = BT_UUID_DEW_POINT then
    set { h with dew_point := { h.dew_point with value_handle := a.value_handle } }
  else if cfg.APP_ESS_DEW_POINT && (uuid = BT_UUID_GATT_CCC
      && h.status = enum_value cfg FIND_DEW_POINT_CCC) then
    set { h with dew_point := { h.dew_point with ccc_handle := a.handle } }
  else if cfg.APP_BATTERY_LEVEL && uuid = BT_UUID_BAS then
    set { h with battery_service := a.handle }
  else if cfg.APP_BATTERY_LEVEL && uuid = BT_UUID_BAS_BATTERY_LEVEL then
    set { h with battery_level := { h.battery_level with value_handle := a.value_handle } }
  else if cfg.APP_BATTERY_LEVEL && (uuid = BT_UUID_GATT_CCC
      && h.status = enum_value cfg FIND_BATTERY_LEVEL_CCC) then
    set { h with battery_level := { h.battery_level with ccc_handle := a.handle } }
  else d

/-- Lines 526-571 of `discover_func` on the globals. -/
def discover_record (cfg : Kconfig) (a : bt_gatt_attr) (s : State) : State :=
  s.modify_device s.current_index (discover_record_fields cfg a s.uuid)

/-- The callback `discover_func(conn, attr, params)`, called by the Bluetooth
host with `params = &discover_params`.  A null `attr` ends the discovery and
zeroes the parameters; otherwise the handle is recorded and `next_action` runs
(the local `err` is always zero).  `none` is a null-pointer dereference: in
`bt_uuid_cmp` when `discover_params.uuid` is null, or in `next_action`. -/
def discover_func (cfg : Kconfig) (conn : Nat) (attr : Option bt_gatt_attr) (s : State) :
    Option State :=
  match attr with
  | none => some { s with discover_params := bt_gatt_discover_params.zero }
  | some a =>
    if s.discover_params.uuid then next_action cfg (some conn) (some a) (discover_record cfg a s)
    else none

/-! ## Shell handlers that act on the scheduler (lines 1146-1207) -/

/-- The loop shared by `ess_disconnect_handler` and `ess_disable_handler`:
`bt_conn_disconnect` is requested for every entry from `i` on that is not Idle
and has a connection; `n = DEVICE_COUNT - i` iterations are left. -/
def disconnect_loop : Nat → Nat → State → State
  | 0, _, s => s
  | n + 1, i, s =>
    let s1 : State :=
      match (s.devices i).connection with
      | some conn =>
        if (s.devices i).state ≠ STATE_IDLE then s.call (call.bt_conn_disconnect conn) else s
      | none => s
    disconnect_loop n (i + 1) s1

/-- The command `ess disconnect`. -/
def ess_disconnect_handler (s : State) : Int × State :=
  (0, disconnect_loop DEVICE_COUNT 0 s)

/-- The value of `EPERM` in `errno.h`. -/
def EPERM : Int := 1

/-- The command `ess disable`. -/
def ess_disable_handler (s : State) : Int × State :=
  if !s.disabled then (0, disconnect_loop DEVICE_COUNT 0 { s with disabled := true })
  else (-EPERM, s)

/-- The command `ess enable`. -/
def ess_enable_handler (s : State) : Int × State :=
  if s.disabled then (0, ({ s with disabled := false }).call call.k_sem_give_next_action_sem)
  else (-EPERM, s)

/-! ## Executions -/

/-- The events that drive the scheduler and the sequencer: one wake-up of the
scheduler thread (with the answer of `bt_conn_le_create`), the callbacks of the
Bluetooth host, the work item, and the shell commands. -/
inductive event where
  | sensor_function (r : bt_conn_le_create_result)
  | connected (conn : Nat) (conn_err : Nat) (discover_err : Int)
  | discover_func (conn : Nat) (attr : Option bt_gatt_attr)
  | subscribe_func (conn : Nat) (err : Nat)
  | subscribe_work
  | disconnected (conn : Nat)
  | ess_enable_handler
  | ess_disable_handler
  | ess_disconnect_handler
deriving DecidableEq, Repr

/-- Bound on the selection loop used when events are executed: the loop
returns within `DEVICE_COUNT + 1` evaluations of its condition whenever the
scan before it found an Idle entry (`sensor_function_total`). -/
def SELECT_FUEL : Nat := DEVICE_COUNT + 1

/-- The effect of one event on the globals. -/
def step (cfg : Kconfig) (e : event) (s : State) : Option State :=
  match e with
  | .sensor_function r => sensor_function SELECT_FUEL r s
  | .connected conn conn_err discover_err => some (connected cfg conn conn_err discover_err s)
  | .discover_func conn attr => discover_func cfg conn attr s
  | .subscribe_func conn err => some (subscribe_func conn err s)
  | .subscribe_work => subscribe_work cfg s
  | .disconnected conn => some (disconnected conn s)
  | .ess_enable_handler => some (ess_enable_handler s).2
  | .ess_disable_handler => some (ess_disable_handler s).2
  | .ess_disconnect_handler => some (ess_disconnect_handler s).2

/-- The effect of a sequence of events, in order. -/
def run (cfg : Kconfig) : List event → State → Option State
  | [], s => some s
  | e :: es, s => (step cfg e s).bind (run cfg es)

/-- A state of the globals is reachable when some sequence of events leads to
it from the state in which `main` leaves them. -/
def Reachable (cfg : Kconfig) (s : State) : Prop :=
  ∃ (start_bootup : Bool) (es : List event), run cfg es (initial_state start_bootup) = some s

/-! ## Properties of states named by the specification -/

/-- A peer state in which the peer occupies the negotiation slot. -/
def negotiating (st : device_state_t) : Bool :=
  st = STATE_CONNECTING || st = STATE_CONNECTED || st = STATE_DISCOVERING

/-- At most one entry of `devices` is Connecting, Connected or Discovering. -/
def at_most_one_negotiating (s : State) : Prop :=
  ∀ i j, i < DEVICE_COUNT → j < DEVICE_COUNT →
    negotiating (s.devices i).state = true → negotiating (s.devices j).state = true → i = j

/-- For every entry of `devices`, the connection pointer is non-null exactly
when the state is not Idle. -/
def connection_iff_not_idle (s : State) : Prop :=
  ∀ i, i < DEVICE_COUNT → ((s.devices i).connection ≠ none ↔ (s.devices i).state ≠ STATE_IDLE)

/-- The entries of `devices` that the `bt_conn_le_create` calls of a record of
calls were made for, in order. -/
def create_targets : List call → List Nat
  | [] => []
  | call.bt_conn_le_create index :: cs => index :: create_targets cs
  | _ :: cs => create_targets cs

/-- A connection attempt that fails: `none` is a wake-up whose request the
transport rejects synchronously; `some (conn, conn_err)` is a wake-up whose
request is accepted with connection object `conn`, followed by the callback
`connected(conn, conn_err)`. -/
def failed_attempt : Option (Nat × Nat) → List event
  | none => [event.sensor_function bt_conn_le_create_result.rejected]
  | some (conn, conn_err) =>
    [event.sensor_function (bt_conn_le_create_result.accepted conn), event.connected conn conn_err 0]

/-- The assignments of lines 665-668 of `disconnected` to the entry found. -/
def disconnected_reset (d : device_params) : device_params :=
  { d with
    state := STATE_IDLE
    connection := none
    handles := { d.handles with status := 0 }
    readings := device_readings.zero }

/-- The events that bring entry 0 to Active under `temperature_only` with
connection object 1 and then start a connection attempt to entry 1 with
connection object 2. -/
def first_active_second_connecting : List event :=
  [event.sensor_function (bt_conn_le_create_result.accepted 1),
   event.connected 1 0 0,
   event.discover_func 1 (some { handle := 10, value_handle := 10 }),
   event.discover_func 1 (some { handle := 12, value_handle := 13 }),
   event.discover_func 1 (some { handle := 14, value_handle := 14 }),
   event.subscribe_func 1 0,
   event.subscribe_work,
   event.sensor_function (bt_conn_le_create_result.accepted 2)]

/-- The state reached from the state left by `main` by a sequence of events,
under `temperature_only`; the state left by `main` when the sequence cannot be
executed. -/
def state_after (es : List event) : State :=
  (run { APP_ESS_TEMPERATURE := true, APP_ESS_HUMIDITY := false, APP_ESS_PRESSURE := false,
         APP_ESS_DEW_POINT := false, APP_BATTERY_LEVEL := false } es (initial_state true)).getD
    (initial_state true)

/-- Entry 0 in the middle of its discovery (state Discovering, step 2, one
handle recorded) with connection object 1, under `temperature_only`. -/
def mid_discovery : State :=
  state_after
    [event.sensor_function (bt_conn_le_create_result.accepted 1),
     event.connected 1 0 0,
     event.discover_func 1 (some { handle := 10, value_handle := 10 }),
     event.discover_func 1 (some { handle := 12, value_handle := 13 })]

/-- Entry 0 Active on connection object 1 after a failed attempt to connect
entry 1: the failure count is 1. -/
def active_with_failure : State :=
  state_after (first_active_second_connecting ++ [event.connected 2 5 0])

/-- Entry 1 Connecting on connection object 2 after a failed attempt to connect
entry 0: the failure count is 1. -/
def connecting_with_failure : State :=
  state_after
    [event.sensor_function (bt_conn_le_create_result.accepted 1),
     event.connected 1 5 0,
     event.sensor_function (bt_conn_le_create_result.accepted 2)]

/-- The feature set with only `CONFIG_APP_ESS_TEMPERATURE` selected. -/
def temperature_only : Kconfig :=
  { APP_ESS_TEMPERATURE := true, APP_ESS_HUMIDITY := false, APP_ESS_PRESSURE := false,
    APP_ESS_DEW_POINT := false, APP_BATTERY_LEVEL := false }

/-! ## The single-slot discipline -/

/-- The single-slot discipline of the scheduler: the cursor is inside the
table, and an entry that is Connecting, Connected or Discovering is the entry
at the cursor, with `busy` set. -/
def single_slot (s : State) : Prop :=
  s.current_index < DEVICE_COUNT ∧
  ∀ j, negotiating (s.devices j).state = true → s.busy = true ∧ j = s.current_index

/-- An event that the transport delivers in answer to a pending request, in
a given state: a connection request is accepted; a successful connect
completion finds the entry at the cursor Connecting; a discovery callback with
an attribute finds the entry at the cursor in its negotiation.  Every other
event is unconstrained. -/
def answers_request (s : State) : event → Prop
  | event.sensor_function r => r ≠ bt_conn_le_create_result.rejected
  | event.connected _ conn_err _ =>
    conn_err = 0 → (s.devices s.current_index).state = STATE_CONNECTING
  | event.discover_func _ attr =>
    attr ≠ none → negotiating (s.devices s.current_index).state = true
  | _ => True

/-- Every event of a sequence answers a pending request in the state in which
it occurs. -/
def all_answer_requests (cfg : Kconfig) : List event → State → Prop
  | [], _ => True
  | e :: es, s => answers_request s e ∧ ∀ s', step cfg e s = some s' → all_answer_requests cfg es s'

/-! ## A successful negotiation, as a sequence of events -/

/-- The enumerators of `handle_status_t` that stand for a discovery. -/
def is_find_step : handle_status_t → Bool
  | FIND_ESS_SERVICE | FIND_TEMPERATURE | FIND_TEMPERATURE_CCC | FIND_HUMIDITY
  | FIND_HUMIDITY_CCC | FIND_PRESSURE | FIND_PRESSURE_CCC | FIND_DEW_POINT
  | FIND_DEW_POINT_CCC | FIND_BATTERY_SERVICE | FIND_BATTERY_LEVEL
  | FIND_BATTERY_LEVEL_CCC => true
  | _ => false

/-- The enumerators of `handle_status_t` that stand for a subscription. -/
def is_subscribe_step : handle_status_t → Bool
  | SUBSCRIBE_TEMPERATURE | SUBSCRIBE_HUMDIITY | SUBSCRIBE_PRESSURE | SUBSCRIBE_DEW_POINT
  | SUBSCRIBE_BATTERY_LEVEL => true
  | _ => false

/-- Number of discovery steps declared by `handle_status_t` under a feature set. -/
def find_steps (cfg : Kconfig) : Nat :=
  (handle_status_enum cfg).countP is_find_step

/-- Number of subscribe steps declared by `handle_status_t` under a feature set. -/
def subscribe_steps (cfg : Kconfig) : Nat :=
  (handle_status_enum cfg).countP is_subscribe_step

/-- Number of sensor kinds selected by a feature set (battery level not
counted). -/
def sensor_kinds (cfg : Kconfig) : Nat :=
  (if cfg.APP_ESS_TEMPERATURE then 1 else 0) + (if cfg.APP_ESS_HUMIDITY then 1 else 0)
    + (if cfg.APP_ESS_PRESSURE then 1 else 0) + (if cfg.APP_ESS_DEW_POINT then 1 else 0)

/-- What an observer of one entry of the table sees: the state of the entry, its
step counter, and the flag `busy`. -/
def observe (p : Nat) (s : State) : device_state_t × Nat × Bool :=
  ((s.devices p).state, (s.devices p).handles.status, s.busy)

/-- Execute groups of events in order, observing entry `p` after each group;
the result is the list of observations and the final state. -/
def run_observed (cfg : Kconfig) (p : Nat) :
    List (List event) → State → Option (List (device_state_t × Nat × Bool) × State)
  | [], s => some ([], s)
  | g :: gs, s =>
    match run cfg g s with
    | none => none
    | some s1 =>
      match run_observed cfg p gs s1 with
      | none => none
      | some (os, s2) => some (observe p s1 :: os, s2)

/-- The events of a negotiation in which everything succeeds: the wake-up whose
request is accepted with connection object `conn`, the successful connect
completion, one discovery callback with an attribute for each discovery step
(the `j`-th one carrying `attrs j`), and one successful subscribe completion
(the callback `subscribe_func` and the work item it submits) for each subscribe
step. -/
def negotiation (cfg : Kconfig) (conn : Nat) (attrs : Nat → bt_gatt_attr) : List (List event) :=
  [[event.sensor_function (bt_conn_le_create_result.accepted conn)],
   [event.connected conn 0 0]]
  ++ (List.range' 0 (find_steps cfg)).map (fun j => [event.discover_func conn (some (attrs j))])
  ++ List.replicate (subscribe_steps cfg) [event.subscribe_func conn 0, event.subscribe_work]

/-- The `switch` of `next_action` chose a subscription (`action == 3` with a
non-null `param`). -/
def is_subscribe_action : Option switch_result → Bool
  | some r => r.action == 3 && r.param.isSome
  | none => false

/-- The outcome of the step of a successful negotiation that brings the step
counter of entry `p` to `j`: the cursor is on `p`, `discover_params.uuid` is
set, and the entry is Active with `busy` cleared when `j` is
`AWAITING_READINGS`, Discovering with `busy` set otherwise. -/
def step_outcome (cfg : Kconfig) (p j : Nat) (s : State) : Prop :=
  s.current_index = p ∧ (s.devices p).handles.status = j ∧ s.discover_params.uuid = true ∧
  (if j = enum_value cfg AWAITING_READINGS then
    (s.devices p).state = STATE_ACTIVE ∧ s.busy = false
   else (s.devices p).state = STATE_DISCOVERING ∧ s.busy = true)

/-- What the observer of a successful negotiation is expected to see once the
step counter is `j`, for the terminal step `n`: Discovering with `busy` set
before the terminal step, Active with `busy` cleared at the terminal step. -/
def expected_observation (n j : Nat) : device_state_t × Nat × Bool :=
  if j < n then (STATE_DISCOVERING, j, true) else (STATE_ACTIVE, j, false)

/-! ## The fan: `fan_function` (lines 748-843) and `fan_speed_handler` (lines 1289-1327) -/

/-- Modelled from the spec: the macro `PWM_SEC` of Zephyr (`drivers/pwm.h`), whose
definition is not part of the sources: `PWM_SEC(x)` is `x` seconds in
nanoseconds, `x * 1000UL * 1000UL * 1000UL`, evaluated in unsigned 32-bit
arithmetic. -/
def PWM_SEC (x : Nat) : Nat :=
  ((x * 1000 % 2 ^ 32) * 1000 % 2 ^ 32) * 1000 % 2 ^ 32

/-- The expression that the macro `PWM_MAX_PERIOD` (line 37) expands to when it
stands alone as an argument: `PWM_SEC(1U) / 64U`. -/
def PWM_MAX_PERIOD : Nat := PWM_SEC 1 / 64

/-- The pulse argument of line 810, `PWM_MAX_PERIOD * current_fan_speed /
(half_fan_speed == true ? 200U : 100U)`, as the preprocessor expands it:
`PWM_SEC(1U) / 64U * current_fan_speed / (...)`, evaluated from left to right
in unsigned 32-bit arithmetic. -/
def fan_duty (current_fan_speed : Nat) (half_fan_speed : Bool) : Nat :=
  ((PWM_SEC 1 / 64) * current_fan_speed % 2 ^ 32) / (if half_fan_speed = true then 200 else 100)

/-- The conversion `(int8_t)x` of an 8-bit unsigned value. -/
def to_int8 (x : Nat) : Int :=
  if x % 256 < 128 then (x % 256 : Nat) else (x % 256 : Nat) - 256

/-- The conversion `(uint8_t)z` of an integer. -/
def to_uint8 (z : Int) : Nat := (z % 256).toNat

/-- The power-management actions that `main.c` runs on the PWM device. -/
inductive pm_device_action where
  | PM_DEVICE_ACTION_SUSPEND
  | PM_DEVICE_ACTION_RESUME
deriving DecidableEq, Repr

/-- The messages that `fan_speed_handler` prints. -/
inductive fan_message where
  | fan_speed_is (speed : Nat) (half : Bool)
  | actual_fan_speed_is (speed : Nat) (half : Bool)
  | invalid_speed
  | invalid_option
  | fan_speed_set
deriving DecidableEq, Repr

/-- Calls made by the fan thread and the fan command: `pwm_set_dt` (period and
pulse in nanoseconds), `pm_device_action_run`, `gpio_pin_configure_dt` on the
fan pin (output active or inactive, with or without `NRF_GPIO_DRIVE_H0H1`),
`k_sleep`, `k_sem_give(&fan_sem)`, and the two shell output functions. -/
inductive fan_call where
  | pwm_set_dt (period : Nat) (pulse : Nat)
  | pm_device_action_run (action : pm_device_action)
  | gpio_pin_configure_dt (active : Bool) (drive_h0h1 : Bool)
  | k_sleep (ms : Nat)
  | k_sem_give_fan_sem
  | shell_print (msg : fan_message)
  | shell_error (msg : fan_message)
deriving DecidableEq, Repr

/-- The fan globals of `main.c` (lines 220-224) and the record of the calls made
on their behalf. -/
structure fan_state where
  pwm_enabled : Bool
  fan_speed : Nat
  current_fan_speed : Nat
  half_fan_speed : Bool
  current_half_fan_speed : Bool
  calls : List fan_call
deriving DecidableEq, Repr

/-- What the drivers answer during one wake of the fan thread: whether
`pwm_is_ready_dt` holds, the value returned by the `k`-th `pwm_set_dt` of the
ramp (only logged), by `pm_device_action_run` for a resume and for a suspend,
and by the `gpio_pin_configure_dt` call whose result is tested (lines 776 and
833). -/
structure fan_driver where
  pwm_is_ready : Bool
  pwm_set_err : Nat → Int
  resume_err : Int
  suspend_err : Int
  gpio_err : Int

/-- Append calls to the record of the fan calls. -/
def fan_state.call (st : fan_state) (cs : List fan_call) : fan_state :=
  { st with calls := st.calls ++ cs }

/-- Lines 765-774 and 822-831: when the PWM is enabled, command zero duty and
suspend the PWM device; `pwm_enabled` is cleared when the suspend succeeds. -/
def fan_pwm_disable (drv : fan_driver) (st : fan_state) : fan_state :=
  if st.pwm_enabled = true then
    let st1 := st.call [fan_call.pwm_set_dt PWM_MAX_PERIOD 0,
      fan_call.pm_device_action_run pm_device_action.PM_DEVICE_ACTION_SUSPEND]
    if drv.suspend_err = 0 then { st1 with pwm_enabled := false } else st1
  else st

/-- Lines 797-806: when the PWM is not enabled, configure the pin inactive and
resume the PWM device; `pwm_enabled` is set when the resume succeeds. -/
def fan_pwm_enable (drv : fan_driver) (st : fan_state) : fan_state :=
  if st.pwm_enabled = false then
    let st1 := st.call [fan_call.gpio_pin_configure_dt false false,
      fan_call.pm_device_action_run pm_device_action.PM_DEVICE_ACTION_RESUME]
    if drv.resume_err = 0 then { st1 with pwm_enabled := true } else st1
  else st

/-- The body of the loop of lines 808-818: one unit step of `current_fan_speed`
by `change_increment`, the duty-set call for the new speed, and the dwell of
50 ms. -/
def fan_ramp_step (change_increment : Int) (st : fan_state) : fan_state :=
  let speed := to_uint8 (to_int8 st.current_fan_speed + change_increment)
  { st with
    current_fan_speed := speed
    calls := st.calls ++ [fan_call.pwm_set_dt PWM_MAX_PERIOD (fan_duty speed st.half_fan_speed),
                          fan_call.k_sleep 50] }

/-- The loop of lines 808-818, `while (change_amount > 0) { ...; --change_amount;
... }`, by recursion on `change_amount`. -/
def fan_ramp (change_increment : Int) : Nat → fan_state → fan_state
  | 0, st => st
  | change_amount + 1, st => fan_ramp change_increment change_amount (fan_ramp_step change_increment st)

/-- Lines 760-841: the body of one wake of the fan thread once the PWM device
is known to be ready. -/
def fan_update (drv : fan_driver) (st : fan_state) : fan_state :=
  if st.fan_speed = st.current_fan_speed ∧ st.half_fan_speed = st.current_half_fan_speed then st
  else if st.fan_speed = 0 then
    let st1 := fan_pwm_disable drv st
    let st2 := st1.call [fan_call.gpio_pin_configure_dt false true]
    if drv.gpio_err ≠ 0 then st2 else { st2 with current_fan_speed := st2.fan_speed }
  else
    let change_increment : Int := if st.fan_speed > st.current_fan_speed then 1 else -1
    let change_amount : Nat :=
      if st.fan_speed > st.current_fan_speed then (st.fan_speed - st.current_fan_speed) % 256
      else (st.current_fan_speed - st.fan_speed) % 256
    let st1 := fan_pwm_enable drv st
    let st2 := fan_ramp change_increment change_amount st1
    let st3 :=
      if st2.current_fan_speed = 100 then
        (fan_pwm_disable drv st2).call [fan_call.gpio_pin_configure_dt true true]
      else st2
    { st3 with current_half_fan_speed := st3.half_fan_speed }

/-- One iteration of the `while (1)` loop of `fan_function`, from the return of
`k_sem_take(&fan_sem)` to the next `k_sem_take`. -/
def fan_function (drv : fan_driver) (st : fan_state) : fan_state :=
  if drv.pwm_is_ready = false then st else fan_update drv st

/-- The value of `EINVAL` in `errno.h`. -/
def EINVAL : Int := 22

/-- The arguments of the command `fan speed`, as `fan_speed_handler` reads
them: `argc`, whether `argv[1]` is the word `actual`, the value that
`strtoul(argv[1], NULL, 0)` leaves in the `uint32_t` variable `speed`, and
whether `argv[2]` is the word `half`. -/
structure fan_speed_args where
  argc : Nat
  argv1_is_actual : Bool
  speed : Nat
  argv2_is_half : Bool
deriving DecidableEq, Repr

/-- The command `fan speed`: the value returned and the fan globals
afterwards. -/
def fan_speed_handler (a : fan_speed_args) (st : fan_state) : Int × fan_state :=
  if a.argc = 1 then
    (0, st.call [fan_call.shell_print (fan_message.fan_speed_is st.fan_speed st.half_fan_speed)])
  else if a.argv1_is_actual = true then
    (0, st.call [fan_call.shell_print
      (fan_message.actual_fan_speed_is st.current_fan_speed st.half_fan_speed)])
  else if a.speed > 100 then
    (0, st.call [fan_call.shell_print fan_message.invalid_speed])
  else
    let accept (st1 : fan_state) : Int × fan_state :=
      (0, ({ st1 with fan_speed := a.speed % 256 }).call
        [fan_call.k_sem_give_fan_sem, fan_call.shell_print fan_message.fan_speed_set])
    if a.argc = 3 then
      if a.argv2_is_half = true then accept { st with half_fan_speed := true }
      else (-EINVAL, st.call [fan_call.shell_error fan_message.invalid_option])
    else accept { st with half_fan_speed := false }

/-- The pulses of the `pwm_set_dt` calls of a record of fan calls, in order. -/
def duties : List fan_call → List Nat
  | [] => []
  | fan_call.pwm_set_dt _ pulse :: cs => pulse :: duties cs
  | _ :: cs => duties cs

/-- The value of `current_fan_speed` after `j` unit steps from `a` towards a
higher (`up`) or a lower speed. -/
def ramp_value (up : Bool) (a j : Nat) : Nat :=
  if up = true then a + j else a - j

/-- The calls of the `j`-th unit step of a ramp that starts at speed `a`: the
duty-set call for the speed reached and the dwell. -/
def ramp_calls (up : Bool) (a : Nat) (half : Bool) (j : Nat) : List fan_call :=
  [fan_call.pwm_set_dt PWM_MAX_PERIOD (fan_duty (ramp_value up a j) half), fan_call.k_sleep 50]

/-- A driver whose PWM device is ready and whose calls all succeed. -/
def driver_ok : fan_driver :=
  { pwm_is_ready := true, pwm_set_err := fun _ => 0, resume_err := 0, suspend_err := 0,
    gpio_err := 0 }

/-- A driver whose PWM device is not ready. -/
def driver_not_ready : fan_driver :=
  { pwm_is_ready := false, pwm_set_err := fun _ => 0, resume_err := 0, suspend_err := 0,
    gpio_err := 0 }

/-- A driver whose PWM device is ready and whose calls all fail. -/
def driver_failing : fan_driver :=
  { pwm_is_ready := true, pwm_set_err := fun _ => -5, resume_err := -5, suspend_err := -5,
    gpio_err := -5 }

/-- The fan running at speed 30 in PWM mode, commanded to speed 80 at full
drive. -/
def fan_30_to_80 : fan_state :=
  { pwm_enabled := true, fan_speed := 80, current_fan_speed := 30, half_fan_speed := false,
    current_half_fan_speed := false, calls := [] }

/-- The fan running at speed 40 in PWM mode at full drive after a ramp from
speed 30, then commanded to the same speed at half drive. -/
def fan_40_flag_changed : fan_state :=
  { fan_function
      { pwm_is_ready := true, pwm_set_err := fun _ => 0, resume_err := 0, suspend_err := 0,
        gpio_err := 0 }
      { pwm_enabled := true, fan_speed := 40, current_fan_speed := 30, half_fan_speed := false,
        current_half_fan_speed := false, calls := [] }
    with half_fan_speed := true }

/-- The command line `fan speed 101`. -/
def fan_speed_101 : fan_speed_args :=
  { argc := 2, argv1_is_actual := false, speed := 101, argv2_is_half := false }

/-- The command line `fan speed 50`. -/
def fan_speed_50 : fan_speed_args :=
  { argc := 2, argv1_is_actual := false, speed := 50, argv2_is_half := false }

/-- The command line `fan speed 50 full`, whose third argument is not `half`. -/
def fan_speed_50_full : fan_speed_args :=
  { argc := 3, argv1_is_actual := false, speed := 50, argv2_is_half := false }

/-! ## The start of `main` (lines 877-892) and the subscribe path -/

/-- The loop of lines 881-886 of `main`, `while (current_index < DEVICE_COUNT)
{ devices[current_index]... ; ++current_index; }`, with a bound on the
evaluations of its condition (`none` when the bound is reached).  The second
component collects the values of `current_index` with which the loop body
indexes `devices`. -/
def main_reset_loop : Nat → State → List Nat → Option (State × List Nat)
  | 0, _, _ => none
  | fuel + 1, s, accessed =>
    if s.current_index < DEVICE_COUNT then
      main_reset_loop fuel
        { s.modify_device s.current_index
            (fun d => { d with state := STATE_IDLE, handles := device_handles.zero }) with
          current_index := (s.current_index + 1) % 256 }
        (accessed ++ [s.current_index])
    else some (s, accessed)

/-- Lines 879-892 of `main`: `current_index = 0`, the loop that resets the
table, `current_index = 0` again, and `disabled = true` unless
`CONFIG_APP_START_BOOTUP` is selected. -/
def main_reset (start_bootup : Bool) (s : State) : Option (State × List Nat) :=
  match main_reset_loop (DEVICE_COUNT + 1) { s with current_index := 0 } [] with
  | none => none
  | some (s1, accessed) =>
    some ({ s1 with current_index := 0, disabled := if start_bootup then s1.disabled else true },
      accessed)

/-- The enumerator with numeric value `status` is one of the `SUBSCRIBE_*`
steps under the feature set. -/
def subscribe_step_at (cfg : Kconfig) (status : Nat) : Bool :=
  match enum_at cfg status with
  | some t => is_subscribe_step t
  | none => false

/-- The successor of a subscribe step is the terminal step or a subscribe step
whose `switch` case chooses a subscription; checked for one numeric value. -/
def subscribe_successor_ok (cfg : Kconfig) (status : Nat) : Bool :=
  !subscribe_step_at cfg status ||
    (status + 1 == enum_value cfg AWAITING_READINGS ||
      (subscribe_step_at cfg (status + 1) &&
        is_subscribe_action (next_action_switch cfg (status + 1))))

/-- Entry 0 under `temperature_only` after its three discoveries and the
successful completion of its subscription (the callback `subscribe_func` has
submitted the work item, which has not run yet): the step counter is at
`SUBSCRIBE_TEMPERATURE`. -/
def subscription_completed : State :=
  state_after
    [event.sensor_function (bt_conn_le_create_result.accepted 1),
     event.connected 1 0 0,
     event.discover_func 1 (some { handle := 10, value_handle := 10 }),
     event.discover_func 1 (some { handle := 12, value_handle := 13 }),
     event.discover_func 1 (some { handle := 14, value_handle := 14 }),
     event.subscribe_func 1 0]

/-! ## Double-precision division -/

/-- The quotient `num / den` of two natural numbers (`den > 0`) rounded to the
nearest integer, a tie going to the even neighbour. -/
def round_half_even (num den : Nat) : Nat :=
  if 2 * (num % den) < den then num / den
  else if 2 * (num % den) > den then num / den + 1
  else if (num / den) % 2 = 0 then num / den else num / den + 1

/-- Scale `num` by powers of two until `2^52 * den ≤ num`, counting the
doublings: the result is `(num * 2^k, s + k)` for the first `k` that makes the
quotient by `den` at least `2^52` (or for `k = fuel`). -/
def double_scale (den : Nat) : Nat → Nat → Nat → Nat × Nat
  | 0, num, s => (num, s)
  | fuel + 1, num, s =>
    if num < 2 ^ 52 * den then double_scale den fuel (2 * num) (s + 1) else (num, s)

/-- The C expression `(double)a / (double)b` for natural numbers `a` and `b`
that a `double` holds exactly, with `b > 0` and a quotient below `2^53` and not
below the smallest normal number: the IEEE 754 binary64 division, which
returns the quotient rounded to a 53-bit significand (round to nearest, ties
to even).  The value of the resulting `double` is given as a rational
number. -/
def double_div (a b : Nat) : ℚ :=
  if a = 0 then 0
  else
    let r := double_scale b 1074 a 0
    (round_half_even r.1 b : ℚ) / 2 ^ r.2

/-! ## Readings: `notify_func` (lines 232-317) and `ess_readings_handler` (lines 943-1141) -/

/-- Modelled from the spec: the macro `BIT` of Zephyr (`sys/util_macro.h`),
whose definition is not part of the sources; the bitmask `received` has one bit
per enabled kind, and `BIT(n)` is the value with only bit `n` set. -/
def BIT (n : Nat) : Nat := 1 <<< n

/-- The enumerator `RECEIVED_NONE` of `readings_received_t` (lines 88-122). -/
def RECEIVED_NONE : Nat := 0

/-- The enumerator `RECEIVED_TEMPERATURE`. -/
def RECEIVED_TEMPERATURE : Nat := BIT 0

/-- The enumerator `RECEIVED_HUMIDITY`. -/
def RECEIVED_HUMIDITY : Nat := BIT 1

/-- The enumerator `RECEIVED_PRESSURE`. -/
def RECEIVED_PRESSURE : Nat := BIT 2

/-- The enumerator `RECEIVED_DEW_POINT`. -/
def RECEIVED_DEW_POINT : Nat := BIT 3

/-- The enumerator `RECEIVED_BATTERY_LEVEL`. -/
def RECEIVED_BATTERY_LEVEL : Nat := BIT 4

/-- The enumerator `RECEIVED_ALL`: the sum of the bits of the kinds that the
feature set selects. -/
def RECEIVED_ALL (cfg : Kconfig) : Nat :=
  (if cfg.APP_ESS_TEMPERATURE then RECEIVED_TEMPERATURE else 0)
  + (if cfg.APP_ESS_HUMIDITY then RECEIVED_HUMIDITY else 0)
  + (if cfg.APP_ESS_PRESSURE then RECEIVED_PRESSURE else 0)
  + (if cfg.APP_ESS_DEW_POINT then RECEIVED_DEW_POINT else 0)
  + (if cfg.APP_BATTERY_LEVEL then RECEIVED_BATTERY_LEVEL else 0)
  + 0

/-- The value `BT_GATT_ITER_STOP` of Zephyr. -/
def BT_GATT_ITER_STOP : Nat := 0

/-- The value `BT_GATT_ITER_CONTINUE` of Zephyr. -/
def BT_GATT_ITER_CONTINUE : Nat := 1

/-- The byte `((uint8_t *)data)[k]` of a notification payload; `none` when the
payload has no byte `k`, in which case the code reads memory that the payload
does not determine. -/
def payload_byte (data : List Nat) (k : Nat) : Option Nat :=
  match data[k]? with
  | some b => some (b % 256)
  | none => none

/-- Modelled from the spec: the function `sys_get_le16` of Zephyr
(`sys/byteorder.h`), whose definition is not part of the sources: the
little-endian unsigned 16-bit value of two bytes,
`((uint16_t)src[1] << 8) | src[0]`. -/
def sys_get_le16 (src0 src1 : Nat) : Nat :=
  (((src1 % 256) <<< 8) % 65536) ||| (src0 % 256)

/-- Modelled from the spec: the function `sys_get_le32` of Zephyr
(`sys/byteorder.h`), whose definition is not part of the sources: the
little-endian unsigned 32-bit value of four bytes,
`((uint32_t)sys_get_le16(&src[2]) << 16) | sys_get_le16(&src[0])`. -/
def sys_get_le32 (src0 src1 src2 src3 : Nat) : Nat :=
  ((sys_get_le16 src2 src3 <<< 16) % 2 ^ 32) ||| sys_get_le16 src0 src1

/-- What the argument `params` of `notify_func` points to: the member of
`devices[index].handles` that a subscribe step designates, or another
object. -/
inductive subscribe_params_ptr where
  | member (index : Nat) (which : handle_status_t)
  | other
deriving DecidableEq, Repr

/-- The loop of lines 243-248 of `notify_func`, `while (i < DEVICE_COUNT) { if
(devices[i].connection == conn) break; ++i; }`, started at `i` with
`n = DEVICE_COUNT - i` iterations left; the result is the final value of `i`. -/
def notify_search (conn : Option Nat) (s : State) : Nat → Nat → Nat
  | 0, i => i
  | n + 1, i => if (s.devices i).connection = conn then i else notify_search conn s n (i + 1)

/-- The assignment `devices[i].readings.received |= bit`. -/
def device_readings.receive (r : device_readings) (bit : Nat) : device_readings :=
  { r with received := r.received ||| bit }

/-- The callback `notify_func(conn, params, data, length)`: the value returned
and the globals afterwards; `data` is `none` for a null pointer and the list
of the `length` bytes of the payload otherwise.  The result is `none` when the
code reads a byte that the payload does not have.  The division
`((double)value) / 100.0` is the double-precision division `double_div`; the
conversion `(double)value` of a 16-bit or 32-bit value is exact. -/
def notify_func (cfg : Kconfig) (conn : Option Nat) (params : subscribe_params_ptr)
    (data : Option (List Nat)) (s : State) : Option (Nat × State) :=
  match data with
  | none =>
    match params with
    | subscribe_params_ptr.member index which =>
      some (BT_GATT_ITER_STOP, s.modify_device index (fun d =>
        { d with handles :=
            d.handles.set_param which { d.handles.param which with value_handle := 0 } }))
    | subscribe_params_ptr.other => some (BT_GATT_ITER_STOP, s)
  | some bytes =>
    let i := notify_search conn s DEVICE_COUNT 0
    if i = DEVICE_COUNT then some (BT_GATT_ITER_STOP, s)
    else if cfg.APP_ESS_TEMPERATURE = true ∧
        params = subscribe_params_ptr.member i SUBSCRIBE_TEMPERATURE then
      match payload_byte bytes 0, payload_byte bytes 1 with
      | some b0, some b1 =>
        let value := sys_get_le16 b0 b1
        let fp_value : ℚ := double_div value 100
        some (BT_GATT_ITER_CONTINUE, s.modify_device i (fun d =>
          { d with readings :=
              ({ d.readings with temperature := fp_value }).receive RECEIVED_TEMPERATURE }))
      | _, _ => none
    else if cfg.APP_ESS_HUMIDITY = true ∧
        params = subscribe_params_ptr.member i SUBSCRIBE_HUMDIITY then
      match payload_byte bytes 0, payload_byte bytes 1 with
      | some b0, some b1 =>
        let value := sys_get_le16 b0 b1
        let fp_value : ℚ := double_div value 100
        some (BT_GATT_ITER_CONTINUE, s.modify_device i (fun d =>
          { d with readings :=
              ({ d.readings with humidity := fp_value }).receive RECEIVED_HUMIDITY }))
      | _, _ => none
    else if cfg.APP_ESS_PRESSURE = true ∧
        params = subscribe_params_ptr.member i SUBSCRIBE_PRESSURE then
      match payload_byte bytes 0, payload_byte bytes 1, payload_byte bytes 2,
          payload_byte bytes 3 with
      | some b0, some b1, some b2, some b3 =>
        let value := sys_get_le32 b0 b1 b2 b3
        let fp_value : ℚ := (value : ℚ)
        some (BT_GATT_ITER_CONTINUE, s.modify_device i (fun d =>
          { d with readings :=
              ({ d.readings with pressure := fp_value }).receive RECEIVED_PRESSURE }))
      | _, _, _, _ => none
    else if cfg.APP_ESS_DEW_POINT = true ∧
        params = subscribe_params_ptr.member i SUBSCRIBE_DEW_POINT then
      match payload_byte bytes 0 with
      | some b0 =>
        some (BT_GATT_ITER_CONTINUE, s.modify_device i (fun d =>
          { d with readings :=
              ({ d.readings with dew_point := to_int8 b0 }).receive RECEIVED_DEW_POINT }))
      | none => none
    else if cfg.APP_BATTERY_LEVEL = true ∧
        params = subscribe_params_ptr.member i SUBSCRIBE_BATTERY_LEVEL then
      match payload_byte bytes 0 with
      | some b0 =>
        let level := to_uint8 (to_int8 b0)
        some (BT_GATT_ITER_CONTINUE, s.modify_device i (fun d =>
          { d with readings :=
              ({ d.readings with battery_level := level }).receive RECEIVED_BATTERY_LEVEL }))
      | none => none
    else some (BT_GATT_ITER_CONTINUE, s)

/-- The two output formats of `ess_readings_handler`, selected by
`CONFIG_APP_OUTPUT_FORMAT_CUSTOM` or `CONFIG_APP_OUTPUT_FORMAT_CSV`. -/
inductive output_format where
  | APP_OUTPUT_FORMAT_CUSTOM
  | APP_OUTPUT_FORMAT_CSV
deriving DecidableEq, Repr

/-- The constant `device_id_value_offset` (line 157). -/
def device_id_value_offset : Nat := 1

/-- The number that a format prints first in the row of entry `i`: `i` in the
custom format, `device_id_value_offset + i` in the CSV format. -/
def device_number (format : output_format) (i : Nat) : Nat :=
  match format with
  | output_format.APP_OUTPUT_FORMAT_CUSTOM => i
  | output_format.APP_OUTPUT_FORMAT_CSV => device_id_value_offset + i

/-- A row that `ess_readings_handler` appends to its buffer: the device number
printed first and the readings that the other fields are formatted from. -/
structure report_row where
  device : Nat
  readings : device_readings
deriving DecidableEq

/-- The loop of lines 948-988 (custom format) and 1037-1092 (CSV format),
started at `i` with `n = DEVICE_COUNT - i` iterations left: an entry that is
Active and whose `received` equals `RECEIVED_ALL` gets a row, and its
`received` is set to `RECEIVED_NONE`. -/
def ess_readings_loop (cfg : Kconfig) (format : output_format) :
    Nat → Nat → State → List report_row → State × List report_row
  | 0, _, s, rows => (s, rows)
  | n + 1, i, s, rows =>
    if (s.devices i).state = STATE_ACTIVE ∧ (s.devices i).readings.received = RECEIVED_ALL cfg then
      ess_readings_loop cfg format n (i + 1)
        (s.modify_device i (fun d =>
          { d with readings := { d.readings with received := RECEIVED_NONE } }))
        (rows ++ [{ device := device_number format i, readings := (s.devices i).readings }])
    else ess_readings_loop cfg format n (i + 1) s rows

/-- What the local DHT22 sensor answers during one run of the CSV report: the
values returned by the first `sensor_sample_fetch` and by the one made after a
failure, and the two channels read after a successful fetch. -/
structure dht22_sensor where
  fetch_err : Int
  retry_err : Int
  temperature : ℚ
  humidity : ℚ

/-- The result of the command `ess readings`: the value returned, the globals
afterwards, the value of the global `last_dht_reading_pass` afterwards, and the
rows printed between the delimiters or under the heading. -/
structure readings_result where
  ret : Int
  state : State
  last_dht_reading_pass : Bool
  rows : List report_row

/-- The command `ess readings`, in either output format.  The CSV format
reads the local sensor as well, retrying once after 300 ms, and appends a row
for it, numbered as the entry after the last one of the table. -/
def ess_readings_handler (cfg : Kconfig) (format : output_format) (dht22 : dht22_sensor)
    (last_dht_reading_pass : Bool) (s : State) : readings_result :=
  let r := ess_readings_loop cfg format DEVICE_COUNT 0 s []
  match format with
  | output_format.APP_OUTPUT_FORMAT_CUSTOM =>
    { ret := 0, state := r.1, last_dht_reading_pass := last_dht_reading_pass, rows := r.2 }
  | output_format.APP_OUTPUT_FORMAT_CSV =>
    let err := if dht22.fetch_err ≠ 0 then dht22.retry_err else dht22.fetch_err
    let s1 := if dht22.fetch_err ≠ 0 then r.1.call (call.k_sleep 300) else r.1
    { ret := 0
      state := s1
      last_dht_reading_pass := if err ≠ 0 then false else true
      rows :=
        if err = 0 then
          r.2 ++ [{ device := device_number format DEVICE_COUNT
                    readings := { device_readings.zero with
                      temperature := dht22.temperature, humidity := dht22.humidity } }]
        else r.2 }

/-- The entry `i` of the table has a row in a list of rows. -/
def has_row (format : output_format) (i : Nat) (rows : List report_row) : Prop :=
  ∃ row ∈ rows, row.device = device_number format i

/-- A sensor whose first fetch succeeds with 21.5 degrees and 40 percent. -/
def dht22_ok : dht22_sensor :=
  { fetch_err := 0, retry_err := 0, temperature := 43 / 2, humidity := 40 }

/-- Entry 0 Active on connection object 1 under `temperature_only`, after a
temperature notification with the payload `D0 09`; entry 1 is Idle again after a
failed attempt. -/
def active_with_reading : State :=
  match notify_func temperature_only (some 1)
      (subscribe_params_ptr.member 0 SUBSCRIBE_TEMPERATURE) (some [0xD0, 0x09])
      active_with_failure with
  | some r => r.2
  | none => active_with_failure

/-- The feature set with the four sensor kinds and the battery level
selected. -/
def every_kind : Kconfig :=
  { APP_ESS_TEMPERATURE := true, APP_ESS_HUMIDITY := true, APP_ESS_PRESSURE := true,
    APP_ESS_DEW_POINT := true, APP_BATTERY_LEVEL := true }

/-! ## The discovery requests of the sequencer -/

/-- The discovery requests among the calls recorded after the first `n` calls:
the UUID that the global `uuid` holds and the parameters passed to
`bt_gatt_discover`, in order. -/
def discover_requests (n : Nat) (calls : List call) :
    List (bt_uuid_16 × bt_gatt_discover_params) :=
  (calls.drop n).filterMap fun c =>
    match c with
    | call.bt_gatt_discover _ u p => some (u, p)
    | _ => none

/-- Entry 0 under `temperature_only` on connection object 1 after the discovery
of its sensor service at handle 10: the step counter is at
`FIND_TEMPERATURE`. -/
def service_discovered : State :=
  state_after
    [event.sensor_function (bt_conn_le_create_result.accepted 1),
     event.connected 1 0 0,
     event.discover_func 1 (some { handle := 10, value_handle := 10 })]

/-- Entry 0 Idle with the stale pointer to connection object 5 that a failed
connect completion left behind, entry 1 Active on the reused connection object
5, and a failure count of 1 after a failed attempt on entry 2; under
`temperature_only`. -/
def stale_pointer_beside_active : State :=
  state_after
    [event.sensor_function (bt_conn_le_create_result.accepted 5),
     event.connected 5 2 0,
     event.sensor_function (bt_conn_le_create_result.accepted 5),
     event.connected 5 0 0,
     event.discover_func 5 (some { handle := 10, value_handle := 10 }),
     event.discover_func 5 (some { handle := 12, value_handle := 13 }),
     event.discover_func 5 (some { handle := 14, value_handle := 14 }),
     event.subscribe_func 5 0,
     event.subscribe_work,
     event.sensor_function (bt_conn_le_create_result.accepted 6),
     event.connected 6 2 0]

/-! ## A negotiation driven by the requests of the code -/

/-- The call that a step made last: the last of the calls recorded in `s1`
after those already recorded in `s`; `none` when the step made no call. -/
def last_call (s s1 : State) : Option call :=
  (s1.calls.drop s.calls.length).getLast?

/-- The answer of the Bluetooth host and of the kernel, when everything
succeeds, to the call that a step made last, in the state `s1` that the step
left: a connection request is answered by the callback `connected` without
error on the connection object stored by the request; a discovery request by
the callback `discover_func` on the same connection with the attribute found
for the current step (`attrs` gives the attribute for each value of the step
counter); a subscribe request by the callback `subscribe_func` without error;
the submission of the work item by the run of `subscribe_work`.  Any other
call, and a step that made no call, has no answer. -/
def answer (attrs : Nat → bt_gatt_attr) (s1 : State) : Option call → Option event
  | some (call.bt_conn_le_create index) =>
    match (s1.devices index).connection with
    | some conn => some (event.connected conn 0 0)
    | none => none
  | some (call.bt_gatt_discover (some conn) _ _) =>
    some (event.discover_func conn (some (attrs (s1.devices s1.current_index).handles.status)))
  | some (call.bt_gatt_subscribe (some conn) _ _) => some (event.subscribe_func conn 0)
  | some call.k_work_submit_subscribe_workqueue => some event.subscribe_work
  | _ => none

/-- Deliver the event `e`, then keep delivering the answer to the last call
that the code made, until a step makes a call without answer or no call at
all.  The result lists the events delivered, each with what the observer of
entry `p` sees after it, and gives the final state; it is `none` when an event
cannot be executed or when the bound on the number of events is reached. -/
def closed_loop (cfg : Kconfig) (attrs : Nat → bt_gatt_attr) (p : Nat) :
    Nat → event → State → Option (List (event × (device_state_t × Nat × Bool)) × State)
  | 0, _, _ => none
  | fuel + 1, e, s =>
    match step cfg e s with
    | none => none
    | some s1 =>
      match answer attrs s1 (last_call s s1) with
      | none => some ([(e, observe p s1)], s1)
      | some e1 =>
        match closed_loop cfg attrs p fuel e1 s1 with
        | none => none
        | some (trace, s2) => some ((e, observe p s1) :: trace, s2)

/-- The `switch` of `next_action` chose a discovery (`action` 0, 1 or 2). -/
def is_find_action : Option switch_result → Bool
  | some r => decide (r.action ≤ 2)
  | none => false

/-- The event that answers the request made by the step that brings the step
counter to `j`, in a successful negotiation on connection object `conn`: none
at the terminal step, a discovery callback while `j` is a discovery step, a
subscribe completion otherwise. -/
def next_event (cfg : Kconfig) (conn : Nat) (attrs : Nat → bt_gatt_attr) (j : Nat) :
    Option event :=
  if j = enum_value cfg AWAITING_READINGS then none
  else if j < find_steps cfg then some (event.discover_func conn (some (attrs j)))
  else some (event.subscribe_func conn 0)

/-- The discovery callbacks for the steps `i, ..., i + n - 1`, each with the
observation expected after it. -/
def discover_trace (cfg : Kconfig) (conn : Nat) (attrs : Nat → bt_gatt_attr) (i n : Nat) :
    List (event × (device_state_t × Nat × Bool)) :=
  (List.range' i n).map fun j =>
    (event.discover_func conn (some (attrs j)),
      expected_observation (enum_value cfg AWAITING_READINGS) (j + 1))

/-- The subscribe completions for the steps `i, ..., i + n - 1`: the callback
`subscribe_func`, after which the observation is unchanged, and the work item
`subscribe_work`, after which the step counter has advanced. -/
def subscribe_trace (cfg : Kconfig) (conn : Nat) (i n : Nat) :
    List (event × (device_state_t × Nat × Bool)) :=
  (List.range' i n).flatMap fun j =>
    [(event.subscribe_func conn 0, expected_observation (enum_value cfg AWAITING_READINGS) j),
     (event.subscribe_work, expected_observation (enum_value cfg AWAITING_READINGS) (j + 1))]

/-- The events of a successful negotiation of an entry whose step counter was
`status` before, each with the observation expected after it. -/
def negotiation_trace (cfg : Kconfig) (conn : Nat) (attrs : Nat → bt_gatt_attr) (status : Nat) :
    List (event × (device_state_t × Nat × Bool)) :=
  [(event.sensor_function (bt_conn_le_create_result.accepted conn),
      (STATE_CONNECTING, status, true)),
   (event.connected conn 0 0, (STATE_CONNECTED, 0, true))]
  ++ discover_trace cfg conn attrs 0 (find_steps cfg)
  ++ subscribe_trace cfg conn (find_steps cfg) (subscribe_steps cfg)

/-! ## Theorems -/

/-! ### Elementary facts about the helpers -/

@[simp]
theorem modify_device_devices (s : State) (i : Nat) (f : device_params → device_params) :
    (s.modify_device i f).devices = Function.update s.devices i (f (s.devices i)) := rfl

@[simp]
theorem modify_device_current_index (s : State) (i : Nat) (f : device_params → device_params) :
    (s.modify_device i f).current_index = s.current_index := rfl

@[simp]
theorem modify_device_busy (s : State) (i : Nat) (f : device_params → device_params) :
    (s.modify_device i f).busy = s.busy := rfl

@[simp]
theorem modify_device_disabled (s : State) (i : Nat) (f : device_params → device_params) :
    (s.modify_device i f).disabled = s.disabled := rfl

@[simp]
theorem modify_device_connection_failures (s : State) (i : Nat)
    (f : device_params → device_params) :
    (s.modify_device i f).connection_failures = s.connection_failures := rfl

@[simp]
theorem modify_device_uuid (s : State) (i : Nat) (f : device_params → device_params) :
    (s.modify_device i f).uuid = s.uuid := rfl

@[simp]
theorem modify_device_discover_params (s : State) (i : Nat) (f : device_params → device_params) :
    (s.modify_device i f).discover_params = s.discover_params := rfl

@[simp]
theorem modify_device_calls (s : State) (i : Nat) (f : device_params → device_params) :
    (s.modify_device i f).calls = s.calls := rfl

@[simp]
theorem call_devices (s : State) (c : call) : (s.call c).devices = s.devices := rfl

@[simp]
theorem call_current_index (s : State) (c : call) :
    (s.call c).current_index = s.current_index := rfl

@[simp]
theorem call_busy (s : State) (c : call) : (s.call c).busy = s.busy := rfl

@[simp]
theorem call_disabled (s : State) (c : call) : (s.call c).disabled = s.disabled := rfl

@[simp]
theorem call_connection_failures (s : State) (c : call) :
    (s.call c).connection_failures = s.connection_failures := rfl

@[simp]
theorem call_uuid (s : State) (c : call) : (s.call c).uuid = s.uuid := rfl

@[simp]
theorem call_discover_params (s : State) (c : call) :
    (s.call c).discover_params = s.discover_params := rfl

@[simp]
theorem call_calls (s : State) (c : call) : (s.call c).calls = s.calls ++ [c] := rfl

/-- On an index inside the table, advancing the cursor is the successor modulo
the table size. -/
theorem advance_current_index_eq (c : Nat) (hc : c < DEVICE_COUNT) :
    advance_current_index c = (c + 1) % DEVICE_COUNT := by
  unfold DEVICE_COUNT at *
  interval_cases c <;> decide

/-- The cursor produced by advancing is always inside the table. -/
theorem advance_current_index_lt (c : Nat) : advance_current_index c < DEVICE_COUNT := by
  unfold advance_current_index DEVICE_COUNT
  split <;> omega

/-! ### The backoff (C4) -/

/-- C4: for every failure count `f` the delay applied before the connection
request is 0 ms for `f ≤ 8`, 800 ms for `9 ≤ f ≤ 16`, 4000 ms for
`17 ≤ f ≤ 27` and 10000 ms for `f ≥ 28`; it is therefore non-decreasing in
`f`; and the sleep is what `sensor_function` records between the selection and
the call of `bt_conn_le_create`. -/
theorem backoff_delay_table (f : Nat) :
    (f ≤ 8 → backoff_delay f = 0) ∧
    (9 ≤ f → f ≤ 16 → backoff_delay f = 800) ∧
    (17 ≤ f → f ≤ 27 → backoff_delay f = 4000) ∧
    (28 ≤ f → backoff_delay f = 10000) ∧
    (∀ g, f ≤ g → backoff_delay f ≤ backoff_delay g) ∧
    (∀ (r : bt_conn_le_create_result) (s : State), s.connection_failures = f →
      (create_connection r s).calls
        = s.calls ++ backoff f ++ [call.bt_conn_le_create s.current_index]) := by
  have key : ∀ n, backoff_delay n =
      if n ≥ 28 then 10000 else if n > 16 then 4000 else if n > 8 then 800 else 0 := by
    intro n
    unfold backoff_delay backoff
    split_ifs <;> simp [slept_ms]
  refine ⟨?_, ?_, ?_, ?_, ?_, ?_⟩
  · intro h
    rw [key]
    split_ifs <;> first | rfl | omega
  · intro h1 h2
    rw [key]
    split_ifs <;> first | rfl | omega
  · intro h1 h2
    rw [key]
    split_ifs <;> first | rfl | omega
  · intro h
    rw [key, if_pos h]
  · intro g hg
    rw [key, key]
    split_ifs <;> omega
  · intro r s hf
    subst hf
    cases r <;> simp [create_connection]

/-- C4, witness: with 20 recorded failures the delay is 4000 ms. -/
theorem backoff_delay_table_witness :
    17 ≤ 20 ∧ 20 ≤ 27 ∧ backoff_delay 20 = 4000 :=
  ⟨by decide, by decide, (backoff_delay_table 20).2.2.1 (by decide) (by decide)⟩

/-! ### What the sequencer and the callbacks leave unchanged -/

/-- The request part of `next_action` changes neither the scheduler globals
nor the state, connection or step counter of any entry. -/
theorem next_action_request_frame {conn : Option Nat} {attr : Option bt_gatt_attr}
    {r : switch_result} {s s' : State} (h : next_action_request conn attr r s = some s') :
    s'.current_index = s.current_index ∧ s'.connection_failures = s.connection_failures ∧
    s'.disabled = s.disabled ∧ s'.busy = s.busy ∧
    (∀ i, (s'.devices i).state = (s.devices i).state ∧
      (s'.devices i).connection = (s.devices i).connection ∧
      (s'.devices i).handles.status = (s.devices i).handles.status ∧
      (s'.devices i).readings = (s.devices i).readings) := by
  unfold next_action_request at h
  simp only at h
  split_ifs at h
  any_goals (simp only [Option.some.injEq] at h; subst h; simp)
  · cases attr with
    | none => simp at h
    | some a => simp only [Option.some.injEq] at h; subst h; simp
  · cases hp : r.param with
    | none => simp [hp] at h
    | some which =>
      simp only [hp, Option.some.injEq] at h
      subst h
      refine ⟨rfl, rfl, rfl, rfl, ?_⟩
      intro i
      by_cases hi : i = s.current_index
      · subst hi
        cases which <;> simp [device_handles.set_param]
      · simp [Function.update, hi]

/-- The request part of `next_action` keeps a non-null `discover_params.uuid`
non-null. -/
theorem next_action_request_uuid {conn : Option Nat} {attr : Option bt_gatt_attr}
    {r : switch_result} {s s' : State} (h : next_action_request conn attr r s = some s')
    (hu : s.discover_params.uuid = true) : s'.discover_params.uuid = true := by
  unfold next_action_request at h
  simp only at h
  split_ifs at h
  any_goals (simp only [Option.some.injEq] at h; subst h; simp [hu])
  · cases attr with
    | none => simp at h
    | some a => simp only [Option.some.injEq] at h; subst h; simp
  · cases hp : r.param with
    | none => simp [hp] at h
    | some which => simp only [hp, Option.some.injEq] at h; subst h; simp [hu]

/-- The request part of `next_action` returns whenever an attribute is passed,
and whenever the step chosen by the `switch` is well formed and is not a
descriptor discovery. -/
theorem next_action_request_defined (conn : Option Nat) (attr : Option bt_gatt_attr)
    (r : switch_result) (s : State)
    (h : (attr ≠ none ∧ (r.action = 3 → r.param ≠ none)) ∨ (r.action = 3 ∧ r.param ≠ none)) :
    ∃ s', next_action_request conn attr r s = some s' := by
  unfold next_action_request
  simp only
  split_ifs
  any_goals exact ⟨_, rfl⟩
  · cases attr with
    | none => rcases h with h | h
              · exact absurd rfl h.1
              · omega
    | some a => exact ⟨_, rfl⟩
  · cases hp : r.param with
    | none => rcases h with h | h
              · exact absurd hp (h.2 (by assumption))
              · exact absurd hp h.2
    | some which => exact ⟨_, rfl⟩

/-- What one call of `next_action` does to the globals: the step counter of the
entry at `current_index` grows by one; when it reaches `AWAITING_READINGS` that
entry becomes Active and `busy` is cleared, otherwise state and `busy` are
untouched; every other entry keeps its state and step counter; connections,
readings, `current_index`, `connection_failures` and `disabled` never change. -/
theorem next_action_spec {cfg : Kconfig} {conn : Option Nat} {attr : Option bt_gatt_attr}
    {s s' : State} (h : next_action cfg conn attr s = some s') :
    s'.current_index = s.current_index ∧ s'.connection_failures = s.connection_failures ∧
    s'.disabled = s.disabled ∧
    (∀ i, (s'.devices i).connection = (s.devices i).connection ∧
      (s'.devices i).readings = (s.devices i).readings) ∧
    (∀ i, i ≠ s.current_index → (s'.devices i).state = (s.devices i).state ∧
      (s'.devices i).handles.status = (s.devices i).handles.status) ∧
    (s'.devices s.current_index).handles.status
      = (s.devices s.current_index).handles.status + 1 ∧
    (if (s.devices s.current_index).handles.status + 1 = enum_value cfg AWAITING_READINGS then
      s'.busy = false ∧ (s'.devices s.current_index).state = STATE_ACTIVE
     else
      s'.busy = s.busy ∧
      (s'.devices s.current_index).state = (s.devices s.current_index).state) := by
  unfold next_action at h
  simp only at h
  split_ifs at h with hN
  · simp only [Option.some.injEq] at h
    subst h
    simp only [hN, if_true]
    refine ⟨rfl, rfl, rfl, ?_, ?_, ?_, ?_⟩
    · intro i
      by_cases hi : i = s.current_index
      · subst hi; simp
      · simp [Function.update, hi]
    · intro i hi
      simp [Function.update, hi]
    · simp [hN]
    · simp
  · simp only [hN, if_false]
    split at h
    · simp only [Option.some.injEq] at h
      subst h
      refine ⟨rfl, rfl, rfl, ?_, ?_, ?_, ?_⟩
      · intro i
        by_cases hi : i = s.current_index
        · subst hi; simp
        · simp [Function.update, hi]
      · intro i hi
        simp [Function.update, hi]
      · simp
      · simp
    · rename_i r hr
      have hf := next_action_request_frame h
      obtain ⟨h1, h2, h3, h4, h5⟩ := hf
      have hc : ∀ (t : State), (match r.uuid with
          | some u => { t with uuid := u }
          | none => t).current_index = t.current_index ∧
          (match r.uuid with
          | some u => { t with uuid := u }
          | none => t).devices = t.devices ∧
          (match r.uuid with
          | some u => { t with uuid := u }
          | none => t).busy = t.busy ∧
          (match r.uuid with
          | some u => { t with uuid := u }
          | none => t).disabled = t.disabled ∧
          (match r.uuid with
          | some u => { t with uuid := u }
          | none => t).connection_failures = t.connection_failures := by
        intro t
        cases r.uuid <;> simp
      obtain ⟨c1, c2, c3, c4, c5⟩ := hc (s.modify_device s.current_index
        (fun d => { d with handles := { d.handles with
          status := (s.devices s.current_index).handles.status + 1 } }))
      rw [c1] at h1
      rw [c5] at h2
      rw [c4] at h3
      rw [c3] at h4
      simp only [c2] at h5
      refine ⟨h1, h2, h3, ?_, ?_, ?_, ?_⟩
      · intro i
        obtain ⟨_, a2, _, a4⟩ := h5 i
        rw [a2, a4]
        by_cases hi : i = s.current_index
        · subst hi; simp
        · simp [Function.update, hi]
      · intro i hi
        obtain ⟨a1, _, a3, _⟩ := h5 i
        rw [a1, a3]
        simp [Function.update, hi]
      · obtain ⟨_, _, a3, _⟩ := h5 s.current_index
        rw [a3]
        simp
      · obtain ⟨a1, _, _, _⟩ := h5 s.current_index
        rw [a1]
        exact ⟨h4, by simp⟩

/-- A property of both branches of a conditional holds of the conditional. -/
theorem ite_prop {α : Type} (P : α → Prop) (c : Prop) [Decidable c] (a b : α)
    (ha : c → P a) (hb : ¬c → P b) : P (if c then a else b) := by
  split_ifs with h
  · exact ha h
  · exact hb h

/-- The recording part of `discover_func` keeps the connection, the readings
and the step counter of the entry, and sets its state to Discovering exactly
when the UUID searched for is that of the sensor service. -/
theorem discover_record_fields_spec (cfg : Kconfig) (a : bt_gatt_attr) (uuid : bt_uuid_16)
    (d : device_params) :
    (discover_record_fields cfg a uuid d).connection = d.connection ∧
    (discover_record_fields cfg a uuid d).readings = d.readings ∧
    (discover_record_fields cfg a uuid d).handles.status = d.handles.status ∧
    (uuid = BT_UUID_ESS → (discover_record_fields cfg a uuid d).state = STATE_DISCOVERING) ∧
    (uuid ≠ BT_UUID_ESS → (discover_record_fields cfg a uuid d).state = d.state) := by
  have key : ∀ (P : device_params → Prop),
      (uuid = BT_UUID_ESS → ∀ h1 : device_handles, h1.status = d.handles.status →
        P { d with state := STATE_DISCOVERING, handles := h1 }) →
      (uuid ≠ BT_UUID_ESS → ∀ h1 : device_handles, h1.status = d.handles.status →
        P { d with handles := h1 }) →
      P (discover_record_fields cfg a uuid d) := by
    intro P hP1 hP2
    unfold discover_record_fields
    dsimp only
    refine ite_prop P _ _ _ (fun hc => hP1 hc _ rfl) (fun hc => ?_)
    repeat refine ite_prop P _ _ _ (fun _ => hP2 hc _ rfl) (fun _ => ?_)
    exact hP2 hc _ rfl
  refine key (fun d' => d'.connection = d.connection ∧ d'.readings = d.readings ∧
    d'.handles.status = d.handles.status ∧ (uuid = BT_UUID_ESS → d'.state = STATE_DISCOVERING) ∧
    (uuid ≠ BT_UUID_ESS → d'.state = d.state)) ?_ ?_
  · intro hu h1 hs
    exact ⟨rfl, rfl, hs, fun _ => rfl, fun hn => absurd hu hn⟩
  · intro hu h1 hs
    exact ⟨rfl, rfl, hs, fun hn => absurd hn hu, fun _ => rfl⟩

/-- The recording part of `discover_func` touches only the entry at
`current_index`: it may set its state to Discovering (exactly when the UUID
searched for is that of the sensor service) and fills in handles; the step
counter, the connections, the readings and the scheduler globals are
unchanged. -/
theorem discover_record_spec (cfg : Kconfig) (a : bt_gatt_attr) (s : State) :
    (discover_record cfg a s).current_index = s.current_index ∧
    (discover_record cfg a s).connection_failures = s.connection_failures ∧
    (discover_record cfg a s).disabled = s.disabled ∧
    (discover_record cfg a s).busy = s.busy ∧
    (discover_record cfg a s).discover_params = s.discover_params ∧
    (∀ i, ((discover_record cfg a s).devices i).connection = (s.devices i).connection ∧
      ((discover_record cfg a s).devices i).readings = (s.devices i).readings ∧
      ((discover_record cfg a s).devices i).handles.status = (s.devices i).handles.status) ∧
    (∀ i, i ≠ s.current_index →
      ((discover_record cfg a s).devices i).state = (s.devices i).state) ∧
    ((discover_record cfg a s).devices s.current_index).state
      = (if s.uuid = BT_UUID_ESS then STATE_DISCOVERING
         else (s.devices s.current_index).state) := by
  have hd := discover_record_fields_spec cfg a s.uuid
  unfold discover_record
  refine ⟨rfl, rfl, rfl, rfl, rfl, ?_, ?_, ?_⟩
  · intro i
    by_cases hi : i = s.current_index
    · subst hi
      simp [hd]
    · simp [Function.update, hi]
  · intro i hi
    simp [Function.update, hi]
  · obtain ⟨_, _, _, h4, h5⟩ := hd (s.devices s.current_index)
    by_cases hu : s.uuid = BT_UUID_ESS
    · rw [if_pos hu]; simpa using h4 hu
    · rw [if_neg hu]; simpa using h5 hu

/-- The search loop of `disconnected` leaves `connection_failures` as it was or
sets it to zero, and changes neither `current_index`, `busy` nor `disabled`. -/
theorem disconnected_search_globals (conn : Nat) (n i : Nat) (s : State) :
    ((disconnected_search conn n i s).connection_failures = 0 ∨
      (disconnected_search conn n i s).connection_failures = s.connection_failures) ∧
    (disconnected_search conn n i s).current_index = s.current_index ∧
    (disconnected_search conn n i s).busy = s.busy ∧
    (disconnected_search conn n i s).disabled = s.disabled := by
  induction n generalizing i with
  | zero => simp [disconnected_search]
  | succ n ih =>
    unfold disconnected_search
    split_ifs
    · simp
    · simp
    · exact ih (i + 1)

/-- The loop of the disconnect commands only records calls. -/
theorem disconnect_loop_frame (n i : Nat) (s : State) :
    (disconnect_loop n i s).devices = s.devices ∧
    (disconnect_loop n i s).current_index = s.current_index ∧
    (disconnect_loop n i s).busy = s.busy ∧
    (disconnect_loop n i s).disabled = s.disabled ∧
    (disconnect_loop n i s).connection_failures = s.connection_failures := by
  induction n generalizing i s with
  | zero => simp [disconnect_loop]
  | succ n ih =>
    unfold disconnect_loop
    simp only
    obtain ⟨h1, h2, h3, h4, h5⟩ := ih (i + 1) (match (s.devices i).connection with
      | some conn =>
        if (s.devices i).state ≠ STATE_IDLE then s.call (call.bt_conn_disconnect conn) else s
      | none => s)
    rw [h1, h2, h3, h4, h5]
    cases (s.devices i).connection with
    | none => simp
    | some c => simp only; split_ifs <;> simp

/-- One wake-up of the scheduler thread never changes `connection_failures`. -/
theorem sensor_function_connection_failures {fuel : Nat} {r : bt_conn_le_create_result}
    {s s' : State} (h : sensor_function fuel r s = some s') :
    s'.connection_failures = s.connection_failures := by
  unfold sensor_function at h
  split_ifs at h
  · cases h; rfl
  · cases h; rfl
  · split at h
    · cases h
    · simp only [Option.some.injEq] at h
      subst h
      cases r <;> simp [create_connection, select_peer]

/-- The callback `disconnected` leaves `connection_failures` as it was or sets
it to zero. -/
theorem disconnected_connection_failures (conn : Nat) (s : State) :
    (disconnected conn s).connection_failures = 0 ∨
    (disconnected conn s).connection_failures = s.connection_failures := by
  unfold disconnected
  simp only [call_connection_failures]
  split_ifs
  · exact (disconnected_search_globals conn _ _ _).1
  · exact (disconnected_search_globals conn _ _ _).1
  · exact (disconnected_search_globals conn _ _ _).1
  · exact (disconnected_search_globals conn _ _ _).1

/-- The callback `connected` keeps `connection_failures` at or below 30. -/
theorem connected_connection_failures_le (cfg : Kconfig) (conn conn_err : Nat)
    (discover_err : Int) (s : State) (h : s.connection_failures ≤ 30) :
    (connected cfg conn conn_err discover_err s).connection_failures ≤ 30 := by
  unfold connected
  split_ifs
  · simp only [call_connection_failures]; omega
  · simp only [call_connection_failures]; omega
  · simp
  · simp

/-- Every event keeps `connection_failures` at or below 30. -/
theorem step_connection_failures_le {cfg : Kconfig} {e : event} {s s' : State}
    (h : step cfg e s = some s') (hs : s.connection_failures ≤ 30) :
    s'.connection_failures ≤ 30 := by
  cases e with
  | sensor_function r =>
    rw [sensor_function_connection_failures h]; exact hs
  | connected conn conn_err discover_err =>
    simp only [step, Option.some.injEq] at h
    subst h
    exact connected_connection_failures_le cfg conn conn_err discover_err s hs
  | discover_func conn attr =>
    simp only [step, discover_func] at h
    cases attr with
    | none => simp only [Option.some.injEq] at h; subst h; exact hs
    | some a =>
      simp only at h
      split_ifs at h
      rw [(next_action_spec h).2.1, (discover_record_spec cfg a s).2.1]
      exact hs
  | subscribe_func conn err =>
    simp only [step, Option.some.injEq, subscribe_func] at h
    subst h
    split_ifs <;> exact hs
  | subscribe_work =>
    simp only [step, subscribe_work] at h
    rw [(next_action_spec h).2.1]
    exact hs
  | disconnected conn =>
    simp only [step, Option.some.injEq] at h
    subst h
    rcases disconnected_connection_failures conn s with h0 | h0 <;> rw [h0]
    · omega
    · exact hs
  | ess_enable_handler =>
    simp only [step, Option.some.injEq, ess_enable_handler] at h
    subst h
    split_ifs <;> exact hs
  | ess_disable_handler =>
    simp only [step, Option.some.injEq, ess_disable_handler] at h
    subst h
    split_ifs
    · rw [(disconnect_loop_frame _ _ _).2.2.2.2]; exact hs
    · exact hs
  | ess_disconnect_handler =>
    simp only [step, Option.some.injEq, ess_disconnect_handler] at h
    subst h
    rw [(disconnect_loop_frame _ _ _).2.2.2.2]; exact hs

/-- Induction over executions: a property that holds before a sequence of
events, and that every event preserves, holds after it. -/
theorem run_induction {cfg : Kconfig} (P : State → Prop)
    (hstep : ∀ (e : event) (s s' : State), P s → step cfg e s = some s' → P s')
    (es : List event) (s s' : State) (hs : P s) (h : run cfg es s = some s') : P s' := by
  induction es generalizing s with
  | nil =>
    simp only [run, Option.some.injEq] at h
    subst h
    exact hs
  | cons e es ih =>
    simp only [run] at h
    cases hst : step cfg e s with
    | none => simp [hst] at h
    | some t =>
      simp only [hst, Option.some_bind] at h
      exact ih t (hstep e s t hs hst) h

/-! ### Synchronous rejection of the connection request (C3, C1) -/

/-- C3: evaluation of the code where the claim fails.  From the state left by
`main` (scheduler enabled), the first wake-up selects the Idle entry 0; when
`bt_conn_le_create` rejects the request, `busy` is false afterwards but entry 0
is left in state Connecting, not Idle, with a null connection. -/
theorem sensor_function_rejected_leaves_connecting :
    ∃ s, sensor_function SELECT_FUEL bt_conn_le_create_result.rejected (initial_state true)
        = some s ∧
      ((initial_state true).devices 0).state = STATE_IDLE ∧
      s.current_index = 0 ∧ s.busy = false ∧
      (s.devices 0).state = STATE_CONNECTING ∧ (s.devices 0).state ≠ STATE_IDLE ∧
      (s.devices 0).connection = none :=
  ⟨_, rfl, by decide, by decide, by decide, by decide, by decide, by decide⟩

/-- On every wake-up that selects an entry and whose request the transport
rejects, the selected entry is left in state Connecting with `busy` false. -/
theorem sensor_function_rejected {fuel : Nat} {s s' : State}
    (h : sensor_function fuel bt_conn_le_create_result.rejected s = some s')
    (hd : s.disabled = false) (hb : s.busy = false)
    (hi : idle_scan s.devices DEVICE_COUNT 0 ≠ DEVICE_COUNT) :
    s'.busy = false ∧ (s'.devices s'.current_index).state = STATE_CONNECTING := by
  unfold sensor_function at h
  simp only [hd, hb, Bool.or_self, Bool.false_eq_true, if_false, hi] at h
  split at h
  · cases h
  · simp only [Option.some.injEq] at h
    subst h
    simp [create_connection, select_peer]

/-- C1: evaluation of the code where the claim fails.  From the state left by
`main`, a wake-up whose request is rejected, the commands `ess disable` and
`ess enable` (which raise the wake signal again), and a second wake-up lead to
a state in which entries 0 and 1 are both Connecting. -/
theorem two_peers_connecting (cfg : Kconfig) :
    ∃ s, run cfg [event.sensor_function bt_conn_le_create_result.rejected,
                  event.ess_disable_handler, event.ess_enable_handler,
                  event.sensor_function (bt_conn_le_create_result.accepted 1)]
          (initial_state true) = some s ∧
      (s.devices 0).state = STATE_CONNECTING ∧ (s.devices 1).state = STATE_CONNECTING ∧
      Reachable cfg s ∧ ¬ at_most_one_negotiating s := by
  refine ⟨_, rfl, rfl, rfl, ⟨true, [event.sensor_function bt_conn_le_create_result.rejected,
    event.ess_disable_handler, event.ess_enable_handler,
    event.sensor_function (bt_conn_le_create_result.accepted 1)], rfl⟩, fun h => ?_⟩
  have h01 := h 0 1 (by decide) (by decide) rfl rfl
  exact absurd h01 (by decide)

/-! ### Connection pointer and state (C2) -/

/-- C2: evaluation of the code where the claim fails.  After a wake-up whose
request is accepted with connection object 1 and a connect completion that
reports an error, entry 0 is Idle while its connection pointer still holds the
released object; and after a wake-up whose request is rejected, entry 0 is
Connecting with a null connection pointer. -/
theorem connection_pointer_and_state_disagree (cfg : Kconfig) :
    (∃ s, run cfg [event.sensor_function (bt_conn_le_create_result.accepted 1),
                   event.connected 1 2 0] (initial_state true) = some s ∧
      (s.devices 0).state = STATE_IDLE ∧ (s.devices 0).connection = some 1 ∧
      Reachable cfg s ∧ ¬ connection_iff_not_idle s) ∧
    (∃ s, run cfg [event.sensor_function bt_conn_le_create_result.rejected]
          (initial_state true) = some s ∧
      (s.devices 0).state = STATE_CONNECTING ∧ (s.devices 0).connection = none ∧
      Reachable cfg s ∧ ¬ connection_iff_not_idle s) := by
  constructor
  · refine ⟨_, rfl, rfl, rfl, ⟨true, [event.sensor_function
      (bt_conn_le_create_result.accepted 1), event.connected 1 2 0], rfl⟩, fun h => ?_⟩
    exact (h 0 (by decide)).1 (Option.some_ne_none 1) rfl
  · refine ⟨_, rfl, rfl, rfl, ⟨true, [event.sensor_function
      bt_conn_le_create_result.rejected], rfl⟩, fun h => ?_⟩
    exact (h 0 (by decide)).2 (by decide) rfl

/-! ### Connect completion with an error (C5) -/

/-- C5: a connect completion that reports an error, in a state whose
`current_index` is `c < 3` and whose failure count is `f`, leaves entry `c`
Idle, clears `busy`, sets the failure count to `f + 1` when `f < 30` and leaves
it at `f` otherwise, and sets `current_index` to `(c + 1) mod 3`; and in every
state reachable from the state left by `main` the failure count is at most
30. -/
theorem connected_error (cfg : Kconfig) (s : State) (conn conn_err : Nat) (discover_err : Int)
    (herr : conn_err ≠ 0) (hc : s.current_index < 3) :
    ((connected cfg conn conn_err discover_err s).devices s.current_index).state = STATE_IDLE ∧
    (connected cfg conn conn_err discover_err s).busy = false ∧
    (connected cfg conn conn_err discover_err s).connection_failures
      = (if s.connection_failures < 30 then s.connection_failures + 1
         else s.connection_failures) ∧
    (connected cfg conn conn_err discover_err s).current_index = (s.current_index + 1) % 3 ∧
    (∀ s', Reachable cfg s' → s'.connection_failures ≤ 30) := by
  refine ⟨?_, ?_, ?_, ?_, ?_⟩
  · simp [connected, herr]
  · simp [connected, herr]
  · simp only [connected, herr, ne_eq, not_false_eq_true, if_true, call_connection_failures]
    split_ifs with hf
    · exact Nat.mod_eq_of_lt (by omega)
    · rfl
  · simp only [connected, herr, ne_eq, not_false_eq_true, if_true, call_current_index]
    exact advance_current_index_eq s.current_index hc
  · rintro s' ⟨b, es, hrun⟩
    exact run_induction (fun t => t.connection_failures ≤ 30)
      (fun e t t' ht hstep => step_connection_failures_le hstep ht) es _ s'
      (by simp [initial_state]) hrun

/-- C5, witness: the error completion of the first connection attempt. -/
theorem connected_error_witness :
    (2 : Nat) ≠ 0 ∧ (initial_state true).current_index < 3 ∧
    (connected temperature_only 1 2 0 (initial_state true)).connection_failures = 1 ∧
    (connected temperature_only 1 2 0 (initial_state true)).current_index = 1 :=
  ⟨by decide, by decide,
    (connected_error temperature_only (initial_state true) 1 2 0 (by decide) (by decide)).2.2.1,
    (connected_error temperature_only (initial_state true) 1 2 0 (by decide) (by decide)).2.2.2.1⟩

/-! ### The disconnect event (C6, C7, C8) -/

/-- When exactly one entry `i` of the table holds the connection `conn` and
`current_index` is inside the table, `disconnected` resets entry `i` and
nothing else in the table, clears the failure count exactly when entry `i` was
Active, and advances `current_index` exactly when `i` is `current_index`. -/
theorem disconnected_unique_owner (s : State) (conn i : Nat) (hi : i < DEVICE_COUNT)
    (hc : s.current_index < DEVICE_COUNT)
    (hown : ∀ j, j < DEVICE_COUNT → ((s.devices j).connection = some conn ↔ j = i)) :
    (disconnected conn s).devices = Function.update s.devices i (disconnected_reset (s.devices i)) ∧
    (disconnected conn s).connection_failures
      = (if (s.devices i).state = STATE_ACTIVE then 0 else s.connection_failures) ∧
    (disconnected conn s).current_index
      = (if s.current_index = i then (i + 1) % DEVICE_COUNT else s.current_index) := by
  have h0 := hown 0 (by decide)
  have h1 := hown 1 (by decide)
  have h2 := hown 2 (by decide)
  unfold DEVICE_COUNT at hi hc
  generalize hcur : s.current_index = c at *
  interval_cases i <;> interval_cases c <;> simp at h0 h1 h2 <;>
    (refine ⟨?_, ?_, ?_⟩ <;>
      simp [disconnected, disconnected_search, disconnected_reset, DEVICE_COUNT,
        advance_current_index, hcur, h0, h1, h2] <;>
      split_ifs <;> simp_all [State.modify_device])

/-- C6: a disconnect event whose connection is held by exactly one entry `i`
of the table (in whatever state that entry is) leaves entry `i` Idle with a
null connection, its step counter at the initial step 0 and all its readings
and its received bitmask zero, and leaves every other entry of the table
exactly as it was. -/
theorem disconnected_resets_only_owner (s : State) (conn i : Nat) (hi : i < DEVICE_COUNT)
    (hc : s.current_index < DEVICE_COUNT)
    (hown : ∀ j, j < DEVICE_COUNT → ((s.devices j).connection = some conn ↔ j = i)) :
    ((disconnected conn s).devices i).state = STATE_IDLE ∧
    ((disconnected conn s).devices i).connection = none ∧
    ((disconnected conn s).devices i).handles.status = 0 ∧
    ((disconnected conn s).devices i).readings = device_readings.zero ∧
    ((disconnected conn s).devices i).readings.received = 0 ∧
    (∀ j, j ≠ i → (disconnected conn s).devices j = s.devices j) := by
  rw [(disconnected_unique_owner s conn i hi hc hown).1]
  refine ⟨?_, ?_, ?_, ?_, ?_, ?_⟩
  · simp [disconnected_reset]
  · simp [disconnected_reset]
  · simp [disconnected_reset]
  · simp [disconnected_reset]
  · simp [disconnected_reset, device_readings.zero]
  · intro j hj
    simp [Function.update, hj]

/-- C6, witness: entry 0 is disconnected in the middle of its discovery. -/
theorem disconnected_resets_only_owner_witness :
    (0 < DEVICE_COUNT ∧ mid_discovery.current_index < DEVICE_COUNT ∧
      (∀ j, j < DEVICE_COUNT → ((mid_discovery.devices j).connection = some 1 ↔ j = 0)) ∧
      (mid_discovery.devices 0).state = STATE_DISCOVERING ∧
      (mid_discovery.devices 0).handles.status = 2) ∧
    ((disconnected 1 mid_discovery).devices 0).state = STATE_IDLE ∧
    ((disconnected 1 mid_discovery).devices 0).handles.status = 0 ∧
    (disconnected 1 mid_discovery).devices 1 = mid_discovery.devices 1 :=
  have hown : ∀ j, j < DEVICE_COUNT → ((mid_discovery.devices j).connection = some 1 ↔ j = 0) := by
    intro j hj
    unfold DEVICE_COUNT at hj
    interval_cases j <;> decide
  have h := disconnected_resets_only_owner mid_discovery 1 0 (by decide) (by decide) hown
  ⟨⟨by decide, by decide, hown, by decide, by decide⟩, h.1, h.2.2.1, h.2.2.2.2.2 1 (by decide)⟩

/-- When exactly one entry `i` of the table holds the disconnected connection,
the disconnect event sets the failure count to 0 if entry `i` is Active,
whatever the count was, and leaves the count unchanged if entry `i` is not
Active. -/
theorem disconnected_failure_count (s : State) (conn i : Nat) (hi : i < DEVICE_COUNT)
    (hc : s.current_index < DEVICE_COUNT)
    (hown : ∀ j, j < DEVICE_COUNT → ((s.devices j).connection = some conn ↔ j = i)) :
    ((s.devices i).state = STATE_ACTIVE → (disconnected conn s).connection_failures = 0) ∧
    ((s.devices i).state ≠ STATE_ACTIVE →
      (disconnected conn s).connection_failures = s.connection_failures) := by
  rw [(disconnected_unique_owner s conn i hi hc hown).2.1]
  constructor
  · intro h; simp [h]
  · intro h; simp [h]

/-- The disconnect of the Active entry 0, the only holder of its connection,
clears a failure count of 1, and the disconnect of the Connecting entry 1 leaves
a failure count of 1. -/
theorem disconnected_failure_count_witness :
    ((0 < DEVICE_COUNT ∧ active_with_failure.current_index < DEVICE_COUNT ∧
      (∀ j, j < DEVICE_COUNT → ((active_with_failure.devices j).connection = some 1 ↔ j = 0)) ∧
      (active_with_failure.devices 0).state = STATE_ACTIVE ∧
      active_with_failure.connection_failures = 1) ∧
     (disconnected 1 active_with_failure).connection_failures = 0) ∧
    ((1 < DEVICE_COUNT ∧ connecting_with_failure.current_index < DEVICE_COUNT ∧
      (∀ j, j < DEVICE_COUNT →
        ((connecting_with_failure.devices j).connection = some 2 ↔ j = 1)) ∧
      (connecting_with_failure.devices 1).state ≠ STATE_ACTIVE ∧
      connecting_with_failure.connection_failures = 1) ∧
     (disconnected 2 connecting_with_failure).connection_failures
       = connecting_with_failure.connection_failures) :=
  have hown1 : ∀ j, j < DEVICE_COUNT →
      ((active_with_failure.devices j).connection = some 1 ↔ j = 0) := by
    intro j hj
    unfold DEVICE_COUNT at hj
    interval_cases j <;> decide
  have hown2 : ∀ j, j < DEVICE_COUNT →
      ((connecting_with_failure.devices j).connection = some 2 ↔ j = 1) := by
    intro j hj
    unfold DEVICE_COUNT at hj
    interval_cases j <;> decide
  ⟨⟨⟨by decide, by decide, hown1, by decide, by decide⟩,
     (disconnected_failure_count active_with_failure 1 0 (by decide) (by decide) hown1).1
       (by decide)⟩,
   ⟨⟨by decide, by decide, hown2, by decide, by decide⟩,
     (disconnected_failure_count connecting_with_failure 2 1 (by decide) (by decide) hown2).2
       (by decide)⟩⟩

/-- C8: evaluation of the code where the claim fails.  A failed connect
completion leaves in the Idle entry 0 the pointer to the released connection
object 5; the object is reused for entry 1, which reaches Active; a failed
attempt on entry 2 brings the failure count to 1.  The disconnect of
connection 5 then resets entry 0, the first entry that holds the pointer:
entry 1, which is Active and holds the connection, stays Active with its
pointer, and the failure count stays 1. -/
theorem disconnected_stale_pointer_keeps_failure_count :
    Reachable temperature_only stale_pointer_beside_active ∧
    (stale_pointer_beside_active.devices 0).state = STATE_IDLE ∧
    (stale_pointer_beside_active.devices 0).connection = some 5 ∧
    (stale_pointer_beside_active.devices 1).state = STATE_ACTIVE ∧
    (stale_pointer_beside_active.devices 1).connection = some 5 ∧
    stale_pointer_beside_active.connection_failures = 1 ∧
    (disconnected 5 stale_pointer_beside_active).connection_failures = 1 ∧
    ((disconnected 5 stale_pointer_beside_active).devices 1).state = STATE_ACTIVE ∧
    ((disconnected 5 stale_pointer_beside_active).devices 1).connection = some 5 ∧
    ((disconnected 5 stale_pointer_beside_active).devices 0).connection = none :=
  ⟨⟨true,
     [event.sensor_function (bt_conn_le_create_result.accepted 5),
      event.connected 5 2 0,
      event.sensor_function (bt_conn_le_create_result.accepted 5),
      event.connected 5 0 0,
      event.discover_func 5 (some { handle := 10, value_handle := 10 }),
      event.discover_func 5 (some { handle := 12, value_handle := 13 }),
      event.discover_func 5 (some { handle := 14, value_handle := 14 }),
      event.subscribe_func 5 0,
      event.subscribe_work,
      event.sensor_function (bt_conn_le_create_result.accepted 6),
      event.connected 6 2 0], rfl⟩,
    by decide, by decide, by decide, by decide, by decide, by decide, by decide, by decide,
    by decide⟩

/-! ### Round-robin selection (C9) -/


/-- The targets of a concatenation of call records. -/
theorem create_targets_append (xs ys : List call) :
    create_targets (xs ++ ys) = create_targets xs ++ create_targets ys := by
  induction xs with
  | nil => rfl
  | cons x xs ih => cases x <;> simp [create_targets, ih]

/-- The backoff makes no connection request. -/
theorem create_targets_backoff (f : Nat) : create_targets (backoff f) = [] := by
  unfold backoff
  split_ifs <;> rfl

/-- The selection loop returns the first Idle entry in the cyclic order that
starts at the cursor, as soon as its bound exceeds the number of entries passed
over. -/
theorem advance_to_idle_first (devices : Nat → device_params) (k : Nat) :
    ∀ (c fuel : Nat), c < 3 → k < fuel →
      (devices ((c + k) % 3)).state = STATE_IDLE →
      (∀ k', k' < k → (devices ((c + k') % 3)).state ≠ STATE_IDLE) →
      advance_to_idle devices fuel c = some ((c + k) % 3) := by
  induction k with
  | zero =>
    intro c fuel hc hf h0 _
    obtain ⟨n, rfl⟩ : ∃ n, fuel = n + 1 := ⟨fuel - 1, by omega⟩
    have e : (c + 0) % 3 = c := by omega
    rw [e] at h0 ⊢
    simp [advance_to_idle, h0]
  | succ k ih =>
    intro c fuel hc hf hk hbefore
    obtain ⟨n, rfl⟩ : ∃ n, fuel = n + 1 := ⟨fuel - 1, by omega⟩
    have hne : (devices c).state ≠ STATE_IDLE := by
      have h := hbefore 0 (by omega)
      have e : (c + 0) % 3 = c := by omega
      rwa [e] at h
    have e : ∀ m, ((c + 1) % 3 + m) % 3 = (c + (m + 1)) % 3 := by
      intro m
      omega
    have hrec := ih ((c + 1) % 3) n (Nat.mod_lt _ (by decide)) (by omega)
      (by rw [e]; exact hk)
      (by intro k' hk'; rw [e]; exact hbefore (k' + 1) (by omega))
    rw [e] at hrec
    rw [advance_to_idle, if_pos hne, advance_current_index_eq c hc]
    exact hrec

/-- When some entry of the table is Idle, there is a first Idle entry in the
cyclic order that starts at any index. -/
theorem exists_first_idle (devices : Nat → device_params) (c : Nat)
    (hidle : ∃ j, j < 3 ∧ (devices j).state = STATE_IDLE) :
    ∃ k, k < 3 ∧ (devices ((c + k) % 3)).state = STATE_IDLE ∧
      ∀ k', k' < k → (devices ((c + k') % 3)).state ≠ STATE_IDLE := by
  by_cases b0 : (devices ((c + 0) % 3)).state = STATE_IDLE
  · exact ⟨0, by decide, b0, by intro k' hk'; omega⟩
  · by_cases b1 : (devices ((c + 1) % 3)).state = STATE_IDLE
    · refine ⟨1, by decide, b1, ?_⟩
      intro k' hk'
      interval_cases k'
      exact b0
    · have b2 : (devices ((c + 2) % 3)).state = STATE_IDLE := by
        obtain ⟨j, hj, hjs⟩ := hidle
        have hj3 : j = (c + 0) % 3 ∨ j = (c + 1) % 3 ∨ j = (c + 2) % 3 := by omega
        rcases hj3 with h | h | h
        · rw [h] at hjs; exact absurd hjs b0
        · rw [h] at hjs; exact absurd hjs b1
        · rw [h] at hjs; exact hjs
      refine ⟨2, by decide, b2, ?_⟩
      intro k' hk'
      interval_cases k'
      · exact b0
      · exact b1

/-- The scan of the table stops before its end only at an Idle entry. -/
theorem idle_scan_found (devices : Nat → device_params)
    (h : idle_scan devices DEVICE_COUNT 0 ≠ DEVICE_COUNT) :
    ∃ j, j < 3 ∧ (devices j).state = STATE_IDLE := by
  simp only [DEVICE_COUNT, idle_scan] at h
  by_cases h0 : (devices 0).state = STATE_IDLE
  · exact ⟨0, by decide, h0⟩
  · by_cases h1 : (devices 1).state = STATE_IDLE
    · exact ⟨1, by decide, h1⟩
    · by_cases h2 : (devices 2).state = STATE_IDLE
      · exact ⟨2, by decide, h2⟩
      · simp [h0, h1, h2] at h

/-- A wake-up of an enabled, free scheduler whose cursor is `k` entries before
the first Idle entry selects that entry and issues the connection request. -/
theorem sensor_function_selects (s : State) (r : bt_conn_le_create_result) (k fuel : Nat)
    (hc : s.current_index < 3) (hd : s.disabled = false) (hb : s.busy = false)
    (hk : k < fuel)
    (hidle : (s.devices ((s.current_index + k) % 3)).state = STATE_IDLE)
    (hbefore : ∀ k', k' < k → (s.devices ((s.current_index + k') % 3)).state ≠ STATE_IDLE) :
    sensor_function fuel r s
      = some (create_connection r (select_peer s ((s.current_index + k) % 3))) := by
  have hp : (s.current_index + k) % 3 < 3 := Nat.mod_lt _ (by decide)
  have scan : idle_scan s.devices DEVICE_COUNT 0 ≠ DEVICE_COUNT := by
    generalize (s.current_index + k) % 3 = p at hp hidle
    simp only [DEVICE_COUNT, idle_scan]
    interval_cases p <;> split_ifs <;> simp_all
  simp [sensor_function, hd, hb, scan,
    advance_to_idle_first s.devices k s.current_index fuel hc hk hidle hbefore]

/-- One wake-up of the scheduler thread always returns to `k_sem_take`: the
selection loop ends within `SELECT_FUEL` evaluations of its condition in every
state, also when the cursor is outside the table. -/
theorem sensor_function_total (r : bt_conn_le_create_result) (s : State) :
    ∃ s', sensor_function SELECT_FUEL r s = some s' := by
  unfold sensor_function
  split_ifs with h1 h2
  · exact ⟨_, rfl⟩
  · exact ⟨_, rfl⟩
  · have hidle := idle_scan_found s.devices h2
    have hsel : ∃ c, advance_to_idle s.devices SELECT_FUEL s.current_index = some c := by
      by_cases hc : s.current_index < 3
      · obtain ⟨k, hk, hki, hkb⟩ := exists_first_idle s.devices s.current_index hidle
        exact ⟨_, advance_to_idle_first s.devices k s.current_index SELECT_FUEL hc
          (by unfold SELECT_FUEL DEVICE_COUNT; omega) hki hkb⟩
      · show ∃ c, advance_to_idle s.devices (3 + 1) s.current_index = some c
        rw [advance_to_idle]
        split_ifs with hne
        · obtain ⟨k, hk, hki, hkb⟩ :=
            exists_first_idle s.devices (advance_current_index s.current_index) hidle
          exact ⟨_, advance_to_idle_first s.devices k _ 3
            (advance_current_index_lt s.current_index) hk hki hkb⟩
        · exact ⟨_, rfl⟩
    obtain ⟨c, hc⟩ := hsel
    rw [hc]
    exact ⟨_, rfl⟩

/-- Executing a concatenation of event sequences. -/
theorem run_append (cfg : Kconfig) (xs ys : List event) (s : State) :
    run cfg (xs ++ ys) s = (run cfg xs s).bind (run cfg ys) := by
  induction xs generalizing s with
  | nil => simp [run]
  | cons x xs ih =>
    simp only [List.cons_append, run]
    cases step cfg x s with
    | none => simp
    | some t => simp [ih]

/-- One failed connection attempt, started with the cursor on the Idle entry
`t` or on a non-Idle entry just before it: the request is made for entry `t`,
no other entry changes state, the scheduler is free again afterwards, and the
cursor is left on the entry after `t`, or on `t` itself in a non-Idle state. -/
theorem failed_attempt_spec (cfg : Kconfig) (s : State) (a : Option (Nat × Nat)) (t : Nat)
    (ht : t < 3) (hc : s.current_index < 3)
    (hcur : s.current_index = t ∨
      ((s.current_index + 1) % 3 = t ∧ (s.devices s.current_index).state ≠ STATE_IDLE))
    (hidle : (s.devices t).state = STATE_IDLE)
    (hd : s.disabled = false) (hb : s.busy = false)
    (ha : ∀ conn err, a = some (conn, err) → err ≠ 0) :
    ∃ s', run cfg (failed_attempt a) s = some s' ∧
      create_targets s'.calls = create_targets s.calls ++ [t] ∧
      (∀ j, j ≠ t → (s'.devices j).state = (s.devices j).state) ∧
      s'.current_index < 3 ∧
      (s'.current_index = (t + 1) % 3 ∨
        ((s'.current_index + 1) % 3 = (t + 1) % 3 ∧
          (s'.devices s'.current_index).state ≠ STATE_IDLE)) ∧
      s'.disabled = false ∧ s'.busy = false := by
  have hwake : ∀ r, sensor_function SELECT_FUEL r s
      = some (create_connection r (select_peer s t)) := by
    intro r
    rcases hcur with h | ⟨h1, h2⟩
    · have := sensor_function_selects s r 0 SELECT_FUEL hc hd hb (by decide)
        (by simpa [h, Nat.mod_eq_of_lt ht] using hidle) (by intro k' hk'; omega)
      simpa [h, Nat.mod_eq_of_lt ht] using this
    · have := sensor_function_selects s r 1 SELECT_FUEL hc hd hb (by decide)
        (by rw [h1]; exact hidle)
        (by intro k' hk'
            interval_cases k'
            simpa [Nat.mod_eq_of_lt hc] using h2)
      rwa [h1] at this
  cases a with
  | none =>
    refine ⟨create_connection bt_conn_le_create_result.rejected (select_peer s t), ?_, ?_, ?_, ?_,
      ?_, ?_, ?_⟩
    · simp [failed_attempt, run, step, hwake]
    · simp [create_connection, select_peer, create_targets_append, create_targets_backoff,
        create_targets]
    · intro j hj
      simp [create_connection, select_peer, Function.update, hj]
    · simpa [create_connection, select_peer] using ht
    · right
      simp [create_connection, select_peer]
    · simp [create_connection, select_peer, hd]
    · simp [create_connection, select_peer]
  | some p =>
    obtain ⟨conn, err⟩ := p
    have herr : err ≠ 0 := ha conn err rfl
    refine ⟨connected cfg conn err 0
      (create_connection (bt_conn_le_create_result.accepted conn) (select_peer s t)),
      ?_, ?_, ?_, ?_, ?_, ?_, ?_⟩
    · simp [failed_attempt, run, step, hwake]
    · simp [connected, herr, create_connection, select_peer, create_targets_append,
        create_targets_backoff, create_targets]
    · intro j hj
      simp [connected, herr, create_connection, select_peer, Function.update, hj]
    · simp only [connected, herr, ne_eq, not_false_eq_true, if_true, call_current_index]
      exact advance_current_index_lt _
    · left
      simp only [connected, herr, ne_eq, not_false_eq_true, if_true, call_current_index]
      have : (create_connection (bt_conn_le_create_result.accepted conn)
          (select_peer s t)).current_index = t := by simp [create_connection, select_peer]
      rw [this]
      exact advance_current_index_eq t ht
    · simp [connected, herr, create_connection, select_peer, hd]
    · simp [connected, herr]

/-- C9: in a state with `current_index = c < 3`, `disabled` and `busy` false
and at least one Idle entry, one wake-up of the scheduler returns (for every
bound of at least 3 on its selection loop) and selects the first Idle entry in
the cyclic order `c, c+1, c+2 (mod 3)`: the selected entry was Idle, every entry
passed over was not, `current_index` ends at the selected entry, `busy` is set
and the entry becomes Connecting (and `busy` is still set at the end of the
wake-up when the transport accepts the request).  With all entries Idle and
every attempt failing (by synchronous rejection or by an error completion),
three consecutive attempts are made for the three different entries
`c, c+1, c+2 (mod 3)`. -/
theorem scheduler_selects_first_idle (s : State) (r : bt_conn_le_create_result)
    (hc : s.current_index < 3)
    (hidle : ∃ j, j < 3 ∧ (s.devices j).state = STATE_IDLE)
    (hd : s.disabled = false) (hb : s.busy = false) :
    (∃ k, k < 3 ∧
      (s.devices ((s.current_index + k) % 3)).state = STATE_IDLE ∧
      (∀ k', k' < k → (s.devices ((s.current_index + k') % 3)).state ≠ STATE_IDLE) ∧
      (∀ fuel, 3 ≤ fuel → sensor_function fuel r s
        = some (create_connection r (select_peer s ((s.current_index + k) % 3)))) ∧
      (select_peer s ((s.current_index + k) % 3)).current_index = (s.current_index + k) % 3 ∧
      (select_peer s ((s.current_index + k) % 3)).busy = true ∧
      ((select_peer s ((s.current_index + k) % 3)).devices ((s.current_index + k) % 3)).state
        = STATE_CONNECTING ∧
      (create_connection r (select_peer s ((s.current_index + k) % 3))).current_index
        = (s.current_index + k) % 3 ∧
      ((create_connection r (select_peer s ((s.current_index + k) % 3))).devices
        ((s.current_index + k) % 3)).state = STATE_CONNECTING ∧
      (∀ conn, r = bt_conn_le_create_result.accepted conn →
        (create_connection r (select_peer s ((s.current_index + k) % 3))).busy = true)) ∧
    (∀ (cfg : Kconfig) (a1 a2 a3 : Option (Nat × Nat)),
      (∀ j, j < 3 → (s.devices j).state = STATE_IDLE) →
      (∀ conn err, a1 = some (conn, err) → err ≠ 0) →
      (∀ conn err, a2 = some (conn, err) → err ≠ 0) →
      (∀ conn err, a3 = some (conn, err) → err ≠ 0) →
      ∃ s', run cfg (failed_attempt a1 ++ failed_attempt a2 ++ failed_attempt a3) s = some s' ∧
        create_targets s'.calls = create_targets s.calls
          ++ [s.current_index, (s.current_index + 1) % 3, (s.current_index + 2) % 3] ∧
        [s.current_index, (s.current_index + 1) % 3, (s.current_index + 2) % 3].Nodup) := by
  refine ⟨?_, ?_⟩
  swap
  · intro cfg a1 a2 a3 hall h1 h2 h3
    obtain ⟨s1, r1, t1, f1, lt1, c1, d1, b1⟩ :=
      failed_attempt_spec cfg s a1 s.current_index hc hc (Or.inl rfl) (hall _ hc) hd hb h1
    have m1 : (s.current_index + 1) % 3 < 3 := Nat.mod_lt _ (by decide)
    have i1 : (s1.devices ((s.current_index + 1) % 3)).state = STATE_IDLE := by
      rw [f1 _ (by omega)]
      exact hall _ m1
    obtain ⟨s2, r2, t2, f2, lt2, c2, d2, b2⟩ :=
      failed_attempt_spec cfg s1 a2 ((s.current_index + 1) % 3) m1 lt1 c1 i1 d1 b1 h2
    have m2 : ((s.current_index + 1) % 3 + 1) % 3 < 3 := Nat.mod_lt _ (by decide)
    have i2 : (s2.devices (((s.current_index + 1) % 3 + 1) % 3)).state = STATE_IDLE := by
      rw [f2 _ (by omega), f1 _ (by omega)]
      exact hall _ m2
    obtain ⟨s3, r3, t3, f3, lt3, c3, d3, b3⟩ :=
      failed_attempt_spec cfg s2 a3 (((s.current_index + 1) % 3 + 1) % 3) m2 lt2 c2 i2 d2 b2 h3
    have e2 : ((s.current_index + 1) % 3 + 1) % 3 = (s.current_index + 2) % 3 := by omega
    refine ⟨s3, ?_, ?_, ?_⟩
    · rw [run_append, run_append, r1]
      simp [r2, r3]
    · rw [t3, t2, t1, e2]
      simp
    · generalize s.current_index = c at hc
      interval_cases c <;> decide
  have post : ∀ sel : Nat,
      (select_peer s sel).current_index = sel ∧
      (select_peer s sel).busy = true ∧
      ((select_peer s sel).devices sel).state = STATE_CONNECTING ∧
      (create_connection r (select_peer s sel)).current_index = sel ∧
      ((create_connection r (select_peer s sel)).devices sel).state = STATE_CONNECTING ∧
      (∀ conn, r = bt_conn_le_create_result.accepted conn →
        (create_connection r (select_peer s sel)).busy = true) := by
    intro sel
    refine ⟨by simp [select_peer], by simp [select_peer], by simp [select_peer], ?_, ?_, ?_⟩
    · cases r <;> simp [create_connection, select_peer]
    · cases r <;> simp [create_connection, select_peer]
    · intro conn hr
      subst hr
      simp [create_connection, select_peer]
  obtain ⟨k, hk3, hki, hkb⟩ := exists_first_idle s.devices s.current_index hidle
  refine ⟨k, hk3, hki, hkb, ?_, post _⟩
  intro fuel hfuel
  exact sensor_function_selects s r k fuel hc hd hb (by omega) hki hkb

/-- C9, witness: from the state left by `main`, the first wake-up selects
entry 0, and three failing attempts (rejected, error completion, rejected) are
made for entries 0, 1 and 2. -/
theorem scheduler_selects_first_idle_witness :
    ((initial_state true).current_index < 3 ∧
      (∃ j, j < 3 ∧ ((initial_state true).devices j).state = STATE_IDLE) ∧
      (initial_state true).disabled = false ∧ (initial_state true).busy = false ∧
      (∀ j, j < 3 → ((initial_state true).devices j).state = STATE_IDLE)) ∧
    (∃ s', run temperature_only
        (failed_attempt none ++ failed_attempt (some (1, 2)) ++ failed_attempt none)
        (initial_state true) = some s' ∧
      create_targets s'.calls = create_targets (initial_state true).calls
        ++ [(initial_state true).current_index, ((initial_state true).current_index + 1) % 3,
            ((initial_state true).current_index + 2) % 3] ∧
      [(initial_state true).current_index, ((initial_state true).current_index + 1) % 3,
        ((initial_state true).current_index + 2) % 3].Nodup) :=
  ⟨⟨by decide, ⟨0, by decide, by decide⟩, by decide, by decide, fun _ _ => rfl⟩,
    (scheduler_selects_first_idle (initial_state true) (bt_conn_le_create_result.accepted 1)
      (by decide) ⟨0, by decide, by decide⟩ (by decide) (by decide)).2 temperature_only
      none (some (1, 2)) none (fun _ _ => rfl)
      (by intro _ _ h; cases h)
      (by intro _ _ h; cases h; decide)
      (by intro _ _ h; cases h)⟩

/-! ### A successful negotiation (C10) -/

/-- The numeric value of `AWAITING_READINGS` and the number of discovery and
subscribe steps, under every feature set. -/
theorem enum_counts (cfg : Kconfig) :
    enum_value cfg AWAITING_READINGS
      = 1 + 3 * sensor_kinds cfg + (if cfg.APP_BATTERY_LEVEL then 4 else 0) ∧
    find_steps cfg + subscribe_steps cfg = enum_value cfg AWAITING_READINGS ∧
    1 ≤ find_steps cfg ∧ enum_value cfg AWAITING_READINGS < 18 ∧
    enum_value cfg FIND_ESS_SERVICE = 0 := by
  rcases cfg with ⟨_ | _, _ | _, _ | _, _ | _, _ | _⟩ <;> decide

/-- Every step from the end of the discovery steps up to `AWAITING_READINGS`
is handled by a subscribe case of the `switch`, under every feature set. -/
theorem subscribe_range (cfg : Kconfig) :
    ∀ i, i < 18 → find_steps cfg ≤ i → i < enum_value cfg AWAITING_READINGS →
      is_subscribe_action (next_action_switch cfg i) = true := by
  rcases cfg with ⟨_ | _, _ | _, _ | _, _ | _, _ | _⟩ <;> decide


/-- The subscribe cases of the `switch` always set `param`. -/
theorem next_action_switch_param {cfg : Kconfig} {i : Nat} {r : switch_result}
    (h : next_action_switch cfg i = some r) : r.action = 3 → r.param ≠ none := by
  unfold next_action_switch at h
  split at h <;> simp at h <;> subst h <;> simp

/-- The function `next_action` returns when it is given an attribute, when the
step it advances to is the terminal one, and when that step is a
subscription. -/
theorem next_action_defined (cfg : Kconfig) (conn : Option Nat) (attr : Option bt_gatt_attr)
    (s : State)
    (h : attr ≠ none ∨
      (s.devices s.current_index).handles.status + 1 = enum_value cfg AWAITING_READINGS ∨
      is_subscribe_action
        (next_action_switch cfg ((s.devices s.current_index).handles.status + 1)) = true) :
    ∃ s', next_action cfg conn attr s = some s' := by
  unfold next_action
  simp only
  split_ifs with hN
  · exact ⟨_, rfl⟩
  · cases hr : next_action_switch cfg ((s.devices s.current_index).handles.status + 1) with
    | none => exact ⟨_, rfl⟩
    | some r =>
      simp only
      apply next_action_request_defined
      rcases h with h | h | h
      · left
        exact ⟨h, next_action_switch_param hr⟩
      · exact absurd h hN
      · right
        rw [hr] at h
        simp only [is_subscribe_action, Bool.and_eq_true, beq_iff_eq] at h
        refine ⟨h.1, ?_⟩
        intro hp
        rw [hp] at h
        simp at h

/-- The function `next_action` keeps a non-null `discover_params.uuid`
non-null. -/
theorem next_action_uuid {cfg : Kconfig} {conn : Option Nat} {attr : Option bt_gatt_attr}
    {s s' : State} (h : next_action cfg conn attr s = some s')
    (hu : s.discover_params.uuid = true) : s'.discover_params.uuid = true := by
  unfold next_action at h
  simp only at h
  split_ifs at h
  · simp only [Option.some.injEq] at h
    subst h
    simpa using hu
  · split at h
    · simp only [Option.some.injEq] at h
      subst h
      simpa using hu
    · rename_i r hr
      apply next_action_request_uuid h
      cases r.uuid <;> simpa using hu

/-- The observation made after a step of a successful negotiation. -/
theorem observe_of_step_outcome {cfg : Kconfig} {p j : Nat} {s : State}
    (h : step_outcome cfg p j s) (hj : j ≤ enum_value cfg AWAITING_READINGS) :
    observe p s = expected_observation (enum_value cfg AWAITING_READINGS) j := by
  obtain ⟨_, h2, _, h4⟩ := h
  unfold observe expected_observation
  by_cases hN : j = enum_value cfg AWAITING_READINGS
  · rw [if_pos hN] at h4
    rw [if_neg (by omega), h2, h4.1, h4.2]
  · rw [if_neg hN] at h4
    rw [if_pos (by omega), h2, h4.1, h4.2]

/-- One discovery callback with an attribute, during a negotiation, advances
the step counter of the entry at the cursor by one. -/
theorem discover_group (cfg : Kconfig) (conn : Nat) (a : bt_gatt_attr) (s : State) (p i : Nat)
    (hp : s.current_index = p) (hs : (s.devices p).handles.status = i)
    (hu : s.discover_params.uuid = true)
    (hst : (s.devices p).state = STATE_DISCOVERING ∨ s.uuid = BT_UUID_ESS)
    (hb : s.busy = true) :
    ∃ s', run cfg [event.discover_func conn (some a)] s = some s' ∧
      step_outcome cfg p (i + 1) s' := by
  subst hp
  obtain ⟨r1, r2, r3, r4, r5, r6, r7, r8⟩ := discover_record_spec cfg a s
  obtain ⟨s', hs'⟩ := next_action_defined cfg (some conn) (some a) (discover_record cfg a s)
    (Or.inl (by simp))
  obtain ⟨n1, n2, n3, n4, n5, n6, n7⟩ := next_action_spec hs'
  have hu' := next_action_uuid hs' (by rw [r5]; exact hu)
  rw [r1] at n1 n6 n7
  rw [(r6 s.current_index).2.2, hs] at n6 n7
  have hdisc : ((discover_record cfg a s).devices s.current_index).state = STATE_DISCOVERING := by
    rw [r8]
    split_ifs with h
    · rfl
    · rcases hst with h' | h'
      · exact h'
      · exact absurd h' h
  rw [hdisc, r4, hb] at n7
  refine ⟨s', ?_, ?_⟩
  · simp [run, step, discover_func, hu, hs']
  · refine ⟨n1, n6, hu', ?_⟩
    by_cases hN : i + 1 = enum_value cfg AWAITING_READINGS
    · rw [if_pos hN] at n7 ⊢
      exact ⟨n7.2, n7.1⟩
    · rw [if_neg hN] at n7 ⊢
      exact ⟨n7.2, n7.1⟩

/-- One successful subscribe completion, from the end of the discovery steps
on, advances the step counter of the entry at the cursor by one. -/
theorem subscribe_group (cfg : Kconfig) (conn : Nat) (s : State) (p i : Nat)
    (h : step_outcome cfg p i s) (hi : i < enum_value cfg AWAITING_READINGS)
    (hf : find_steps cfg ≤ i + 1) :
    ∃ s', run cfg [event.subscribe_func conn 0, event.subscribe_work] s = some s' ∧
      step_outcome cfg p (i + 1) s' := by
  obtain ⟨hp, hs, hu, h4⟩ := h
  rw [if_neg (by omega)] at h4
  subst hp
  have hdef : (s.devices s.current_index).handles.status + 1 = enum_value cfg AWAITING_READINGS ∨
      is_subscribe_action
        (next_action_switch cfg ((s.devices s.current_index).handles.status + 1)) = true := by
    rw [hs]
    by_cases hN : i + 1 = enum_value cfg AWAITING_READINGS
    · exact Or.inl hN
    · right
      have hlt := (enum_counts cfg).2.2.2.1
      exact subscribe_range cfg (i + 1) (by omega) hf (by omega)
  obtain ⟨s', hs'⟩ := next_action_defined cfg
    ((s.call call.k_work_submit_subscribe_workqueue).devices
      (s.call call.k_work_submit_subscribe_workqueue).current_index).connection none
    (s.call call.k_work_submit_subscribe_workqueue) (Or.inr hdef)
  obtain ⟨n1, n2, n3, n4, n5, n6, n7⟩ := next_action_spec hs'
  have hu' := next_action_uuid hs' (by simpa using hu)
  simp only [call_devices, call_current_index, call_busy] at n1 n6 n7
  rw [hs] at n6 n7
  rw [h4.1, h4.2] at n7
  refine ⟨s', ?_, ?_⟩
  · simp only [run, step, subscribe_func, subscribe_work, ne_eq, not_true_eq_false, if_false,
      Option.some_bind]
    rw [hs']
    rfl
  · refine ⟨n1, n6, hu', ?_⟩
    by_cases hN : i + 1 = enum_value cfg AWAITING_READINGS
    · rw [if_pos hN] at n7 ⊢
      exact ⟨n7.2, n7.1⟩
    · rw [if_neg hN] at n7 ⊢
      exact ⟨n7.2, n7.1⟩

/-- Observed execution of a concatenation of groups of events. -/
theorem run_observed_append {cfg : Kconfig} {p : Nat} {xs ys : List (List event)}
    {s s1 s2 : State} {o1 o2 : List (device_state_t × Nat × Bool)}
    (h1 : run_observed cfg p xs s = some (o1, s1))
    (h2 : run_observed cfg p ys s1 = some (o2, s2)) :
    run_observed cfg p (xs ++ ys) s = some (o1 ++ o2, s2) := by
  induction xs generalizing s o1 with
  | nil =>
    simp only [run_observed, Option.some.injEq, Prod.mk.injEq] at h1
    obtain ⟨rfl, rfl⟩ := h1
    simpa using h2
  | cons x xs ih =>
    simp only [List.cons_append, run_observed] at h1 ⊢
    cases hx : run cfg x s with
    | none => simp [hx] at h1
    | some t =>
      simp only [hx] at h1 ⊢
      cases hxs : run_observed cfg p xs t with
      | none => simp [hxs] at h1
      | some r =>
        obtain ⟨o, t'⟩ := r
        simp only [hxs, Option.some.injEq, Prod.mk.injEq] at h1
        obtain ⟨rfl, rfl⟩ := h1
        have h3 := ih hxs
        simp [h3]

/-- Observed execution of a first group of events followed by others. -/
theorem run_observed_cons {cfg : Kconfig} {p : Nat} {g : List event} {gs : List (List event)}
    {s s1 s2 : State} {os : List (device_state_t × Nat × Bool)}
    (h1 : run cfg g s = some s1) (h2 : run_observed cfg p gs s1 = some (os, s2)) :
    run_observed cfg p (g :: gs) s = some (observe p s1 :: os, s2) := by
  simp only [run_observed, h1, h2]

/-- Consecutive discovery callbacks, each with an attribute, advance the step
counter one by one; the observations are the expected ones. -/
theorem discoveries_observed (cfg : Kconfig) (conn : Nat) (attrs : Nat → bt_gatt_attr) (p : Nat) :
    ∀ (n i : Nat) (s : State), s.current_index = p → (s.devices p).handles.status = i →
      s.discover_params.uuid = true →
      ((s.devices p).state = STATE_DISCOVERING ∨ s.uuid = BT_UUID_ESS) → s.busy = true →
      i + n + 1 ≤ enum_value cfg AWAITING_READINGS →
      ∃ s', run_observed cfg p
          ((List.range' i (n + 1)).map (fun j => [event.discover_func conn (some (attrs j))])) s
          = some ((List.range' (i + 1) (n + 1)).map
              (expected_observation (enum_value cfg AWAITING_READINGS)), s') ∧
        step_outcome cfg p (i + n + 1) s' := by
  intro n
  induction n with
  | zero =>
    intro i s hp hs hu hst hb hle
    obtain ⟨s1, hr, ho⟩ := discover_group cfg conn (attrs i) s p i hp hs hu hst hb
    refine ⟨s1, ?_, ho⟩
    simp [List.range', run_observed, hr, observe_of_step_outcome ho (by omega)]
  | succ n ih =>
    intro i s hp hs hu hst hb hle
    obtain ⟨s1, hr, ho⟩ := discover_group cfg conn (attrs i) s p i hp hs hu hst hb
    have ho' := ho
    obtain ⟨q1, q2, q3, q4⟩ := ho'
    rw [if_neg (by omega)] at q4
    obtain ⟨s2, hr2, ho2⟩ := ih (i + 1) s1 q1 q2 q3 (Or.inl q4.1) q4.2 (by omega)
    have e : i + 1 + n + 1 = i + (n + 1) + 1 := by omega
    rw [e] at ho2
    refine ⟨s2, ?_, ho2⟩
    rw [List.range'_succ i (n + 1) 1, List.range'_succ (i + 1) (n + 1) 1, List.map_cons,
      List.map_cons, run_observed_cons hr hr2, observe_of_step_outcome ho (by omega)]

/-- Consecutive successful subscribe completions advance the step counter one
by one; the observations are the expected ones. -/
theorem subscribes_observed (cfg : Kconfig) (conn : Nat) (p : Nat) :
    ∀ (n i : Nat) (s : State), step_outcome cfg p i s → find_steps cfg ≤ i →
      i + n + 1 ≤ enum_value cfg AWAITING_READINGS →
      ∃ s', run_observed cfg p
          (List.replicate (n + 1) [event.subscribe_func conn 0, event.subscribe_work]) s
          = some ((List.range' (i + 1) (n + 1)).map
              (expected_observation (enum_value cfg AWAITING_READINGS)), s') ∧
        step_outcome cfg p (i + n + 1) s' := by
  intro n
  induction n with
  | zero =>
    intro i s h hf hle
    obtain ⟨s1, hr, ho⟩ := subscribe_group cfg conn s p i h (by omega) (by omega)
    refine ⟨s1, ?_, ho⟩
    simp [List.range', run_observed, hr, observe_of_step_outcome ho (by omega)]
  | succ n ih =>
    intro i s h hf hle
    obtain ⟨s1, hr, ho⟩ := subscribe_group cfg conn s p i h (by omega) (by omega)
    obtain ⟨s2, hr2, ho2⟩ := ih (i + 1) s1 ho (by omega) (by omega)
    have e : i + 1 + n + 1 = i + (n + 1) + 1 := by omega
    rw [e] at ho2
    refine ⟨s2, ?_, ho2⟩
    rw [List.replicate_succ, List.range'_succ (i + 1) (n + 1) 1, List.map_cons,
      run_observed_cons hr hr2, observe_of_step_outcome ho (by omega)]

/-- The events of the sequence `negotiation`, executed from a state in which
the scheduler is enabled and free and selects the Idle entry `p`: all of them
can be executed, and an observer of entry `p` sees, after the wake-up, after
the connect completion, and after each discovery callback and each subscribe
completion (callback and work item): Connecting with `busy` set; Connected
with step counter 0 and `busy` set; then, for `j = 1, ..., N`, step counter
`j`, with state Discovering and `busy` set while `j < N` and state Active and
`busy` cleared for `j = N`. -/
theorem negotiation_observed (cfg : Kconfig) (s : State) (conn : Nat)
    (attrs : Nat → bt_gatt_attr) (k : Nat)
    (hc : s.current_index < 3) (hd : s.disabled = false) (hb : s.busy = false) (hk : k < 3)
    (hidle : (s.devices ((s.current_index + k) % 3)).state = STATE_IDLE)
    (hbefore : ∀ k', k' < k → (s.devices ((s.current_index + k') % 3)).state ≠ STATE_IDLE) :
    enum_value cfg AWAITING_READINGS
      = 1 + 3 * sensor_kinds cfg + (if cfg.APP_BATTERY_LEVEL then 4 else 0) ∧
    find_steps cfg + subscribe_steps cfg = enum_value cfg AWAITING_READINGS ∧
    (∃ s', run_observed cfg ((s.current_index + k) % 3) (negotiation cfg conn attrs) s
        = some ([(STATE_CONNECTING, (s.devices ((s.current_index + k) % 3)).handles.status, true),
                 (STATE_CONNECTED, 0, true)]
                ++ (List.range' 1 (enum_value cfg AWAITING_READINGS)).map
                    (fun j => if j < enum_value cfg AWAITING_READINGS
                      then (STATE_DISCOVERING, j, true) else (STATE_ACTIVE, j, false)), s') ∧
      (s'.devices ((s.current_index + k) % 3)).state = STATE_ACTIVE ∧
      (s'.devices ((s.current_index + k) % 3)).handles.status
        = enum_value cfg AWAITING_READINGS ∧
      s'.busy = false) ∧
    ((discover_record cfg (attrs 0) (connected cfg conn 0 0
        (create_connection (bt_conn_le_create_result.accepted conn)
          (select_peer s ((s.current_index + k) % 3))))).devices
      ((s.current_index + k) % 3)).state = STATE_DISCOVERING := by
  obtain ⟨e1, e2, e3, e4, e5⟩ := enum_counts cfg
  generalize hp : (s.current_index + k) % 3 = p at *
  have hwake := sensor_function_selects s (bt_conn_le_create_result.accepted conn) k SELECT_FUEL
    hc hd hb (by unfold SELECT_FUEL DEVICE_COUNT; omega) (by rw [hp]; exact hidle)
    (by intro k' hk'; exact hbefore k' hk')
  rw [hp] at hwake
  -- the state after the wake-up and the state after the connect completion
  generalize hs1 : create_connection (bt_conn_le_create_result.accepted conn) (select_peer s p)
    = s1 at *
  have a1 : s1.current_index = p := by subst hs1; simp [create_connection, select_peer]
  have a2 : (s1.devices p).state = STATE_CONNECTING := by
    subst hs1; simp [create_connection, select_peer]
  have a3 : (s1.devices p).handles.status = (s.devices p).handles.status := by
    subst hs1; simp [create_connection, select_peer]
  have a4 : s1.busy = true := by subst hs1; simp [create_connection, select_peer]
  generalize hs2 : connected cfg conn 0 0 s1 = s2 at *
  have b1 : s2.current_index = p := by subst hs2; simp [connected, a1]
  have b2 : (s2.devices p).state = STATE_CONNECTED := by subst hs2; simp [connected, a1]
  have b3 : (s2.devices p).handles.status = 0 := by subst hs2; simp [connected, a1, e5]
  have b4 : s2.busy = true := by subst hs2; simp [connected, a4]
  have b5 : s2.uuid = BT_UUID_ESS := by subst hs2; simp [connected]
  have b6 : s2.discover_params.uuid = true := by subst hs2; simp [connected]
  have r1 : run cfg [event.sensor_function (bt_conn_le_create_result.accepted conn)] s
      = some s1 := by simp [run, step, hwake]
  have r2 : run cfg [event.connected conn 0 0] s1 = some s2 := by simp [run, step, hs2]
  refine ⟨e1, e2, ?_, ?_⟩
  · -- the discovery callbacks
    obtain ⟨f, hf⟩ : ∃ f, find_steps cfg = f + 1 := ⟨find_steps cfg - 1, by omega⟩
    obtain ⟨s3, r3, o3⟩ := discoveries_observed cfg conn attrs p f 0 s2 b1 b3 b6 (Or.inr b5) b4
      (by omega)
    rw [← hf] at r3
    have o3' : step_outcome cfg p (find_steps cfg) s3 := by
      have e : 0 + f + 1 = find_steps cfg := by omega
      rw [e] at o3
      exact o3
    -- the subscribe completions
    have hsub : ∃ s4, run_observed cfg p (List.replicate (subscribe_steps cfg)
          [event.subscribe_func conn 0, event.subscribe_work]) s3
          = some ((List.range' (find_steps cfg + 1) (subscribe_steps cfg)).map
              (expected_observation (enum_value cfg AWAITING_READINGS)), s4) ∧
        step_outcome cfg p (enum_value cfg AWAITING_READINGS) s4 := by
      cases hS : subscribe_steps cfg with
      | zero =>
        refine ⟨s3, by simp [run_observed], ?_⟩
        have e : find_steps cfg = enum_value cfg AWAITING_READINGS := by omega
        rw [← e]
        exact o3'
      | succ n =>
        obtain ⟨s4, r4, o4⟩ := subscribes_observed cfg conn p n (find_steps cfg) s3 o3'
          (Nat.le_refl _) (by omega)
        have e : find_steps cfg + n + 1 = enum_value cfg AWAITING_READINGS := by omega
        rw [e] at o4
        exact ⟨s4, r4, o4⟩
    obtain ⟨s4, r4, o4⟩ := hsub
    have r34 := run_observed_append r3 r4
    have r234 := run_observed_cons (p := p) r2 r34
    have r1234 := run_observed_cons (p := p) r1 r234
    refine ⟨s4, ?_, ?_, ?_, ?_⟩
    · have hneg : negotiation cfg conn attrs
          = [event.sensor_function (bt_conn_le_create_result.accepted conn)]
            :: [event.connected conn 0 0]
            :: ((List.range' 0 (find_steps cfg)).map
                  (fun j => [event.discover_func conn (some (attrs j))])
                ++ List.replicate (subscribe_steps cfg)
                  [event.subscribe_func conn 0, event.subscribe_work]) := by
        simp [negotiation]
      rw [hneg, r1234]
      have hobs1 : observe p s1 = (STATE_CONNECTING, (s.devices p).handles.status, true) := by
        simp [observe, a2, a3, a4]
      have hobs2 : observe p s2 = (STATE_CONNECTED, 0, true) := by
        simp [observe, b2, b3, b4]
      have hlist : List.range' (0 + 1) (find_steps cfg)
            ++ List.range' (find_steps cfg + 1) (subscribe_steps cfg)
          = List.range' 1 (enum_value cfg AWAITING_READINGS) := by
        have := List.range'_append_1 1 (find_steps cfg) (subscribe_steps cfg)
        rw [Nat.add_comm 1 (find_steps cfg)] at this
        rw [Nat.zero_add, this, Nat.add_comm, e2]
      rw [hobs1, hobs2, ← List.map_append, hlist]
      rfl
    · have h := o4.2.2.2
      rw [if_pos rfl] at h
      exact h.1
    · exact o4.2.1
    · have h := o4.2.2.2
      rw [if_pos rfl] at h
      exact h.2
  · have h := (discover_record_spec cfg (attrs 0) s2).2.2.2.2.2.2.2
    rw [b1] at h
    rw [h, if_pos b5]

/-! ### A negotiation driven by the requests of the code (C10) -/

/-- The last call of a step that appended the calls `ys` to the record. -/
theorem last_call_of_append {s s1 : State} (ys : List call) (h : s1.calls = s.calls ++ ys) :
    last_call s s1 = ys.getLast? := by
  simp [last_call, h]

/-- The last call of a step does not depend on anything but the record of
calls of the state before. -/
theorem last_call_congr {s0 s s1 : State} (h : s.calls = s0.calls) :
    last_call s0 s1 = last_call s s1 := by
  simp [last_call, h]

/-- One event answered by another, in the closed loop. -/
theorem closed_loop_cons {cfg : Kconfig} {attrs : Nat → bt_gatt_attr} {p fuel : Nat}
    {e e1 : event} {s s1 s2 : State} {trace : List (event × (device_state_t × Nat × Bool))}
    (h1 : step cfg e s = some s1) (h2 : answer attrs s1 (last_call s s1) = some e1)
    (h3 : closed_loop cfg attrs p fuel e1 s1 = some (trace, s2)) :
    closed_loop cfg attrs p (fuel + 1) e s = some ((e, observe p s1) :: trace, s2) := by
  simp [closed_loop, h1, h2, h3]

/-- The last event of the closed loop. -/
theorem closed_loop_last {cfg : Kconfig} {attrs : Nat → bt_gatt_attr} {p fuel : Nat}
    {e : event} {s s1 : State}
    (h1 : step cfg e s = some s1) (h2 : answer attrs s1 (last_call s s1) = none) :
    closed_loop cfg attrs p (fuel + 1) e s = some ([(e, observe p s1)], s1) := by
  simp [closed_loop, h1, h2]

/-- Every step before the end of the discovery steps is handled by a discovery
case of the `switch`, under every feature set. -/
theorem find_range (cfg : Kconfig) :
    ∀ i, i < 18 → 1 ≤ i → i < find_steps cfg →
      is_find_action (next_action_switch cfg i) = true := by
  rcases cfg with ⟨_ | _, _ | _, _ | _, _ | _, _ | _⟩ <;> decide

/-- The last call of the request part of `next_action`: the discovery request
for a discovery, the subscribe request for a subscription, both on the
connection passed. -/
theorem next_action_request_last_call {conn : Option Nat} {attr : Option bt_gatt_attr}
    {r : switch_result} {s s' : State} (h : next_action_request conn attr r s = some s') :
    (r.action ≤ 2 → ∃ u p, last_call s s' = some (call.bt_gatt_discover conn u p)) ∧
    (r.action = 3 → ∃ w p, last_call s s' = some (call.bt_gatt_subscribe conn w p)) := by
  unfold next_action_request at h
  simp only at h
  split_ifs at h with h0 hsvc h1 h2 h3
  · simp only [Option.some.injEq] at h
    subst h
    exact ⟨fun _ => ⟨_, _, last_call_of_append [_] rfl⟩, fun h => by omega⟩
  · simp only [Option.some.injEq] at h
    subst h
    exact ⟨fun _ => ⟨_, _, last_call_of_append [_] rfl⟩, fun h => by omega⟩
  · simp only [Option.some.injEq] at h
    subst h
    exact ⟨fun _ => ⟨_, _, last_call_of_append [_] rfl⟩, fun h => by omega⟩
  · cases attr with
    | none => simp at h
    | some a =>
      simp only [Option.some.injEq] at h
      subst h
      exact ⟨fun _ => ⟨_, _, last_call_of_append [_] rfl⟩, fun h => by omega⟩
  · cases hp : r.param with
    | none => simp [hp] at h
    | some which =>
      simp only [hp, Option.some.injEq] at h
      subst h
      exact ⟨fun h => by omega, fun _ => ⟨_, _, last_call_of_append [_] rfl⟩⟩
  · exact ⟨fun h => by omega, fun h => by omega⟩

/-- The last call of `next_action`: the wake signal at the terminal step, the
discovery request at a discovery step, the subscribe request at a subscribe
step. -/
theorem next_action_last_call {cfg : Kconfig} {conn : Option Nat} {attr : Option bt_gatt_attr}
    {s s' : State} (h : next_action cfg conn attr s = some s') :
    ((s.devices s.current_index).handles.status + 1 = enum_value cfg AWAITING_READINGS →
      last_call s s' = some call.k_sem_give_next_action_sem) ∧
    ((s.devices s.current_index).handles.status + 1 ≠ enum_value cfg AWAITING_READINGS →
      is_find_action
        (next_action_switch cfg ((s.devices s.current_index).handles.status + 1)) = true →
      ∃ u p, last_call s s' = some (call.bt_gatt_discover conn u p)) ∧
    ((s.devices s.current_index).handles.status + 1 ≠ enum_value cfg AWAITING_READINGS →
      is_subscribe_action
        (next_action_switch cfg ((s.devices s.current_index).handles.status + 1)) = true →
      ∃ w p, last_call s s' = some (call.bt_gatt_subscribe conn w p)) := by
  unfold next_action at h
  simp only at h
  split_ifs at h with hN
  · simp only [Option.some.injEq] at h
    subst h
    exact ⟨fun _ => by simp [last_call, State.call], fun h => absurd hN h,
      fun h => absurd hN h⟩
  · split at h
    · rename_i hr
      refine ⟨fun h => absurd h hN, fun _ hf => ?_, fun _ hf => ?_⟩
      · rw [hr] at hf
        simp [is_find_action] at hf
      · rw [hr] at hf
        simp [is_subscribe_action] at hf
    · rename_i r hr
      have hreq := next_action_request_last_call h
      have hreq' : (r.action ≤ 2 → ∃ u p, last_call s s' = some (call.bt_gatt_discover conn u p)) ∧
          (r.action = 3 → ∃ w p, last_call s s' = some (call.bt_gatt_subscribe conn w p)) := by
        cases hu : r.uuid with
        | none =>
          simp only [hu] at hreq
          exact hreq
        | some u =>
          simp only [hu] at hreq
          exact hreq
      refine ⟨fun h => absurd h hN, fun _ hf => ?_, fun _ hf => ?_⟩
      · rw [hr] at hf
        simp only [is_find_action, decide_eq_true_eq] at hf
        exact hreq'.1 hf
      · rw [hr] at hf
        simp only [is_subscribe_action, Bool.and_eq_true, beq_iff_eq] at hf
        exact hreq'.2 hf.1

/-- The answer to the request that `next_action` makes when it brings the step
counter of the entry at the cursor to `i + 1`. -/
theorem answer_next_event (cfg : Kconfig) (conn : Nat) (attrs : Nat → bt_gatt_attr)
    {attr : Option bt_gatt_attr} {s0 s s' : State} {p i : Nat}
    (h : next_action cfg (some conn) attr s = some s') (hcalls : s.calls = s0.calls)
    (hp : s.current_index = p) (hs : (s.devices p).handles.status = i)
    (hi : i + 1 ≤ enum_value cfg AWAITING_READINGS) :
    answer attrs s' (last_call s0 s') = next_event cfg conn attrs (i + 1) := by
  obtain ⟨e1, e2, e3, e4, e5⟩ := enum_counts cfg
  obtain ⟨l1, l2, l3⟩ := next_action_last_call h
  obtain ⟨n1, _, _, _, _, n6, _⟩ := next_action_spec h
  subst hp
  rw [hs] at l1 l2 l3 n6
  rw [last_call_congr hcalls]
  unfold next_event
  by_cases hN : i + 1 = enum_value cfg AWAITING_READINGS
  · rw [if_pos hN, l1 hN]
    rfl
  · rw [if_neg hN]
    by_cases hF : i + 1 < find_steps cfg
    · rw [if_pos hF]
      obtain ⟨u, q, hl⟩ := l2 hN (find_range cfg (i + 1) (by omega) (by omega) hF)
      rw [hl]
      simp only [answer, n1, n6]
    · rw [if_neg hF]
      obtain ⟨w, q, hl⟩ := l3 hN (subscribe_range cfg (i + 1) (by omega) (by omega) (by omega))
      rw [hl]
      rfl

/-- One discovery callback with an attribute, during the discovery steps of a
negotiation: the step counter advances by one and the request made is
answered by the next event of the negotiation. -/
theorem discover_step (cfg : Kconfig) (conn : Nat) (attrs : Nat → bt_gatt_attr)
    (a : bt_gatt_attr) (s : State) (p i : Nat)
    (hp : s.current_index = p) (hs : (s.devices p).handles.status = i)
    (hu : s.discover_params.uuid = true)
    (hst : (s.devices p).state = STATE_DISCOVERING ∨ s.uuid = BT_UUID_ESS)
    (hb : s.busy = true) (hi : i + 1 ≤ enum_value cfg AWAITING_READINGS) :
    ∃ s1, step cfg (event.discover_func conn (some a)) s = some s1 ∧
      step_outcome cfg p (i + 1) s1 ∧
      answer attrs s1 (last_call s s1) = next_event cfg conn attrs (i + 1) ∧
      (s1.devices p).connection = (s.devices p).connection := by
  obtain ⟨s1, hr, ho⟩ := discover_group cfg conn a s p i hp hs hu hst hb
  have hstep : step cfg (event.discover_func conn (some a)) s = some s1 := by
    simpa [run] using hr
  have hna : next_action cfg (some conn) (some a) (discover_record cfg a s) = some s1 := by
    simpa [step, discover_func, hu] using hstep
  obtain ⟨r1, _, _, _, _, r6, _, _⟩ := discover_record_spec cfg a s
  refine ⟨s1, hstep, ho, ?_, ?_⟩
  · exact answer_next_event cfg conn attrs hna rfl (by rw [r1, hp])
      (by rw [(r6 p).2.2, hs]) hi
  · rw [((next_action_spec hna).2.2.2.1 p).1, (r6 p).1]

/-- The run of the work item `subscribe_work` at a subscribe step: the step
counter advances by one and the request made is answered by the next event
of the negotiation. -/
theorem subscribe_work_step (cfg : Kconfig) (conn : Nat) (attrs : Nat → bt_gatt_attr)
    (s : State) (p i : Nat) (h : step_outcome cfg p i s)
    (hconn : (s.devices p).connection = some conn)
    (hi : i < enum_value cfg AWAITING_READINGS) (hf : find_steps cfg ≤ i + 1) :
    ∃ s1, step cfg event.subscribe_work s = some s1 ∧
      step_outcome cfg p (i + 1) s1 ∧
      answer attrs s1 (last_call s s1) = next_event cfg conn attrs (i + 1) ∧
      (s1.devices p).connection = some conn := by
  obtain ⟨hp, hs, hu, h4⟩ := h
  rw [if_neg (by omega)] at h4
  have hdef : (s.devices s.current_index).handles.status + 1 = enum_value cfg AWAITING_READINGS ∨
      is_subscribe_action
        (next_action_switch cfg ((s.devices s.current_index).handles.status + 1)) = true := by
    rw [hp, hs]
    by_cases hN : i + 1 = enum_value cfg AWAITING_READINGS
    · exact Or.inl hN
    · right
      have hlt := (enum_counts cfg).2.2.2.1
      exact subscribe_range cfg (i + 1) (by omega) hf (by omega)
  obtain ⟨s1, hs1⟩ := next_action_defined cfg (s.devices s.current_index).connection none s
    (Or.inr hdef)
  obtain ⟨n1, n2, n3, n4, n5, n6, n7⟩ := next_action_spec hs1
  have hu' := next_action_uuid hs1 hu
  rw [hp] at n1 n6 n7
  rw [hs] at n6 n7
  rw [h4.1, h4.2] at n7
  have hs1' : next_action cfg (some conn) none s = some s1 := by
    rw [← hconn, ← hp]
    exact hs1
  refine ⟨s1, by simpa [step, subscribe_work] using hs1, ⟨n1, n6, hu', ?_⟩, ?_, ?_⟩
  · by_cases hN : i + 1 = enum_value cfg AWAITING_READINGS
    · rw [if_pos hN] at n7 ⊢
      exact ⟨n7.2, n7.1⟩
    · rw [if_neg hN] at n7 ⊢
      exact ⟨n7.2, n7.1⟩
  · exact answer_next_event cfg conn attrs hs1' rfl hp hs (by omega)
  · rw [(n4 p).1, hconn]

/-- The subscribe completions of a negotiation, in the closed loop: each
callback `subscribe_func` submits the work item, whose run makes the next
subscribe request or, at the terminal step, raises the wake signal, which ends
the negotiation. -/
theorem subscribes_closed_loop (cfg : Kconfig) (conn : Nat) (attrs : Nat → bt_gatt_attr)
    (p : Nat) :
    ∀ (n i : Nat) (s : State) (fuel : Nat), step_outcome cfg p i s →
      (s.devices p).connection = some conn → find_steps cfg ≤ i →
      i + n + 1 = enum_value cfg AWAITING_READINGS → 2 * (n + 1) ≤ fuel →
      ∃ s', closed_loop cfg attrs p fuel (event.subscribe_func conn 0) s
          = some (subscribe_trace cfg conn i (n + 1), s') ∧
        step_outcome cfg p (enum_value cfg AWAITING_READINGS) s' := by
  intro n
  induction n with
  | zero =>
    intro i s fuel h hconn hf hN hfuel
    obtain ⟨f, rfl⟩ : ∃ f, fuel = f + 1 + 1 := ⟨fuel - 2, by omega⟩
    have hstep1 : step cfg (event.subscribe_func conn 0) s
        = some (s.call call.k_work_submit_subscribe_workqueue) := by
      simp [step, subscribe_func]
    have hans1 : answer attrs (s.call call.k_work_submit_subscribe_workqueue)
        (last_call s (s.call call.k_work_submit_subscribe_workqueue))
        = some event.subscribe_work := by
      simp [last_call, State.call, answer]
    have h' : step_outcome cfg p i (s.call call.k_work_submit_subscribe_workqueue) := h
    obtain ⟨s2, hstep2, ho2, hans2, _⟩ := subscribe_work_step cfg conn attrs
      (s.call call.k_work_submit_subscribe_workqueue) p i h' hconn (by omega) (by omega)
    have hnone : next_event cfg conn attrs (i + 1) = none := by
      simp [next_event, show i + 1 = enum_value cfg AWAITING_READINGS by omega]
    rw [hnone] at hans2
    have hN' : i + 1 = enum_value cfg AWAITING_READINGS := by omega
    refine ⟨s2, ?_, by rw [← hN']; exact ho2⟩
    rw [closed_loop_cons hstep1 hans1 (closed_loop_last hstep2 hans2),
      observe_of_step_outcome h' (by omega), observe_of_step_outcome ho2 (by omega)]
    simp [subscribe_trace, List.range']
  | succ n ih =>
    intro i s fuel h hconn hf hN hfuel
    obtain ⟨f, rfl⟩ : ∃ f, fuel = f + 1 + 1 := ⟨fuel - 2, by omega⟩
    have hstep1 : step cfg (event.subscribe_func conn 0) s
        = some (s.call call.k_work_submit_subscribe_workqueue) := by
      simp [step, subscribe_func]
    have hans1 : answer attrs (s.call call.k_work_submit_subscribe_workqueue)
        (last_call s (s.call call.k_work_submit_subscribe_workqueue))
        = some event.subscribe_work := by
      simp [last_call, State.call, answer]
    have h' : step_outcome cfg p i (s.call call.k_work_submit_subscribe_workqueue) := h
    obtain ⟨s2, hstep2, ho2, hans2, hconn2⟩ := subscribe_work_step cfg conn attrs
      (s.call call.k_work_submit_subscribe_workqueue) p i h' hconn (by omega) (by omega)
    have hnext : next_event cfg conn attrs (i + 1) = some (event.subscribe_func conn 0) := by
      simp [next_event, show ¬ i + 1 = enum_value cfg AWAITING_READINGS by omega,
        show ¬ i + 1 < find_steps cfg by omega]
    rw [hnext] at hans2
    obtain ⟨s3, hloop, ho3⟩ := ih (i + 1) s2 f ho2 hconn2 (by omega) (by omega) (by omega)
    refine ⟨s3, ?_, ho3⟩
    rw [closed_loop_cons hstep1 hans1 (closed_loop_cons hstep2 hans2 hloop),
      observe_of_step_outcome h' (by omega), observe_of_step_outcome ho2 (by omega)]
    simp [subscribe_trace, List.range'_succ i (n + 1) 1]

/-- The discovery callbacks of a negotiation followed by its subscribe
completions, in the closed loop: each callback makes the next discovery
request or, after the last discovery step, the first subscribe request or the
wake signal. -/
theorem discoveries_closed_loop (cfg : Kconfig) (conn : Nat) (attrs : Nat → bt_gatt_attr)
    (p : Nat) :
    ∀ (n i : Nat) (s : State) (fuel : Nat), s.current_index = p →
      (s.devices p).handles.status = i → s.discover_params.uuid = true →
      ((s.devices p).state = STATE_DISCOVERING ∨ s.uuid = BT_UUID_ESS) → s.busy = true →
      (s.devices p).connection = some conn →
      i + n + 1 = find_steps cfg → n + 1 + 2 * subscribe_steps cfg ≤ fuel →
      ∃ s', closed_loop cfg attrs p fuel (event.discover_func conn (some (attrs i))) s
          = some (discover_trace cfg conn attrs i (n + 1)
              ++ subscribe_trace cfg conn (find_steps cfg) (subscribe_steps cfg), s') ∧
        step_outcome cfg p (enum_value cfg AWAITING_READINGS) s' := by
  obtain ⟨e1, e2, e3, e4, e5⟩ := enum_counts cfg
  intro n
  induction n with
  | zero =>
    intro i s fuel hp hs hu hst hb hconn hF hfuel
    obtain ⟨f, rfl⟩ : ∃ f, fuel = f + 1 := ⟨fuel - 1, by omega⟩
    obtain ⟨s1, hstep, ho, hans, hconn1⟩ := discover_step cfg conn attrs (attrs i) s p i hp hs hu
      hst hb (by omega)
    rw [hconn] at hconn1
    cases hS : subscribe_steps cfg with
    | zero =>
      have hN : i + 1 = enum_value cfg AWAITING_READINGS := by omega
      have hnone : next_event cfg conn attrs (i + 1) = none := by simp [next_event, hN]
      rw [hnone] at hans
      refine ⟨s1, ?_, by rw [← hN]; exact ho⟩
      rw [closed_loop_last hstep hans, observe_of_step_outcome ho (by omega)]
      simp [discover_trace, subscribe_trace, List.range']
    | succ m =>
      have hnext : next_event cfg conn attrs (i + 1) = some (event.subscribe_func conn 0) := by
        simp [next_event, show ¬ i + 1 = enum_value cfg AWAITING_READINGS by omega,
          show ¬ i + 1 < find_steps cfg by omega]
      rw [hnext] at hans
      have ho' : step_outcome cfg p (find_steps cfg) s1 := by
        rw [← show i + 1 = find_steps cfg by omega]
        exact ho
      obtain ⟨s2, hloop, ho2⟩ := subscribes_closed_loop cfg conn attrs p m (find_steps cfg) s1 f
        ho' hconn1 (Nat.le_refl _) (by omega) (by omega)
      refine ⟨s2, ?_, ho2⟩
      rw [closed_loop_cons hstep hans hloop, observe_of_step_outcome ho (by omega)]
      simp [discover_trace, List.range']
  | succ n ih =>
    intro i s fuel hp hs hu hst hb hconn hF hfuel
    obtain ⟨f, rfl⟩ : ∃ f, fuel = f + 1 := ⟨fuel - 1, by omega⟩
    obtain ⟨s1, hstep, ho, hans, hconn1⟩ := discover_step cfg conn attrs (attrs i) s p i hp hs hu
      hst hb (by omega)
    rw [hconn] at hconn1
    have hnext : next_event cfg conn attrs (i + 1)
        = some (event.discover_func conn (some (attrs (i + 1)))) := by
      simp [next_event, show ¬ i + 1 = enum_value cfg AWAITING_READINGS by omega,
        show i + 1 < find_steps cfg by omega]
    rw [hnext] at hans
    have ho' := ho
    obtain ⟨q1, q2, q3, q4⟩ := ho'
    rw [if_neg (by omega)] at q4
    obtain ⟨s2, hloop, ho2⟩ := ih (i + 1) s1 f q1 q2 q3 (Or.inl q4.1) q4.2 hconn1 (by omega)
      (by omega)
    refine ⟨s2, ?_, ho2⟩
    rw [closed_loop_cons hstep hans hloop, observe_of_step_outcome ho (by omega)]
    simp [discover_trace, List.range'_succ i (n + 1) 1]

/-- The events delivered by the closed loop, executed in order, lead to the
state it returns. -/
theorem closed_loop_run {cfg : Kconfig} {attrs : Nat → bt_gatt_attr} {p : Nat} :
    ∀ (fuel : Nat) (e : event) (s s' : State)
      (trace : List (event × (device_state_t × Nat × Bool))),
      closed_loop cfg attrs p fuel e s = some (trace, s') →
      run cfg (trace.map Prod.fst) s = some s' := by
  intro fuel
  induction fuel with
  | zero =>
    intro e s s' trace h
    simp [closed_loop] at h
  | succ n ih =>
    intro e s s' trace h
    simp only [closed_loop] at h
    cases hstep : step cfg e s with
    | none => simp [hstep] at h
    | some s1 =>
      simp only [hstep] at h
      cases hans : answer attrs s1 (last_call s s1) with
      | none =>
        simp only [hans, Option.some.injEq, Prod.mk.injEq] at h
        obtain ⟨rfl, rfl⟩ := h
        simp [run, hstep]
      | some e1 =>
        simp only [hans] at h
        cases hrec : closed_loop cfg attrs p n e1 s1 with
        | none => simp [hrec] at h
        | some r =>
          obtain ⟨tr, s2⟩ := r
          simp only [hrec, Option.some.injEq, Prod.mk.injEq] at h
          obtain ⟨rfl, rfl⟩ := h
          have := ih e1 s1 s2 tr hrec
          simp [run, hstep, this]

/-- The groups of an observed execution, executed in order as one sequence,
lead to the state it returns. -/
theorem run_observed_join {cfg : Kconfig} {p : Nat} :
    ∀ (gs : List (List event)) (s s' : State) (os : List (device_state_t × Nat × Bool)),
      run_observed cfg p gs s = some (os, s') → run cfg gs.flatten s = some s' := by
  intro gs
  induction gs with
  | nil =>
    intro s s' os h
    simp only [run_observed, Option.some.injEq, Prod.mk.injEq] at h
    simp [run, h.2]
  | cons g gs ih =>
    intro s s' os h
    simp only [run_observed] at h
    cases hg : run cfg g s with
    | none => simp [hg] at h
    | some s1 =>
      simp only [hg] at h
      cases hgs : run_observed cfg p gs s1 with
      | none => simp [hgs] at h
      | some r =>
        obtain ⟨os1, s2⟩ := r
        simp only [hgs, Option.some.injEq, Prod.mk.injEq] at h
        obtain ⟨_, rfl⟩ := h
        rw [List.flatten_cons, run_append, hg]
        exact ih s1 s2 os1 hgs

/-- The events of the subscribe completions. -/
theorem subscribe_trace_events (cfg : Kconfig) (conn : Nat) :
    ∀ (n i : Nat), (subscribe_trace cfg conn i n).map Prod.fst
      = (List.replicate n [event.subscribe_func conn 0, event.subscribe_work]).flatten := by
  intro n
  induction n with
  | zero =>
    intro i
    simp [subscribe_trace]
  | succ n ih =>
    intro i
    have h := ih (i + 1)
    unfold subscribe_trace at h ⊢
    rw [List.range'_succ i n 1, List.flatMap_cons, List.map_append, h, List.replicate_succ,
      List.flatten_cons]
    rfl

/-- The events of the discovery callbacks. -/
theorem discover_trace_events (cfg : Kconfig) (conn : Nat) (attrs : Nat → bt_gatt_attr) :
    ∀ (n i : Nat), (discover_trace cfg conn attrs i n).map Prod.fst
      = ((List.range' i n).map
          (fun j => [event.discover_func conn (some (attrs j))])).flatten := by
  intro n
  induction n with
  | zero =>
    intro i
    simp [discover_trace]
  | succ n ih =>
    intro i
    have h := ih (i + 1)
    unfold discover_trace at h ⊢
    rw [List.range'_succ i n 1, List.map_cons, List.map_cons, List.map_cons, h, List.flatten_cons]
    rfl

/-- The events of a successful negotiation are those of the sequence
`negotiation`. -/
theorem negotiation_trace_events (cfg : Kconfig) (conn : Nat) (attrs : Nat → bt_gatt_attr)
    (status : Nat) :
    (negotiation_trace cfg conn attrs status).map Prod.fst
      = (negotiation cfg conn attrs).flatten := by
  unfold negotiation_trace negotiation
  rw [List.map_append, List.map_append, discover_trace_events, subscribe_trace_events,
    List.flatten_append, List.flatten_append]
  rfl

/-- C10: under every feature set, from a state in which the scheduler is
enabled and free and selects the Idle entry `p` (the first Idle entry in cyclic
order from `current_index`), a wake-up whose connection request is accepted
starts a negotiation in which every event is the answer of the Bluetooth host
or of the kernel to the request that the code itself made last: the connect
completion answers `bt_conn_le_create`, each discovery callback answers a
`bt_gatt_discover`, each subscribe completion answers a `bt_gatt_subscribe`,
and each run of the work item answers its submission by `subscribe_func`.
With a bound of at least `2 + F + 2 S` events (`F` discovery steps, `S`
subscribe steps) the negotiation ends by itself when `next_action` raises the
wake signal, after exactly the events of `negotiation`, and the observer of
entry `p` sees after each event in turn: Connecting with `busy` set; Connected
with step counter 0 and `busy` set; after the `j`-th discovery callback step
counter `j`, Discovering, `busy` set; after each callback `subscribe_func` no
change; after each run of the work item the step counter advanced by one, with
state Active and `busy` cleared exactly at the terminal step `N`.  Observed
after each connect completion, discovery callback and subscribe completion
(callback and work item), the entry therefore shows Connecting, Connected, and
the step counters `1, ..., N` in order.  Here
`N = AWAITING_READINGS = 1 + 3k (+ 4 with the battery item) = F + S`.  Within
the first discovery callback the entry is set to Discovering before the step
counter advances, so the state Discovering is passed through also when
`N = 1`. -/
theorem negotiation_reaches_active (cfg : Kconfig) (s : State) (conn : Nat)
    (attrs : Nat → bt_gatt_attr) (k fuel : Nat)
    (hc : s.current_index < 3) (hd : s.disabled = false) (hb : s.busy = false) (hk : k < 3)
    (hidle : (s.devices ((s.current_index + k) % 3)).state = STATE_IDLE)
    (hbefore : ∀ k', k' < k → (s.devices ((s.current_index + k') % 3)).state ≠ STATE_IDLE)
    (hfuel : 2 + find_steps cfg + 2 * subscribe_steps cfg ≤ fuel) :
    enum_value cfg AWAITING_READINGS
      = 1 + 3 * sensor_kinds cfg + (if cfg.APP_BATTERY_LEVEL then 4 else 0) ∧
    find_steps cfg + subscribe_steps cfg = enum_value cfg AWAITING_READINGS ∧
    (∃ s', closed_loop cfg attrs ((s.current_index + k) % 3) fuel
          (event.sensor_function (bt_conn_le_create_result.accepted conn)) s
        = some (negotiation_trace cfg conn attrs
            (s.devices ((s.current_index + k) % 3)).handles.status, s') ∧
      (negotiation_trace cfg conn attrs
          (s.devices ((s.current_index + k) % 3)).handles.status).map Prod.fst
        = (negotiation cfg conn attrs).flatten ∧
      run_observed cfg ((s.current_index + k) % 3) (negotiation cfg conn attrs) s
        = some ([(STATE_CONNECTING, (s.devices ((s.current_index + k) % 3)).handles.status, true),
                 (STATE_CONNECTED, 0, true)]
                ++ (List.range' 1 (enum_value cfg AWAITING_READINGS)).map
                    (fun j => if j < enum_value cfg AWAITING_READINGS
                      then (STATE_DISCOVERING, j, true) else (STATE_ACTIVE, j, false)), s') ∧
      (s'.devices ((s.current_index + k) % 3)).state = STATE_ACTIVE ∧
      (s'.devices ((s.current_index + k) % 3)).handles.status
        = enum_value cfg AWAITING_READINGS ∧
      s'.busy = false) ∧
    ((discover_record cfg (attrs 0) (connected cfg conn 0 0
        (create_connection (bt_conn_le_create_result.accepted conn)
          (select_peer s ((s.current_index + k) % 3))))).devices
      ((s.current_index + k) % 3)).state = STATE_DISCOVERING := by
  obtain ⟨e1, e2, e3, e4, e5⟩ := enum_counts cfg
  obtain ⟨_, _, ⟨s4, hobs, hact, hstat, hbusy⟩, hdisc⟩ :=
    negotiation_observed cfg s conn attrs k hc hd hb hk hidle hbefore
  generalize hp : (s.current_index + k) % 3 = p at *
  have hwake := sensor_function_selects s (bt_conn_le_create_result.accepted conn) k SELECT_FUEL
    hc hd hb (by unfold SELECT_FUEL DEVICE_COUNT; omega) (by rw [hp]; exact hidle)
    (by intro k' hk'; exact hbefore k' hk')
  rw [hp] at hwake
  have hstep1 : step cfg (event.sensor_function (bt_conn_le_create_result.accepted conn)) s
      = some (create_connection (bt_conn_le_create_result.accepted conn) (select_peer s p)) := by
    simp [step, hwake]
  have hlast1 : last_call s
      (create_connection (bt_conn_le_create_result.accepted conn) (select_peer s p))
      = some (call.bt_conn_le_create p) := by
    rw [last_call_of_append (backoff s.connection_failures ++ [call.bt_conn_le_create p])
      (by simp [create_connection, select_peer])]
    simp
  generalize hs1 : create_connection (bt_conn_le_create_result.accepted conn) (select_peer s p)
    = s1 at *
  have a1 : s1.current_index = p := by subst hs1; simp [create_connection, select_peer]
  have a2 : (s1.devices p).state = STATE_CONNECTING := by
    subst hs1; simp [create_connection, select_peer]
  have a3 : (s1.devices p).handles.status = (s.devices p).handles.status := by
    subst hs1; simp [create_connection, select_peer]
  have a4 : s1.busy = true := by subst hs1; simp [create_connection, select_peer]
  have a5 : (s1.devices p).connection = some conn := by
    subst hs1; simp [create_connection, select_peer]
  have hans1 : answer attrs s1 (last_call s s1) = some (event.connected conn 0 0) := by
    rw [hlast1]
    simp [answer, a5]
  have hstep2 : step cfg (event.connected conn 0 0) s1 = some (connected cfg conn 0 0 s1) := rfl
  have hans2 : answer attrs (connected cfg conn 0 0 s1) (last_call s1 (connected cfg conn 0 0 s1))
      = some (event.discover_func conn (some (attrs 0))) := by
    rw [last_call_of_append ([call.bt_gatt_discover (some conn) BT_UUID_ESS
      { s1.discover_params with
        uuid := true, func := true
        start_handle := BT_ATT_FIRST_ATTRIBUTE_HANDLE
        end_handle := BT_ATT_LAST_ATTRIBUTE_HANDLE
        type := BT_GATT_DISCOVER_PRIMARY }]) (by simp [connected, State.call])]
    simp [answer, connected, e5]
  generalize hs2 : connected cfg conn 0 0 s1 = s2 at *
  have b1 : s2.current_index = p := by subst hs2; simp [connected, a1]
  have b3 : (s2.devices p).handles.status = 0 := by subst hs2; simp [connected, a1, e5]
  have b4 : s2.busy = true := by subst hs2; simp [connected, a4]
  have b5 : s2.uuid = BT_UUID_ESS := by subst hs2; simp [connected]
  have b6 : s2.discover_params.uuid = true := by subst hs2; simp [connected]
  have b7 : (s2.devices p).connection = some conn := by
    subst hs2; simp [connected, a1, a5]
  have b2 : (s2.devices p).state = STATE_CONNECTED := by subst hs2; simp [connected, a1]
  obtain ⟨f, hf⟩ : ∃ f, find_steps cfg = f + 1 := ⟨find_steps cfg - 1, by omega⟩
  obtain ⟨g, rfl⟩ : ∃ g, fuel = g + 1 + 1 := ⟨fuel - 2, by omega⟩
  obtain ⟨s3, hloop, ho3⟩ := discoveries_closed_loop cfg conn attrs p f 0 s2 g b1 b3 b6
    (Or.inr b5) b4 b7 (by omega) (by omega)
  have hcl := closed_loop_cons (p := p) hstep1 hans1 (closed_loop_cons hstep2 hans2 hloop)
  have htrace : (event.sensor_function (bt_conn_le_create_result.accepted conn), observe p s1)
        :: (event.connected conn 0 0, observe p s2)
        :: (discover_trace cfg conn attrs 0 (f + 1)
            ++ subscribe_trace cfg conn (find_steps cfg) (subscribe_steps cfg))
      = negotiation_trace cfg conn attrs (s.devices p).handles.status := by
    have hobs1 : observe p s1 = (STATE_CONNECTING, (s.devices p).handles.status, true) := by
      simp [observe, a2, a3, a4]
    have hobs2 : observe p s2 = (STATE_CONNECTED, 0, true) := by
      simp [observe, b2, b3, b4]
    rw [hobs1, hobs2, ← hf]
    simp [negotiation_trace]
  rw [htrace] at hcl
  have hev := negotiation_trace_events cfg conn attrs (s.devices p).handles.status
  have hrunA := closed_loop_run _ _ _ _ _ hcl
  rw [hev] at hrunA
  have hrunB := run_observed_join _ _ _ _ hobs
  have hsame : s3 = s4 := Option.some.inj (hrunA.symm.trans hrunB)
  subst hsame
  exact ⟨e1, e2, ⟨s3, hcl, hev, hobs, hact, hstat, hbusy⟩, hdisc⟩

/-- C10, witness: temperature only, `N = 4`.  From the state left by `main` the
closed loop delivers seven events and stops: the wake-up, the connect
completion, three discovery callbacks, the callback `subscribe_func` and the
work item.  The observer of entry 0 sees Connecting, Connected (step 0),
Discovering (steps 1, 2, 3, and 3 again after `subscribe_func`) and Active
(step 4), with `busy` set until the last observation. -/
theorem negotiation_reaches_active_witness :
    ((initial_state true).current_index < 3 ∧ (initial_state true).disabled = false ∧
      (initial_state true).busy = false ∧ 0 < 3 ∧
      ((initial_state true).devices 0).state = STATE_IDLE ∧
      2 + find_steps temperature_only + 2 * subscribe_steps temperature_only ≤ 7) ∧
    enum_value temperature_only AWAITING_READINGS = 4 ∧
    (∃ s', closed_loop temperature_only (fun _ => { handle := 10, value_handle := 11 }) 0 7
          (event.sensor_function (bt_conn_le_create_result.accepted 1)) (initial_state true)
        = some ([(event.sensor_function (bt_conn_le_create_result.accepted 1),
                    (STATE_CONNECTING, 0, true)),
                 (event.connected 1 0 0, (STATE_CONNECTED, 0, true)),
                 (event.discover_func 1 (some { handle := 10, value_handle := 11 }),
                    (STATE_DISCOVERING, 1, true)),
                 (event.discover_func 1 (some { handle := 10, value_handle := 11 }),
                    (STATE_DISCOVERING, 2, true)),
                 (event.discover_func 1 (some { handle := 10, value_handle := 11 }),
                    (STATE_DISCOVERING, 3, true)),
                 (event.subscribe_func 1 0, (STATE_DISCOVERING, 3, true)),
                 (event.subscribe_work, (STATE_ACTIVE, 4, false))], s') ∧
      run_observed temperature_only 0
        (negotiation temperature_only 1 (fun _ => { handle := 10, value_handle := 11 }))
        (initial_state true)
        = some ([(STATE_CONNECTING, 0, true), (STATE_CONNECTED, 0, true),
                 (STATE_DISCOVERING, 1, true), (STATE_DISCOVERING, 2, true),
                 (STATE_DISCOVERING, 3, true), (STATE_ACTIVE, 4, false)], s') ∧
      (s'.devices 0).state = STATE_ACTIVE ∧ (s'.devices 0).handles.status = 4 ∧
      s'.busy = false) := by
  obtain ⟨s', h1, _, h3, h4, h5, h6⟩ :=
    (negotiation_reaches_active temperature_only (initial_state true) 1
      (fun _ => { handle := 10, value_handle := 11 }) 0 7 (by decide) (by decide) (by decide)
      (by decide) (by decide) (by intro k' hk'; omega) (by decide)).2.2.1
  exact ⟨⟨by decide, by decide, by decide, by decide, by decide, by decide⟩, by decide,
    s', h1, h3, h4, h5, h6⟩

/-! ### The single-slot discipline without synchronous rejection -/

/-- The selection loop never leaves the table. -/
theorem advance_to_idle_lt (devices : Nat → device_params) :
    ∀ (fuel c c' : Nat), c < DEVICE_COUNT → advance_to_idle devices fuel c = some c' →
      c' < DEVICE_COUNT ∧ (devices c').state = STATE_IDLE := by
  intro fuel
  induction fuel with
  | zero => intro c c' _ h; simp [advance_to_idle] at h
  | succ n ih =>
    intro c c' hc h
    rw [advance_to_idle] at h
    split_ifs at h with hne
    · exact ih _ c' (advance_current_index_lt c) h
    · simp only [Option.some.injEq] at h
      subst h
      exact ⟨hc, by simpa using hne⟩

/-- The effect of the search loop of `disconnected` on the table: nothing, or
the reset of one entry whose connection is the disconnected one. -/
theorem disconnected_search_devices (conn : Nat) (n i : Nat) (s : State) :
    (disconnected_search conn n i s).devices = s.devices ∨
    ∃ j, i ≤ j ∧ j < i + n ∧ (s.devices j).connection = some conn ∧
      (disconnected_search conn n i s).devices
        = Function.update s.devices j (disconnected_reset (s.devices j)) := by
  induction n generalizing i with
  | zero => left; rfl
  | succ n ih =>
    unfold disconnected_search
    split_ifs with h1 h2
    · right
      exact ⟨i, Nat.le_refl _, by omega, h1, by simp [disconnected_reset]⟩
    · right
      exact ⟨i, Nat.le_refl _, by omega, h1, by simp [disconnected_reset]⟩
    · rcases ih (i + 1) with h | ⟨j, hj1, hj2, hj3, hj4⟩
      · left; exact h
      · right
        exact ⟨j, by omega, by omega, hj3, hj4⟩

/-- Every event keeps `current_index` inside the table. -/
theorem step_current_index_lt {cfg : Kconfig} {e : event} {s s' : State}
    (h : step cfg e s = some s') (hs : s.current_index < DEVICE_COUNT) :
    s'.current_index < DEVICE_COUNT := by
  cases e with
  | sensor_function r =>
    simp only [step, sensor_function] at h
    split_ifs at h
    · cases h; exact hs
    · cases h; exact hs
    · split at h
      · cases h
      · rename_i c hsel
        simp only [Option.some.injEq] at h
        subst h
        have := (advance_to_idle_lt s.devices _ _ c hs hsel).1
        cases r <;> simpa [create_connection, select_peer] using this
  | connected conn conn_err discover_err =>
    simp only [step, Option.some.injEq] at h
    subst h
    unfold connected
    split_ifs <;> first
      | simpa using advance_current_index_lt s.current_index
      | simpa using hs
  | discover_func conn attr =>
    simp only [step, discover_func] at h
    cases attr with
    | none => simp only [Option.some.injEq] at h; subst h; exact hs
    | some a =>
      simp only at h
      split_ifs at h
      rw [(next_action_spec h).1, (discover_record_spec cfg a s).1]
      exact hs
  | subscribe_func conn err =>
    simp only [step, Option.some.injEq, subscribe_func] at h
    subst h
    split_ifs <;> exact hs
  | subscribe_work =>
    simp only [step, subscribe_work] at h
    rw [(next_action_spec h).1]
    exact hs
  | disconnected conn =>
    simp only [step, Option.some.injEq, disconnected] at h
    subst h
    simp only [call_current_index]
    split_ifs
    · exact advance_current_index_lt _
    · exact advance_current_index_lt _
    · rw [(disconnected_search_globals conn _ _ _).2.1]; exact hs
    · rw [(disconnected_search_globals conn _ _ _).2.1]; exact hs
  | ess_enable_handler =>
    simp only [step, Option.some.injEq, ess_enable_handler] at h
    subst h
    split_ifs <;> exact hs
  | ess_disable_handler =>
    simp only [step, Option.some.injEq, ess_disable_handler] at h
    subst h
    split_ifs
    · rw [(disconnect_loop_frame _ _ _).2.1]; exact hs
    · exact hs
  | ess_disconnect_handler =>
    simp only [step, Option.some.injEq, ess_disconnect_handler] at h
    subst h
    rw [(disconnect_loop_frame _ _ _).2.1]; exact hs

/-- The search loop of `disconnected` resets the entry it starts at when that
entry holds the connection. -/
theorem disconnected_search_hit (conn n i : Nat) (s : State)
    (h : (s.devices i).connection = some conn) :
    (disconnected_search conn (n + 1) i s).devices
      = Function.update s.devices i (disconnected_reset (s.devices i)) := by
  unfold disconnected_search
  rw [if_pos h]
  split_ifs <;> simp [disconnected_reset]

/-- The effect of `disconnected` on the table and the cursor, for a cursor
inside the table: when the entry at the cursor holds the connection, that
entry is reset and the cursor advances; otherwise at most one other entry
holding the connection is reset, and `busy` and the cursor are unchanged. -/
theorem disconnected_spec (conn : Nat) (s : State) (hc : s.current_index < DEVICE_COUNT) :
    ((s.devices s.current_index).connection = some conn →
      (disconnected conn s).devices
        = Function.update s.devices s.current_index
            (disconnected_reset (s.devices s.current_index))) ∧
    ((s.devices s.current_index).connection ≠ some conn →
      (disconnected conn s).busy = s.busy ∧
      (disconnected conn s).current_index = s.current_index ∧
      ((disconnected conn s).devices = s.devices ∨
        ∃ j, (s.devices j).connection = some conn ∧
          (disconnected conn s).devices
            = Function.update s.devices j (disconnected_reset (s.devices j)))) := by
  constructor
  · intro h
    obtain ⟨n, hn⟩ : ∃ n, DEVICE_COUNT - s.current_index = n + 1 :=
      ⟨DEVICE_COUNT - s.current_index - 1, by omega⟩
    have key : ∀ s1 : State, s1.devices = s.devices →
        (disconnected_search conn (n + 1) s.current_index s1).devices
          = Function.update s.devices s.current_index
              (disconnected_reset (s.devices s.current_index)) := by
      intro s1 h1
      rw [disconnected_search_hit conn n _ s1 (by rw [h1]; exact h), h1]
    simp only [disconnected, h, decide_True, if_true, call_devices, hn]
    apply key
    split_ifs <;> rfl
  · intro h
    simp only [disconnected, h, decide_False, if_false, call_devices, call_busy,
      call_current_index, Bool.false_and, Bool.false_eq_true]
    refine ⟨(disconnected_search_globals conn _ _ _).2.2.1,
      (disconnected_search_globals conn _ _ _).2.1, ?_⟩
    rcases disconnected_search_devices conn (DEVICE_COUNT - 0) 0 s with h1 | ⟨j, _, _, h3, h4⟩
    · left; exact h1
    · right; exact ⟨j, h3, h4⟩

/-- An event that answers a pending request keeps the single-slot
discipline. -/
theorem step_single_slot {cfg : Kconfig} {e : event} {s s' : State}
    (h : step cfg e s = some s') (hs : single_slot s) (he : answers_request s e) :
    single_slot s' := by
  refine ⟨step_current_index_lt h hs.1, ?_⟩
  obtain ⟨hc, hslot⟩ := hs
  cases e with
  | sensor_function r =>
    cases r with
    | rejected => exact absurd rfl he
    | accepted conn =>
      simp only [step, sensor_function] at h
      split_ifs at h with h1 h2
      · cases h; exact hslot
      · cases h; exact hslot
      · split at h
        · cases h
        · rename_i c hsel
          simp only [Option.some.injEq] at h
          subst h
          intro j hj
          by_cases hjc : j = c
          · subst hjc
            simp [create_connection, select_peer]
          · have hsame : ((create_connection (bt_conn_le_create_result.accepted conn)
                (select_peer s c)).devices j).state = (s.devices j).state := by
              simp [create_connection, select_peer, Function.update, hjc]
            rw [hsame] at hj
            have := (hslot j hj).1
            simp [this] at h1
  | connected conn conn_err discover_err =>
    simp only [step, Option.some.injEq] at h
    subst h
    intro j hj
    by_cases herr : conn_err = 0
    · have hconn := he herr
      have hbusy := (hslot s.current_index (by rw [hconn]; rfl)).1
      subst herr
      by_cases hjc : j = s.current_index
      · subst hjc
        constructor
        · simp only [connected, ne_eq, not_true_eq_false, if_false]
          split_ifs <;> simp [hbusy]
        · simp only [connected, ne_eq, not_true_eq_false, if_false]
          split_ifs <;> simp
      · have hsame : ((connected cfg conn 0 discover_err s).devices j).state
            = (s.devices j).state := by
          simp only [connected, ne_eq, not_true_eq_false, if_false]
          split_ifs <;> simp [Function.update, hjc]
        rw [hsame] at hj
        exact absurd (hslot j hj).2 hjc
    · by_cases hjc : j = s.current_index
      · subst hjc
        have hidle : ((connected cfg conn conn_err discover_err s).devices s.current_index).state
            = STATE_IDLE := by
          simp [connected, herr]
        rw [hidle] at hj
        exact absurd hj (by decide)
      · have hsame : ((connected cfg conn conn_err discover_err s).devices j).state
            = (s.devices j).state := by
          simp [connected, herr, Function.update, hjc]
        rw [hsame] at hj
        exact absurd (hslot j hj).2 hjc
  | discover_func conn attr =>
    simp only [step, discover_func] at h
    cases attr with
    | none => simp only [Option.some.injEq] at h; subst h; exact hslot
    | some a =>
      simp only at h
      split_ifs at h
      have hneg := he (by simp)
      have hbusy := (hslot s.current_index hneg).1
      obtain ⟨r1, _, _, r4, _, _, r7, _⟩ := discover_record_spec cfg a s
      obtain ⟨n1, _, _, _, n5, _, n7⟩ := next_action_spec h
      rw [r1] at n1 n5 n7
      intro j hj
      by_cases hjc : j = s.current_index
      · subst hjc
        split_ifs at n7 with hN
        · rw [n7.2] at hj
          exact absurd hj (by decide)
        · exact ⟨by rw [n7.1, r4, hbusy], n1.symm⟩
      · rw [(n5 j hjc).1, r7 j hjc] at hj
        exact absurd (hslot j hj).2 hjc
  | subscribe_func conn err =>
    simp only [step, Option.some.injEq, subscribe_func] at h
    subst h
    split_ifs <;> exact hslot
  | subscribe_work =>
    simp only [step, subscribe_work] at h
    obtain ⟨n1, _, _, _, n5, _, n7⟩ := next_action_spec h
    intro j hj
    by_cases hjc : j = s.current_index
    · subst hjc
      split_ifs at n7 with hN
      · rw [n7.2] at hj
        exact absurd hj (by decide)
      · rw [n7.2] at hj
        exact ⟨by rw [n7.1]; exact (hslot _ hj).1, n1.symm⟩
    · rw [(n5 j hjc).1] at hj
      exact absurd (hslot j hj).2 hjc
  | disconnected conn =>
    simp only [step, Option.some.injEq] at h
    subst h
    obtain ⟨d1, d2⟩ := disconnected_spec conn s hc
    intro j hj
    by_cases hcur : (s.devices s.current_index).connection = some conn
    · rw [d1 hcur] at hj
      by_cases hjc : j = s.current_index
      · subst hjc
        simp [disconnected_reset] at hj
        exact absurd hj (by decide)
      · simp only [Function.update, hjc, dite_false] at hj
        exact absurd (hslot j hj).2 hjc
    · obtain ⟨b1, b2, b3⟩ := d2 hcur
      rw [b1, b2]
      rcases b3 with b3 | ⟨i, _, b3⟩
      · rw [b3] at hj
        exact hslot j hj
      · rw [b3] at hj
        by_cases hji : j = i
        · subst hji
          simp [disconnected_reset] at hj
          exact absurd hj (by decide)
        · simp only [Function.update, hji, dite_false] at hj
          exact hslot j hj
  | ess_enable_handler =>
    simp only [step, Option.some.injEq, ess_enable_handler] at h
    subst h
    split_ifs <;> exact hslot
  | ess_disable_handler =>
    simp only [step, Option.some.injEq, ess_disable_handler] at h
    subst h
    split_ifs
    · obtain ⟨f1, f2, f3, _, _⟩ := disconnect_loop_frame DEVICE_COUNT 0 { s with disabled := true }
      rw [f1, f2, f3]
      exact hslot
    · exact hslot
  | ess_disconnect_handler =>
    simp only [step, Option.some.injEq, ess_disconnect_handler] at h
    subst h
    obtain ⟨f1, f2, f3, _, _⟩ := disconnect_loop_frame DEVICE_COUNT 0 s
    rw [f1, f2, f3]
    exact hslot

/-- A sequence of events that all answer pending requests keeps the
single-slot discipline. -/
theorem run_single_slot (cfg : Kconfig) :
    ∀ (es : List event) (s s' : State), single_slot s → all_answer_requests cfg es s →
      run cfg es s = some s' → single_slot s' := by
  intro es
  induction es with
  | nil =>
    intro s s' hs _ h
    simp only [run, Option.some.injEq] at h
    subst h
    exact hs
  | cons e es ih =>
    intro s s' hs ha h
    simp only [run] at h
    cases hst : step cfg e s with
    | none => simp [hst] at h
    | some t =>
      simp only [hst, Option.some_bind] at h
      exact ih t s' (step_single_slot hst hs ha.1) (ha.2 t hst) h

/-- When the transport accepts every connection request and delivers its
callbacks in answer to pending requests, at most one entry is Connecting,
Connected or Discovering in every state reached from the state left by
`main`: the invariant of C1 is broken only through the synchronous rejection
of a connection request. -/
theorem at_most_one_negotiating_of_answers (cfg : Kconfig) (start_bootup : Bool)
    (es : List event) (s : State)
    (ha : all_answer_requests cfg es (initial_state start_bootup))
    (h : run cfg es (initial_state start_bootup) = some s) : at_most_one_negotiating s := by
  have h0 : single_slot (initial_state start_bootup) :=
    ⟨by simp [initial_state, DEVICE_COUNT],
      fun j hj => by simp [initial_state, device_params.zero, negotiating] at hj⟩
  have hs := run_single_slot cfg es _ s h0 ha h
  intro i j _ _ hi hj
  rw [(hs.2 i hi).2, (hs.2 j hj).2]

/-! ### The fan duty (C16) -/

/-- One second in nanoseconds fits in 32 bits. -/
theorem PWM_SEC_one : PWM_SEC 1 = 1000000000 := by decide

/-- The period of the fan PWM in nanoseconds. -/
theorem PWM_MAX_PERIOD_eq : PWM_MAX_PERIOD = 15625000 := by decide

/-- The pulse for a speed of at most 100, without the reductions modulo
`2^32`. -/
theorem fan_duty_eq (s : Nat) (half : Bool) (hs : s ≤ 100) :
    fan_duty s half = 15625000 * s / (if half = true then 200 else 100) := by
  unfold fan_duty
  rw [show PWM_SEC 1 / 64 = 15625000 from by decide, Nat.mod_eq_of_lt (by omega)]

/-- C16: for every speed `s ≤ 100` and either value of the half flag, the pulse
that a unit step of the ramp passes to `pwm_set_dt`, evaluated as the macro
expands (`1000000000 / 64 * s / divisor`, left to right, modulo `2^32`), is
`floor(15625000 * s / divisor)` with `divisor = 200` for half speed and `100`
otherwise; no intermediate value (`1000`, `1000000`, `1000000000`,
`15625000`, `15625000 * s`) reaches `2^32`; and the pulse never exceeds the
period `15625000`. -/
theorem fan_duty_exact (s : Nat) (half : Bool) (hs : s ≤ 100) :
    fan_duty s half = 15625000 * s / (if half = true then 200 else 100) ∧
    (1 * 1000 < 2 ^ 32 ∧ 1 * 1000 * 1000 < 2 ^ 32 ∧ 1 * 1000 * 1000 * 1000 < 2 ^ 32 ∧
      PWM_SEC 1 = 1000000000 ∧ 1000000000 / 64 = 15625000 ∧ 15625000 * s < 2 ^ 32) ∧
    fan_duty s half ≤ 15625000 ∧ fan_duty s half ≤ PWM_MAX_PERIOD ∧
    (∀ (change_increment : Int) (st : fan_state),
      to_uint8 (to_int8 st.current_fan_speed + change_increment) = s →
      st.half_fan_speed = half →
      (fan_ramp_step change_increment st).calls
        = st.calls ++ [fan_call.pwm_set_dt PWM_MAX_PERIOD (fan_duty s half),
                       fan_call.k_sleep 50]) := by
  have h1 := fan_duty_eq s half hs
  have h2 : fan_duty s half ≤ 15625000 := by
    rw [h1]
    cases half
    · simp only [Bool.false_eq_true, if_false]
      omega
    · simp only [if_true]
      omega
  refine ⟨h1, ⟨by decide, by decide, by decide, by decide, by decide, by omega⟩, h2, ?_, ?_⟩
  · rw [PWM_MAX_PERIOD_eq]
    exact h2
  · intro inc st hst hh
    simp [fan_ramp_step, hst, hh]

/-- C16, witness: speed 99 at half drive gives the pulse
`floor(15625000 * 99 / 200) = 7734375`. -/
theorem fan_duty_exact_witness :
    99 ≤ 100 ∧ fan_duty 99 true = 15625000 * 99 / 200 ∧ fan_duty 99 true = 7734375 :=
  ⟨by decide, (fan_duty_exact 99 true (by decide)).1, by decide⟩

/-! ### The ramp (C14, C19) -/

/-- One unit step of the ramp moves a speed below 127 up by one, or a speed
between 1 and 127 down by one. -/
theorem fan_ramp_step_speed (up : Bool) (st : fan_state)
    (h : if up = true then st.current_fan_speed + 1 ≤ 127
         else 1 ≤ st.current_fan_speed ∧ st.current_fan_speed ≤ 127) :
    to_uint8 (to_int8 st.current_fan_speed + (if up = true then 1 else -1))
      = ramp_value up st.current_fan_speed 1 := by
  cases up
  · simp only [Bool.false_eq_true, if_false] at h ⊢
    unfold to_uint8 to_int8 ramp_value
    rw [if_pos (by omega)]
    simp only [Bool.false_eq_true, if_false]
    omega
  · simp only [if_true] at h ⊢
    unfold to_uint8 to_int8 ramp_value
    rw [if_pos (by omega)]
    simp only [if_true]
    omega

/-- The loop of the ramp, run for `n` unit steps from a state that is `k` unit
steps away from the speed `a`, visits the speeds `k + 1, ..., k + n` steps away
from `a` in order, making the duty-set call and the dwell for each, and changes
nothing else. -/
theorem fan_ramp_spec (up : Bool) (a : Nat) :
    ∀ (n k : Nat) (st : fan_state), st.current_fan_speed = ramp_value up a k →
      (if up = true then a + k + n ≤ 127 else k + n ≤ a ∧ a ≤ 127) →
      fan_ramp (if up = true then 1 else -1) n st
        = { st with
            current_fan_speed := ramp_value up a (k + n)
            calls := st.calls
              ++ (List.range' (k + 1) n).flatMap (ramp_calls up a st.half_fan_speed) } := by
  intro n
  induction n with
  | zero =>
    intro k st hk _
    simp [fan_ramp, ← hk]
  | succ n ih =>
    intro k st hk hb
    have hstep : to_uint8 (to_int8 st.current_fan_speed + (if up = true then 1 else -1))
        = ramp_value up a (k + 1) := by
      rw [fan_ramp_step_speed up st (by
        rw [hk]
        cases up <;> simp [ramp_value] at hb ⊢ <;> omega)]
      rw [hk]
      cases up <;> simp [ramp_value] <;> omega
    rw [fan_ramp, ih (k + 1) (fan_ramp_step _ st) (by simp [fan_ramp_step, hstep])
      (by cases up <;> simp at hb ⊢ <;> omega)]
    simp only [fan_ramp_step, hstep, List.range'_succ (k + 1) n 1, List.flatMap_cons,
      ramp_calls, List.append_assoc]
    have e : k + 1 + n = k + (n + 1) := by omega
    rw [e]

/-- The pulses of a concatenation of call records. -/
theorem duties_append (xs ys : List fan_call) : duties (xs ++ ys) = duties xs ++ duties ys := by
  induction xs with
  | nil => rfl
  | cons x xs ih => cases x <;> simp [duties, ih]

/-- The pulses of the calls of consecutive unit steps of a ramp. -/
theorem duties_ramp_calls (up : Bool) (a : Nat) (half : Bool) (k n : Nat) :
    duties ((List.range' k n).flatMap (ramp_calls up a half))
      = (List.range' k n).map (fun j => fan_duty (ramp_value up a j) half) := by
  induction n generalizing k with
  | zero => rfl
  | succ n ih =>
    rw [List.range'_succ, List.flatMap_cons, List.map_cons, duties_append, ih]
    rfl

/-- A wake of the fan thread with a ready PWM device, a non-zero commanded
speed `c ≤ 100` and an actual speed `a ≤ 100` (equal to `c` or not): the PWM is
enabled if it was not, the loop runs `|c - a|` unit steps from `a` to `c`, the
PWM is switched off and the pin driven active when the speed reached is 100,
and the actual half flag takes the commanded value. -/
theorem fan_function_ramp (drv : fan_driver) (st : fan_state) (a c : Nat)
    (hready : drv.pwm_is_ready = true)
    (ha : st.current_fan_speed = a) (hc : st.fan_speed = c)
    (ha100 : a ≤ 100) (hc1 : 1 ≤ c) (hc100 : c ≤ 100)
    (hne : c ≠ a ∨ st.half_fan_speed ≠ st.current_half_fan_speed) :
    ∃ ramped : fan_state,
      ramped = { fan_pwm_enable drv st with
                 current_fan_speed := c
                 calls := (fan_pwm_enable drv st).calls
                   ++ (List.range' 1 (if c > a then c - a else a - c)).flatMap
                        (ramp_calls (decide (c > a)) a st.half_fan_speed) } ∧
      fan_ramp (if c > a then 1 else -1) (if c > a then c - a else a - c)
        (fan_pwm_enable drv st) = ramped ∧
      fan_function drv st
        = { (if c = 100 then
              (fan_pwm_disable drv ramped).call [fan_call.gpio_pin_configure_dt true true]
             else ramped) with current_half_fan_speed := st.half_fan_speed } := by
  subst ha hc
  have hen : (fan_pwm_enable drv st).current_fan_speed = st.current_fan_speed ∧
      (fan_pwm_enable drv st).half_fan_speed = st.half_fan_speed := by
    unfold fan_pwm_enable
    split_ifs <;> simp [fan_state.call]
  have hramp := fan_ramp_spec (decide (st.fan_speed > st.current_fan_speed))
    st.current_fan_speed
    (if st.fan_speed > st.current_fan_speed then st.fan_speed - st.current_fan_speed
     else st.current_fan_speed - st.fan_speed) 0
    (fan_pwm_enable drv st) (by simp [ramp_value, hen.1])
    (by by_cases h : st.fan_speed > st.current_fan_speed <;> simp [h] <;> omega)
  have hval : ramp_value (decide (st.fan_speed > st.current_fan_speed)) st.current_fan_speed
      (0 + if st.fan_speed > st.current_fan_speed then st.fan_speed - st.current_fan_speed
           else st.current_fan_speed - st.fan_speed) = st.fan_speed := by
    by_cases h : st.fan_speed > st.current_fan_speed <;> simp [ramp_value, h] <;> omega
  rw [hval, hen.2, Nat.zero_add] at hramp
  have hinc : (if decide (st.fan_speed > st.current_fan_speed) = true then (1 : Int) else -1)
      = if st.fan_speed > st.current_fan_speed then 1 else -1 := by
    by_cases h : st.fan_speed > st.current_fan_speed <;> simp [h]
  rw [hinc] at hramp
  refine ⟨_, rfl, ?_, ?_⟩
  · rw [hramp]
    simp [hen.2]
  · have hcond : ¬ (st.fan_speed = st.current_fan_speed ∧
        st.half_fan_speed = st.current_half_fan_speed) := by
      rintro ⟨h1, h2⟩
      rcases hne with h | h
      · exact h h1
      · exact h h2
    have hamount : (if st.fan_speed > st.current_fan_speed
          then (st.fan_speed - st.current_fan_speed) % 256
          else (st.current_fan_speed - st.fan_speed) % 256)
        = if st.fan_speed > st.current_fan_speed then st.fan_speed - st.current_fan_speed
          else st.current_fan_speed - st.fan_speed := by
      split_ifs <;> omega
    have h0 : st.fan_speed ≠ 0 := by omega
    unfold fan_function fan_update
    rw [if_neg (by simp [hready]), if_neg hcond, if_neg h0]
    simp only [hamount, hramp]
    by_cases h100 : st.fan_speed = 100
    · rw [if_pos h100, if_pos h100]
      simp only [fan_pwm_disable, fan_state.call]
      split_ifs <;> simp [hen.2]
    · rw [if_neg h100, if_neg h100]
      simp [hen.2]

/-- C14, as stated, fails: when the PWM device is not ready, a wake of the fan
thread with actual speed 30 and commanded speed 80 changes nothing; the actual
speed stays at 30 and no duty is set. -/
theorem fan_function_not_ready_keeps_speed :
    fan_30_to_80.current_fan_speed = 30 ∧ fan_30_to_80.fan_speed = 80 ∧
    driver_not_ready.pwm_is_ready = false ∧
    (fan_function driver_not_ready fan_30_to_80).current_fan_speed = 30 ∧
    (fan_function driver_not_ready fan_30_to_80).current_fan_speed ≠ 80 ∧
    (fan_function driver_not_ready fan_30_to_80).calls = [] := by
  decide

/-- C14, amended: for every actual speed `a ≤ 100` and every commanded speed
`c` in `1..100` with `c ≠ a`, one wake of the fan thread in which the PWM device
is ready runs the loop of the ramp for exactly `|c - a|` unit steps; after `j`
of them the actual speed is `a + j` (when `c > a`) or `a - j` (when `c < a`), so
every integer between `a` and `c` is taken in order; each step makes one
duty-set call for the speed reached and one dwell of 50 ms; the wake ends with
the actual speed at `c` and the actual half flag equal to the commanded one,
whatever the duty-set, power-management and pin-configuration calls return. -/
theorem fan_function_ramps (drv : fan_driver) (st : fan_state) (a c : Nat)
    (hready : drv.pwm_is_ready = true)
    (ha : st.current_fan_speed = a) (hc : st.fan_speed = c)
    (ha100 : a ≤ 100) (hc1 : 1 ≤ c) (hc100 : c ≤ 100) (hne : c ≠ a) :
    (∀ j, j ≤ (if c > a then c - a else a - c) →
      (fan_ramp (if c > a then 1 else -1) j (fan_pwm_enable drv st)).current_fan_speed
        = (if c > a then a + j else a - j)) ∧
    (fan_ramp (if c > a then 1 else -1) (if c > a then c - a else a - c)
        (fan_pwm_enable drv st)).calls
      = (fan_pwm_enable drv st).calls
        ++ (List.range' 1 (if c > a then c - a else a - c)).flatMap
            (fun j => [fan_call.pwm_set_dt PWM_MAX_PERIOD
                        (fan_duty (if c > a then a + j else a - j) st.half_fan_speed),
                       fan_call.k_sleep 50]) ∧
    fan_function drv st
      = { (if c = 100 then
            (fan_pwm_disable drv (fan_ramp (if c > a then 1 else -1)
              (if c > a then c - a else a - c) (fan_pwm_enable drv st))).call
                [fan_call.gpio_pin_configure_dt true true]
           else fan_ramp (if c > a then 1 else -1) (if c > a then c - a else a - c)
              (fan_pwm_enable drv st))
          with current_half_fan_speed := st.half_fan_speed } ∧
    (fan_function drv st).current_fan_speed = c ∧
    (fan_function drv st).current_half_fan_speed = st.half_fan_speed := by
  obtain ⟨ramped, h1, h2, h3⟩ :=
    fan_function_ramp drv st a c hready ha hc ha100 hc1 hc100 (Or.inl hne)
  have hen : (fan_pwm_enable drv st).current_fan_speed = a ∧
      (fan_pwm_enable drv st).half_fan_speed = st.half_fan_speed := by
    unfold fan_pwm_enable
    split_ifs <;> simp [fan_state.call, ha]
  have hcalls : (fun j => [fan_call.pwm_set_dt PWM_MAX_PERIOD
        (fan_duty (if c > a then a + j else a - j) st.half_fan_speed), fan_call.k_sleep 50])
      = ramp_calls (decide (c > a)) a st.half_fan_speed := by
    funext j
    by_cases h : c > a <;> simp [ramp_calls, ramp_value, h]
  refine ⟨?_, ?_, ?_, ?_, ?_⟩
  · intro j hj
    have hinc : (if decide (c > a) = true then (1 : Int) else -1) = if c > a then 1 else -1 := by
      by_cases h : c > a <;> simp [h]
    have := fan_ramp_spec (decide (c > a)) a j 0 (fan_pwm_enable drv st)
      (by simp [ramp_value, hen.1])
      (by by_cases h : c > a <;> simp [h] at hj ⊢ <;> omega)
    rw [hinc] at this
    rw [this]
    by_cases h : c > a <;> simp [ramp_value, h]
  · rw [h2, h1, hcalls]
  · rw [h3, h2]
  · rw [h3]
    by_cases h100 : c = 100
    · rw [if_pos h100, h1]
      simp only [fan_pwm_disable, fan_state.call]
      split_ifs <;> rfl
    · rw [if_neg h100, h1]
  · rw [h3]

/-- C14 amended, witness: actual speed 30, commanded speed 80 at full drive,
with every driver call failing: the first unit step brings the actual speed to
31, the fiftieth to 80, and the wake ends at 80. -/
theorem fan_function_ramps_witness :
    (driver_failing.pwm_is_ready = true ∧ fan_30_to_80.current_fan_speed = 30 ∧
      fan_30_to_80.fan_speed = 80 ∧ 30 ≤ 100 ∧ 1 ≤ 80 ∧ 80 ≤ 100 ∧ 80 ≠ 30) ∧
    (fan_ramp (if 80 > 30 then 1 else -1) 1
      (fan_pwm_enable driver_failing fan_30_to_80)).current_fan_speed
        = (if 80 > 30 then 30 + 1 else 30 - 1) ∧
    (fan_ramp (if 80 > 30 then 1 else -1) 50
      (fan_pwm_enable driver_failing fan_30_to_80)).current_fan_speed
        = (if 80 > 30 then 30 + 50 else 30 - 50) ∧
    (fan_function driver_failing fan_30_to_80).current_fan_speed = 80 ∧
    (fan_function driver_failing fan_30_to_80).current_half_fan_speed = false :=
  have h := fan_function_ramps driver_failing fan_30_to_80 30 80 (by decide) (by decide)
    (by decide) (by decide) (by decide) (by decide) (by decide)
  ⟨⟨by decide, by decide, by decide, by decide, by decide, by decide, by decide⟩,
    h.1 1 (by decide), h.1 50 (by decide), h.2.2.2.1, h.2.2.2.2⟩

/-- C19, as stated, fails: when the PWM device is not ready, a wake of the fan
thread in which only the half flag differs leaves the actual half flag as it
was. -/
theorem fan_function_not_ready_keeps_half_flag :
    fan_40_flag_changed.fan_speed = 40 ∧ fan_40_flag_changed.current_fan_speed = 40 ∧
    fan_40_flag_changed.half_fan_speed = true ∧
    fan_40_flag_changed.current_half_fan_speed = false ∧
    driver_not_ready.pwm_is_ready = false ∧
    (fan_function driver_not_ready fan_40_flag_changed).current_half_fan_speed = false ∧
    (fan_function driver_not_ready fan_40_flag_changed).current_half_fan_speed
      ≠ fan_40_flag_changed.half_fan_speed := by
  decide

/-- C19, amended: for every speed `s` in `1..99`, when the commanded and the
actual speed are both `s` and only the commanded half flag differs from the
actual one, one wake of the fan thread in which the PWM device is ready runs
the loop of the ramp for zero steps and makes no duty-set call, leaves the
actual speed at `s`, and sets the actual half flag to the commanded one; when
the state came from a wake that ramped to `s` under the old flag, the last
pulse given to the PWM is still the one computed with the old divisor, which
differs from the pulse for the new flag. -/
theorem fan_function_half_flag_only (drv : fan_driver) (st : fan_state) (s : Nat)
    (hready : drv.pwm_is_ready = true) (hs1 : 1 ≤ s) (hs99 : s ≤ 99)
    (hf : st.fan_speed = s) (hcur : st.current_fan_speed = s)
    (hh : st.half_fan_speed ≠ st.current_half_fan_speed) :
    fan_function drv st
      = { fan_ramp (-1) 0 (fan_pwm_enable drv st) with
          current_half_fan_speed := st.half_fan_speed } ∧
    fan_ramp (-1) 0 (fan_pwm_enable drv st) = fan_pwm_enable drv st ∧
    duties (fan_function drv st).calls = duties st.calls ∧
    (fan_function drv st).current_fan_speed = s ∧
    (fan_function drv st).current_half_fan_speed = st.half_fan_speed ∧
    fan_duty s st.current_half_fan_speed ≠ fan_duty s st.half_fan_speed ∧
    (∀ (drv0 : fan_driver) (st0 : fan_state), drv0.pwm_is_ready = true →
      st0.fan_speed = s → st0.current_fan_speed ≤ 100 → st0.current_fan_speed ≠ s →
      st = { fan_function drv0 st0 with half_fan_speed := st.half_fan_speed } →
      (duties (fan_function drv st).calls).getLast?
        = some (fan_duty s st.current_half_fan_speed)) := by
  obtain ⟨ramped, h1, h2, h3⟩ :=
    fan_function_ramp drv st s s hready hcur hf (by omega) hs1 (by omega) (Or.inr hh)
  simp only [gt_iff_lt, lt_self_iff_false, if_false, Nat.sub_self, show s ≠ 100 by omega,
    List.range'_zero, List.flatMap_nil, List.append_nil] at h1 h2 h3
  have hen : duties (fan_pwm_enable drv st).calls = duties st.calls ∧
      (fan_pwm_enable drv st).current_fan_speed = s := by
    unfold fan_pwm_enable
    split_ifs <;> simp [fan_state.call, duties_append, duties, hcur]
  have hres : fan_function drv st
      = { fan_pwm_enable drv st with current_half_fan_speed := st.half_fan_speed } := by
    rw [h3, h1, ← hen.2]
  have hd : duties (fan_function drv st).calls = duties st.calls := by
    rw [hres]
    exact hen.1
  refine ⟨?_, rfl, hd, ?_, ?_, ?_, ?_⟩
  · rw [hres]
    rfl
  · rw [hres]
    exact hen.2
  · rw [hres]
  · rw [fan_duty_eq s _ (by omega), fan_duty_eq s _ (by omega)]
    cases h1' : st.half_fan_speed <;> cases h2' : st.current_half_fan_speed <;>
      simp [h1', h2'] at hh ⊢ <;> omega
  · intro drv0 st0 hr0 hf0 h100 hne0 hst
    obtain ⟨ramped0, g1, g2, g3⟩ := fan_function_ramp drv0 st0 st0.current_fan_speed s hr0 rfl
      hf0 h100 hs1 (by omega) (Or.inl (fun h => hne0 h.symm))
    rw [if_neg (by omega)] at g3
    have hprev : st.current_half_fan_speed = st0.half_fan_speed ∧
        st.calls = ramped0.calls := by
      rw [hst, g3]
      exact ⟨rfl, rfl⟩
    rw [hd, hprev.2, g1, hprev.1]
    obtain ⟨n, hn⟩ : ∃ n, (if s > st0.current_fan_speed then s - st0.current_fan_speed
        else st0.current_fan_speed - s) = n + 1 :=
      ⟨(if s > st0.current_fan_speed then s - st0.current_fan_speed
        else st0.current_fan_speed - s) - 1, by split_ifs <;> omega⟩
    have hv : ramp_value (decide (s > st0.current_fan_speed)) st0.current_fan_speed (1 + n)
        = s := by
      by_cases h : s > st0.current_fan_speed
      · rw [if_pos h] at hn
        simp only [ramp_value, h, decide_True, if_true]
        omega
      · rw [if_neg h] at hn
        simp only [ramp_value, h, decide_False, Bool.false_eq_true, if_false]
        omega
    rw [hn, duties_append, duties_ramp_calls, List.range'_1_concat 1 n, List.map_append,
      ← List.append_assoc]
    simp only [List.map_cons, List.map_nil]
    rw [List.getLast?_concat]
    rw [hv]

/-- C19 amended, witness: after a ramp from 30 to 40 at full drive, the command
for speed 40 at half drive sets the actual half flag and leaves the last pulse
at `156250 * 40`, the pulse for full drive. -/
theorem fan_function_half_flag_only_witness :
    (driver_ok.pwm_is_ready = true ∧ 1 ≤ 40 ∧ 40 ≤ 99 ∧ fan_40_flag_changed.fan_speed = 40 ∧
      fan_40_flag_changed.current_fan_speed = 40 ∧
      fan_40_flag_changed.half_fan_speed ≠ fan_40_flag_changed.current_half_fan_speed) ∧
    duties (fan_function driver_ok fan_40_flag_changed).calls
      = duties fan_40_flag_changed.calls ∧
    (fan_function driver_ok fan_40_flag_changed).current_fan_speed = 40 ∧
    (fan_function driver_ok fan_40_flag_changed).current_half_fan_speed = true ∧
    (duties (fan_function driver_ok fan_40_flag_changed).calls).getLast? = some 6250000 ∧
    fan_duty 40 true = 3125000 :=
  have h := fan_function_half_flag_only driver_ok fan_40_flag_changed 40 (by decide)
    (by decide) (by decide) (by decide) (by decide) (by decide)
  ⟨⟨by decide, by decide, by decide, by decide, by decide, by decide⟩,
    h.2.2.1, h.2.2.2.1, h.2.2.2.2.1, by decide, by decide⟩

/-! ### The fan command (C13) -/

/-- For every requested speed above 100 the command `fan speed` prints the
message for an invalid speed with `shell_print`, returns 0, and changes no fan
global and does not raise the fan wake signal. -/
theorem fan_speed_handler_out_of_range (a : fan_speed_args) (st : fan_state)
    (h1 : a.argc ≠ 1) (h2 : a.argv1_is_actual = false) (h3 : a.speed > 100) :
    fan_speed_handler a st
      = (0, { st with calls := st.calls ++ [fan_call.shell_print fan_message.invalid_speed] }) := by
  simp [fan_speed_handler, h1, h2, h3, fan_state.call]

/-- C13: evaluation of the code where the claim fails.  The command
`fan speed 101` leaves the commanded speed and the half flag unchanged and does
not raise the fan wake signal (it only prints a message), but the status it
returns is 0, the same status that the accepted command `fan speed 50`
returns; only an invalid third argument is answered with `-EINVAL`. -/
theorem fan_speed_handler_invalid_speed_returns_success :
    (fan_speed_handler fan_speed_101 fan_30_to_80).1 = 0 ∧
    (fan_speed_handler fan_speed_50 fan_30_to_80).1 = 0 ∧
    (fan_speed_handler fan_speed_101 fan_30_to_80).2
      = { fan_30_to_80 with calls := [fan_call.shell_print fan_message.invalid_speed] } ∧
    (fan_speed_handler fan_speed_50 fan_30_to_80).2.calls
      = [fan_call.k_sem_give_fan_sem, fan_call.shell_print fan_message.fan_speed_set] ∧
    (fan_speed_handler fan_speed_50_full fan_30_to_80).1 = -EINVAL := by
  decide

/-! ### The cursor stays inside the table (C17) -/

/-- The reset of `main` returns for every content of the globals, indexes the
table with 0, 1 and 2 only, and leaves the cursor at 0. -/
theorem main_reset_spec (start_bootup : Bool) (s : State) :
    ∃ s1, main_reset start_bootup s = some (s1, [0, 1, 2]) ∧ s1.current_index = 0 :=
  ⟨_, rfl, rfl⟩

/-- C17: in every state reachable from the state left by `main` by any sequence
of events (scheduler wake-ups, connect completions, discovery and subscribe
callbacks, disconnect events, shell commands), `current_index` is less than
`DEVICE_COUNT = 3`; the increment of `current_index` in `connected`,
`disconnected` and `sensor_function`, always paired with the wrap test, yields a
value below 3 from every 8-bit value; and the reset loop of `main` indexes the
table with 0, 1 and 2 only and leaves `current_index` at 0. -/
theorem current_index_in_bounds (cfg : Kconfig) (s : State) (h : Reachable cfg s) :
    s.current_index < DEVICE_COUNT ∧ DEVICE_COUNT = 3 ∧
    (∀ c, advance_current_index c < DEVICE_COUNT) ∧
    (∀ (start_bootup : Bool) (s0 : State),
      ∃ s1, main_reset start_bootup s0 = some (s1, [0, 1, 2]) ∧ s1.current_index = 0) := by
  obtain ⟨b, es, hrun⟩ := h
  refine ⟨?_, rfl, advance_current_index_lt, main_reset_spec⟩
  exact run_induction (fun t => t.current_index < DEVICE_COUNT)
    (fun e t t' ht hstep => step_current_index_lt hstep ht) es (initial_state b) s
    (by simp [initial_state, DEVICE_COUNT]) hrun

/-- C17, witness: after a failed attempt on entry 0 and a wake-up that selects
entry 1, the cursor is 1. -/
theorem current_index_in_bounds_witness :
    Reachable temperature_only connecting_with_failure ∧
    connecting_with_failure.current_index = 1 ∧
    connecting_with_failure.current_index < DEVICE_COUNT :=
  have h : Reachable temperature_only connecting_with_failure :=
    ⟨true, [event.sensor_function (bt_conn_le_create_result.accepted 1),
      event.connected 1 5 0,
      event.sensor_function (bt_conn_le_create_result.accepted 2)], rfl⟩
  ⟨h, rfl, (current_index_in_bounds temperature_only connecting_with_failure h).1⟩

/-! ### The subscribe path (C18) -/

/-- The declaration of `handle_status_t` has at most 18 enumerators. -/
theorem handle_status_enum_length (cfg : Kconfig) : (handle_status_enum cfg).length ≤ 18 := by
  rcases cfg with ⟨_ | _, _ | _, _ | _, _ | _, _ | _⟩ <;> decide

/-- Under every feature set, the successor of every subscribe step is the
terminal step or another subscribe step. -/
theorem subscribe_successor (cfg : Kconfig) :
    ∀ i, i < 18 → subscribe_successor_ok cfg i = true := by
  rcases cfg with ⟨_ | _, _ | _, _ | _, _ | _, _ | _⟩ <;> decide

/-- A numeric value that is a subscribe step is less than 18. -/
theorem subscribe_step_at_lt {cfg : Kconfig} {i : Nat} (h : subscribe_step_at cfg i = true) :
    i < 18 := by
  by_contra hge
  have hnone : enum_at cfg i = none := by
    unfold enum_at
    rw [List.getElem?_eq_none]
    have := handle_status_enum_length cfg
    omega
  simp [subscribe_step_at, hnone] at h

/-- C18: for every feature set, when the work item `subscribe_work` (submitted
by a successful subscribe completion, calling `next_action` with a null
attribute) runs with the step counter of the entry at the cursor at a
subscribe step, the step it advances to is `AWAITING_READINGS` or another
subscribe step, for which the `switch` chooses `action == 3`, never the
descriptor discovery `action == 2`; the work item returns, without
dereferencing the null attribute, and the step counter is advanced by one. -/
theorem subscribe_work_stays_on_subscribe_path (cfg : Kconfig) (s : State)
    (hsub : subscribe_step_at cfg (s.devices s.current_index).handles.status = true) :
    ((s.devices s.current_index).handles.status + 1 = enum_value cfg AWAITING_READINGS ∨
      subscribe_step_at cfg ((s.devices s.current_index).handles.status + 1) = true) ∧
    ((s.devices s.current_index).handles.status + 1 ≠ enum_value cfg AWAITING_READINGS →
      ∃ r, next_action_switch cfg ((s.devices s.current_index).handles.status + 1) = some r ∧
        r.action = 3 ∧ r.action ≠ 2 ∧ r.param ≠ none) ∧
    ∃ s', subscribe_work cfg s = some s' ∧
      next_action cfg (s.devices s.current_index).connection none s = some s' ∧
      (s'.devices s.current_index).handles.status
        = (s.devices s.current_index).handles.status + 1 := by
  have hlt := subscribe_step_at_lt hsub
  have hok := subscribe_successor cfg _ hlt
  simp only [subscribe_successor_ok, hsub, Bool.not_true, Bool.false_or, Bool.or_eq_true,
    beq_iff_eq, Bool.and_eq_true] at hok
  have hdef : ∃ s', next_action cfg (s.devices s.current_index).connection none s = some s' := by
    apply next_action_defined
    right
    rcases hok with h | h
    · exact Or.inl h
    · exact Or.inr h.2
  obtain ⟨s', hs'⟩ := hdef
  refine ⟨?_, ?_, s', hs', hs', (next_action_spec hs').2.2.2.2.2.1⟩
  · rcases hok with h | h
    · exact Or.inl h
    · exact Or.inr h.1
  · intro hne
    rcases hok with h | h
    · exact absurd h hne
    · cases hr : next_action_switch cfg ((s.devices s.current_index).handles.status + 1) with
      | none =>
        rw [hr] at h
        simp [is_subscribe_action] at h
      | some r =>
        rw [hr] at h
        simp only [is_subscribe_action, Bool.and_eq_true, beq_iff_eq] at h
        refine ⟨r, rfl, h.2.1, by omega, ?_⟩
        intro hp
        rw [hp] at h
        simp at h

/-- C18, witness: under `temperature_only`, after the subscription of the
temperature has completed (step 3, `SUBSCRIBE_TEMPERATURE`), the work item
advances entry 0 to step 4, `AWAITING_READINGS`, and returns. -/
theorem subscribe_work_stays_on_subscribe_path_witness :
    subscribe_step_at temperature_only
      (subscription_completed.devices subscription_completed.current_index).handles.status
      = true ∧
    (subscription_completed.devices subscription_completed.current_index).handles.status = 3 ∧
    enum_value temperature_only AWAITING_READINGS = 4 ∧
    ((subscription_completed.devices subscription_completed.current_index).handles.status + 1
        = enum_value temperature_only AWAITING_READINGS ∨
      subscribe_step_at temperature_only
        ((subscription_completed.devices subscription_completed.current_index).handles.status
          + 1) = true) ∧
    ∃ s', subscribe_work temperature_only subscription_completed = some s' ∧
      (s'.devices 0).handles.status = 4 ∧ (s'.devices 0).state = STATE_ACTIVE :=
  have h := subscribe_work_stays_on_subscribe_path temperature_only subscription_completed
    (by decide)
  ⟨by decide, by decide, by decide, h.1, _, rfl, rfl, rfl⟩

/-! ### Double-precision division -/

/-- The scaling loop multiplies by a power of two and stops as soon as the
quotient reaches `2^52`. -/
theorem double_scale_spec (den : Nat) :
    ∀ (fuel num s : Nat), ∃ k, k ≤ fuel ∧
      double_scale den fuel num s = (num * 2 ^ k, s + k) ∧
      (2 ^ 52 * den ≤ num * 2 ^ k ∨ k = fuel) ∧
      (k = 0 ∨ num * 2 ^ k < 2 ^ 53 * den) := by
  intro fuel
  induction fuel with
  | zero =>
    intro num s
    exact ⟨0, Nat.le_refl _, by simp [double_scale], Or.inr rfl, Or.inl rfl⟩
  | succ n ih =>
    intro num s
    unfold double_scale
    by_cases h : num < 2 ^ 52 * den
    · rw [if_pos h]
      obtain ⟨k, hk, he, hc, hu⟩ := ih (2 * num) (s + 1)
      refine ⟨k + 1, by omega, ?_, ?_, ?_⟩
      · rw [he, Nat.pow_succ]
        congr 1
        · ring
        · omega
      · rcases hc with hc | hc
        · left
          rw [Nat.pow_succ]
          calc 2 ^ 52 * den ≤ 2 * num * 2 ^ k := hc
            _ = num * (2 ^ k * 2) := by ring
        · right
          omega
      · right
        rw [Nat.pow_succ]
        rcases hu with hu | hu
        · subst hu
          omega
        · calc num * (2 ^ k * 2) = 2 * num * 2 ^ k := by ring
            _ < 2 ^ 53 * den := hu
    · rw [if_neg h]
      exact ⟨0, Nat.zero_le _, by simp, Or.inl (by simpa using Nat.le_of_not_lt h), Or.inl rfl⟩

/-- Rounding to the nearest integer is off by at most one half, and is exact
on a multiple of the denominator. -/
theorem round_half_even_spec (num den : Nat) (hden : 0 < den) :
    2 * (round_half_even num den * den) ≤ 2 * num + den ∧
    2 * num ≤ 2 * (round_half_even num den * den) + den ∧
    (den ∣ num → round_half_even num den * den = num) := by
  have hdm := Nat.div_add_mod num den
  have hlt := Nat.mod_lt num hden
  have hexact : den ∣ num → num % den = 0 := fun h => Nat.mod_eq_zero_of_dvd h
  rw [Nat.mul_comm] at hdm
  unfold round_half_even
  generalize num / den = q at *
  generalize num % den = r at *
  have hmul : (q + 1) * den = q * den + den := by ring
  split_ifs <;> (try simp only [hmul]) <;> generalize q * den = t at * <;>
    exact ⟨by omega, by omega, fun h => by have := hexact h; omega⟩

/-- The double-precision quotient of `a ≥ 1` by `b ≥ 1` is `m / 2^k` for a
natural number `m` within one half of `a * 2^k / b`, where `2^k` scales the
quotient to `2^52` at least, and to less than `2^53` when `k > 0`. -/
theorem double_div_spec (a b : Nat) (ha : 1 ≤ a) (hb : 1 ≤ b) (hb' : b ≤ 2 ^ 53) :
    ∃ m k : Nat, double_div a b = (m : ℚ) / 2 ^ k ∧
      2 * (m * b) ≤ 2 * (a * 2 ^ k) + b ∧ 2 * (a * 2 ^ k) ≤ 2 * (m * b) + b ∧
      (b ∣ a * 2 ^ k → m * b = a * 2 ^ k) ∧ 2 ^ 52 * b ≤ a * 2 ^ k ∧
      (k = 0 ∨ a * 2 ^ k < 2 ^ 53 * b) := by
  obtain ⟨k, hk, he, hc, hu⟩ := double_scale_spec b 1074 a 0
  obtain ⟨r1, r2, r3⟩ := round_half_even_spec (a * 2 ^ k) b (by omega)
  refine ⟨round_half_even (a * 2 ^ k) b, k, ?_, r1, r2, r3, ?_, hu⟩
  · unfold double_div
    rw [if_neg (by omega)]
    simp only [he, Nat.zero_add]
  · rcases hc with hc | hc
    · exact hc
    · calc 2 ^ 52 * b ≤ 2 ^ 52 * 2 ^ 53 := Nat.mul_le_mul_left _ hb'
        _ = 2 ^ 105 := by rw [← Nat.pow_add]
        _ ≤ 2 ^ k := Nat.pow_le_pow_right (by decide) (by omega)
        _ = 1 * 2 ^ k := (Nat.one_mul _).symm
        _ ≤ a * 2 ^ k := Nat.mul_le_mul_right _ ha

/-- The double-precision quotient differs from the exact quotient by at most
the fraction `2^-53` of it. -/
theorem double_div_error (a b : Nat) (hb : 1 ≤ b) (hb' : b ≤ 2 ^ 53) :
    |double_div a b - (a : ℚ) / b| ≤ (a : ℚ) / b / 2 ^ 53 := by
  rcases Nat.eq_zero_or_pos a with ha | ha
  · subst ha
    simp [double_div]
  obtain ⟨m, k, he, h1, h2, _, h4, _⟩ := double_div_spec a b ha hb hb'
  have hB : (0 : ℚ) < b := by exact_mod_cast hb
  have hP : (0 : ℚ) < 2 ^ k := by positivity
  have q1 : 2 * ((m : ℚ) * b) ≤ 2 * ((a : ℚ) * 2 ^ k) + b := by exact_mod_cast h1
  have q2 : 2 * ((a : ℚ) * 2 ^ k) ≤ 2 * ((m : ℚ) * b) + b := by exact_mod_cast h2
  have q4 : (2 : ℚ) ^ 52 * b ≤ (a : ℚ) * 2 ^ k := by exact_mod_cast h4
  have key : (m : ℚ) / 2 ^ k - (a : ℚ) / b = ((m : ℚ) * b - a * 2 ^ k) / (2 ^ k * b) := by
    field_simp
    ring
  have bound : (a : ℚ) / b / 2 ^ 53 = ((a : ℚ) * 2 ^ k / 2 ^ 53) / (2 ^ k * b) := by
    field_simp
    ring
  rw [he, key, bound, abs_div, abs_of_pos (mul_pos hP hB)]
  apply div_le_div_of_nonneg_right _ (le_of_lt (mul_pos hP hB))
  rw [abs_le]
  constructor <;> linarith

/-- The double-precision quotient of a 16-bit value by 100 is the exact
quotient exactly when the value is a multiple of 25. -/
theorem double_div_100_exact (a : Nat) (ha : a < 65536) :
    double_div a 100 = (a : ℚ) / 100 ↔ 25 ∣ a := by
  rcases Nat.eq_zero_or_pos a with h0 | h0
  · subst h0
    simp [double_div]
  obtain ⟨m, k, he, _, _, h3, h4, _⟩ := double_div_spec a 100 h0 (by decide) (by norm_num)
  have hk : 2 ≤ k := by
    by_contra hlt
    have hk1 : k ≤ 1 := by omega
    have : 2 ^ k ≤ 2 ^ 1 := Nat.pow_le_pow_right (by decide) hk1
    have : a * 2 ^ k ≤ 65536 * 2 := Nat.mul_le_mul (by omega) this
    omega
  have hP : (2 : ℚ) ^ k ≠ 0 := by positivity
  rw [he]
  constructor
  · intro h
    have hq : (m : ℚ) * 100 = (a : ℚ) * 2 ^ k := by
      field_simp at h
      linarith
    have hn : m * 100 = a * 2 ^ k := by exact_mod_cast hq
    have hdvd : 25 ∣ a * 2 ^ k := ⟨m * 4, by omega⟩
    exact (Nat.Coprime.dvd_mul_right
      (Nat.Coprime.pow_right k (by decide : Nat.Coprime 25 2))).1 hdvd
  · rintro ⟨c, hc⟩
    have hpow : 2 ^ k = 4 * 2 ^ (k - 2) := by
      rw [show (4 : Nat) = 2 ^ 2 by decide, ← Nat.pow_add]
      congr 1
      omega
    have hdvd : 100 ∣ a * 2 ^ k := ⟨c * 2 ^ (k - 2), by rw [hc, hpow]; ring⟩
    have hn := h3 hdvd
    have hq : (m : ℚ) * 100 = (a : ℚ) * 2 ^ k := by exact_mod_cast hn
    field_simp
    linarith

/-- The double nearest to 25.12. -/
theorem double_div_2512 : double_div 2512 100 = 7070651414971679 / 281474976710656 := by
  have h1 : double_scale 100 1074 2512 0 = (707065141497167872, 48) := by decide
  have h2 : round_half_even 707065141497167872 100 = 7070651414971679 := by decide
  simp only [double_div, h1, h2]
  norm_num

/-! ### Decoding of notifications (C11) -/

/-- The search of `notify_func` stops at the first entry that holds the
connection. -/
theorem notify_search_first (conn : Option Nat) (s : State) (i : Nat)
    (hconn : (s.devices i).connection = conn) :
    ∀ n i0, i0 ≤ i → i < i0 + n → (∀ j, i0 ≤ j → j < i → (s.devices j).connection ≠ conn) →
      notify_search conn s n i0 = i := by
  intro n
  induction n with
  | zero =>
    intro i0 h1 h2
    omega
  | succ n ih =>
    intro i0 h1 h2 hfirst
    unfold notify_search
    by_cases heq : i0 = i
    · subst heq
      rw [if_pos hconn]
    · rw [if_neg (hfirst i0 (Nat.le_refl _) (by omega))]
      exact ih (i0 + 1) (by omega) (by omega) (fun j hj1 hj2 => hfirst j (by omega) hj2)

/-- The little-endian 16-bit value of two bytes. -/
theorem sys_get_le16_eq (b0 b1 : Nat) (h0 : b0 < 256) (h1 : b1 < 256) :
    sys_get_le16 b0 b1 = b0 + 256 * b1 := by
  unfold sys_get_le16
  rw [Nat.mod_eq_of_lt h0, Nat.mod_eq_of_lt h1, Nat.shiftLeft_eq,
    Nat.mod_eq_of_lt (by omega), Nat.mul_comm b1,
    ← Nat.mul_add_lt_is_or (show b0 < 2 ^ 8 from h0) b1]
  omega

/-- The little-endian 32-bit value of four bytes. -/
theorem sys_get_le32_eq (b0 b1 b2 b3 : Nat) (h0 : b0 < 256) (h1 : b1 < 256) (h2 : b2 < 256)
    (h3 : b3 < 256) :
    sys_get_le32 b0 b1 b2 b3 = b0 + 2 ^ 8 * b1 + 2 ^ 16 * b2 + 2 ^ 24 * b3 := by
  unfold sys_get_le32
  rw [sys_get_le16_eq b0 b1 h0 h1, sys_get_le16_eq b2 b3 h2 h3, Nat.shiftLeft_eq,
    Nat.mod_eq_of_lt (by omega), Nat.mul_comm (b2 + 256 * b3),
    ← Nat.mul_add_lt_is_or (show b0 + 256 * b1 < 2 ^ 16 by omega) (b2 + 256 * b3)]
  omega

/-- A byte read as `int8_t`. -/
theorem to_int8_eq (b : Nat) (h : b < 256) :
    to_int8 b = if b < 128 then (b : Int) else (b : Int) - 256 := by
  unfold to_int8
  rw [Nat.mod_eq_of_lt h]

/-- A byte read as `int8_t` and stored in a `uint8_t` is the byte. -/
theorem to_uint8_to_int8 (b : Nat) (h : b < 256) : to_uint8 (to_int8 b) = b := by
  unfold to_uint8 to_int8
  rw [Nat.mod_eq_of_lt h]
  split_ifs <;> omega

/-- What `notify_func` stores: for every table in which entry `i` is the first
one that holds the connection of the notification, and every payload of bytes
`b0 b1 b2 b3 ...` delivered on a subscription record of entry `i`,
`notify_func` returns `BT_GATT_ITER_CONTINUE` and stores in the readings of
entry `i`: for a temperature or humidity notification the double-precision
quotient of `b0 + 256*b1` by 100; for a pressure notification the integer
`b0 + 2^8*b1 + 2^16*b2 + 2^24*b3`; for a dew point notification the byte `b0`
read as a two's-complement 8-bit integer; for a battery level notification the
byte `b0` itself.  Each decode sets the bit of its kind in `received`. -/
theorem notify_func_stores (cfg : Kconfig) (conn : Option Nat) (s : State) (i : Nat)
    (b0 b1 b2 b3 : Nat) (rest : List Nat)
    (hi : i < DEVICE_COUNT) (hconn : (s.devices i).connection = conn)
    (hfirst : ∀ j, j < i → (s.devices j).connection ≠ conn)
    (h0 : b0 < 256) (h1 : b1 < 256) (h2 : b2 < 256) (h3 : b3 < 256) :
    (cfg.APP_ESS_TEMPERATURE = true →
      ∃ s', notify_func cfg conn (subscribe_params_ptr.member i SUBSCRIBE_TEMPERATURE)
          (some (b0 :: b1 :: rest)) s = some (BT_GATT_ITER_CONTINUE, s') ∧
        (s'.devices i).readings.temperature = double_div (b0 + 256 * b1) 100 ∧
        (s'.devices i).readings.received
          = (s.devices i).readings.received ||| RECEIVED_TEMPERATURE) ∧
    (cfg.APP_ESS_HUMIDITY = true →
      ∃ s', notify_func cfg conn (subscribe_params_ptr.member i SUBSCRIBE_HUMDIITY)
          (some (b0 :: b1 :: rest)) s = some (BT_GATT_ITER_CONTINUE, s') ∧
        (s'.devices i).readings.humidity = double_div (b0 + 256 * b1) 100 ∧
        (s'.devices i).readings.received
          = (s.devices i).readings.received ||| RECEIVED_HUMIDITY) ∧
    (cfg.APP_ESS_PRESSURE = true →
      ∃ s', notify_func cfg conn (subscribe_params_ptr.member i SUBSCRIBE_PRESSURE)
          (some (b0 :: b1 :: b2 :: b3 :: rest)) s = some (BT_GATT_ITER_CONTINUE, s') ∧
        (s'.devices i).readings.pressure
          = ((b0 + 2 ^ 8 * b1 + 2 ^ 16 * b2 + 2 ^ 24 * b3 : Nat) : ℚ) ∧
        (s'.devices i).readings.received
          = (s.devices i).readings.received ||| RECEIVED_PRESSURE) ∧
    (cfg.APP_ESS_DEW_POINT = true →
      ∃ s', notify_func cfg conn (subscribe_params_ptr.member i SUBSCRIBE_DEW_POINT)
          (some (b0 :: rest)) s = some (BT_GATT_ITER_CONTINUE, s') ∧
        (s'.devices i).readings.dew_point = (if b0 < 128 then (b0 : Int) else (b0 : Int) - 256) ∧
        (s'.devices i).readings.received
          = (s.devices i).readings.received ||| RECEIVED_DEW_POINT) ∧
    (cfg.APP_BATTERY_LEVEL = true →
      ∃ s', notify_func cfg conn (subscribe_params_ptr.member i SUBSCRIBE_BATTERY_LEVEL)
          (some (b0 :: rest)) s = some (BT_GATT_ITER_CONTINUE, s') ∧
        (s'.devices i).readings.battery_level = b0 ∧
        (s'.devices i).readings.received
          = (s.devices i).readings.received ||| RECEIVED_BATTERY_LEVEL) := by
  have hsearch : notify_search conn s DEVICE_COUNT 0 = i :=
    notify_search_first conn s i hconn DEVICE_COUNT 0 (Nat.zero_le _) (by omega)
      (fun j _ hj => hfirst j hj)
  have hne : ¬ i = DEVICE_COUNT := by omega
  have hb0 : ∀ l, payload_byte (b0 :: l) 0 = some b0 := by
    intro l
    simp [payload_byte, Nat.mod_eq_of_lt h0]
  have hb1 : ∀ l, payload_byte (b0 :: b1 :: l) 1 = some b1 := by
    intro l
    simp [payload_byte, Nat.mod_eq_of_lt h1]
  have hb2 : ∀ l, payload_byte (b0 :: b1 :: b2 :: l) 2 = some b2 := by
    intro l
    simp [payload_byte, Nat.mod_eq_of_lt h2]
  have hb3 : ∀ l, payload_byte (b0 :: b1 :: b2 :: b3 :: l) 3 = some b3 := by
    intro l
    simp [payload_byte, Nat.mod_eq_of_lt h3]
  refine ⟨?_, ?_, ?_, ?_, ?_⟩
  · intro hcfg
    simp only [notify_func, hsearch, if_neg hne, hcfg, true_and, if_true, hb0, hb1]
    refine ⟨_, rfl, ?_, ?_⟩
    · simp [State.modify_device, device_readings.receive, sys_get_le16_eq b0 b1 h0 h1]
    · simp [State.modify_device, device_readings.receive]
  · intro hcfg
    simp only [notify_func, hsearch, if_neg hne, hcfg, true_and, if_true, hb0, hb1,
        subscribe_params_ptr.member.injEq, reduceCtorEq, and_false, if_false]
    refine ⟨_, rfl, ?_, ?_⟩
    · simp [State.modify_device, device_readings.receive, sys_get_le16_eq b0 b1 h0 h1]
    · simp [State.modify_device, device_readings.receive]
  · intro hcfg
    simp only [notify_func, hsearch, if_neg hne, hcfg, true_and, if_true, hb0, hb1, hb2, hb3,
        subscribe_params_ptr.member.injEq, reduceCtorEq, and_false, if_false]
    refine ⟨_, rfl, ?_, ?_⟩
    · simp [State.modify_device, device_readings.receive, sys_get_le32_eq b0 b1 b2 b3 h0 h1 h2 h3]
    · simp [State.modify_device, device_readings.receive]
  · intro hcfg
    simp only [notify_func, hsearch, if_neg hne, hcfg, true_and, if_true, hb0,
        subscribe_params_ptr.member.injEq, reduceCtorEq, and_false, if_false]
    refine ⟨_, rfl, ?_, ?_⟩
    · simp [State.modify_device, device_readings.receive, to_int8_eq b0 h0]
    · simp [State.modify_device, device_readings.receive]
  · intro hcfg
    simp only [notify_func, hsearch, if_neg hne, hcfg, true_and, if_true, hb0,
        subscribe_params_ptr.member.injEq, reduceCtorEq, and_false, if_false]
    refine ⟨_, rfl, ?_, ?_⟩
    · simp [State.modify_device, device_readings.receive, to_uint8_to_int8 b0 h0]
    · simp [State.modify_device, device_readings.receive]

/-- C11, as stated, fails.  The temperature payload `D0 09` (raw value 2512)
stores the double nearest to 25.12, which is `7070651414971679 / 2^48` and not
the rational 25.12.  And when an Idle entry before the owner still holds a
stale pointer to the same connection object (entry 0 beside the Active entry
1), the search of `notify_func` stops at the Idle entry, the subscription
record of entry 1 is not one of its members, and nothing is stored. -/
theorem notify_func_temperature_not_exact :
    (∃ s', notify_func every_kind (some 1) (subscribe_params_ptr.member 0 SUBSCRIBE_TEMPERATURE)
        (some [0xD0, 0x09]) active_with_failure = some (BT_GATT_ITER_CONTINUE, s') ∧
      (s'.devices 0).readings.temperature = 7070651414971679 / 281474976710656 ∧
      (s'.devices 0).readings.temperature ≠ 2512 / 100) ∧
    ((stale_pointer_beside_active.devices 1).state = STATE_ACTIVE ∧
      (stale_pointer_beside_active.devices 1).connection = some 5 ∧
      ∃ s', notify_func temperature_only (some 5)
          (subscribe_params_ptr.member 1 SUBSCRIBE_TEMPERATURE) (some [0xD0, 0x09])
          stale_pointer_beside_active = some (BT_GATT_ITER_CONTINUE, s') ∧
        (s'.devices 1).readings.temperature = 0 ∧
        (s'.devices 1).readings.received = 0) := by
  constructor
  · obtain ⟨s', h1, h2, _⟩ :=
      (notify_func_stores every_kind (some 1) active_with_failure 0 0xD0 0x09 0 0 []
        (by decide) (by decide) (fun j hj => absurd hj (Nat.not_lt_zero j))
        (by decide) (by decide) (by decide) (by decide)).1 rfl
    refine ⟨s', h1, ?_, ?_⟩
    · rw [h2]
      exact double_div_2512
    · rw [h2, show (208 + 256 * 9 : Nat) = 2512 from rfl, double_div_2512]
      norm_num
  · exact ⟨by decide, by decide, _, rfl, rfl, rfl⟩

/-- C11, amended: for every table in which entry `i` is the first one that
holds the connection of the notification, every enabled kind, and every
payload of bytes `b0 b1 b2 b3 ...` delivered on the subscription record of
that kind of entry `i`, `notify_func` returns `BT_GATT_ITER_CONTINUE` and
stores in the readings of entry `i`: for a temperature or humidity
notification the double-precision quotient of `b0 + 256*b1` by 100, which is
the rational `(b0 + 256*b1) / 100` exactly when `b0 + 256*b1` is a multiple of
25 and always differs from it by at most the fraction `2^-53` of it; for a
pressure notification the integer `b0 + 2^8*b1 + 2^16*b2 + 2^24*b3`; for a dew
point notification the byte `b0` read as a two's-complement 8-bit integer
(`b0` below 128, `b0 - 256` from 128 on); for a battery level notification the
byte `b0` itself, also from 128 on. -/
theorem notify_func_decodes (cfg : Kconfig) (conn : Option Nat) (s : State) (i : Nat)
    (b0 b1 b2 b3 : Nat) (rest : List Nat)
    (hi : i < DEVICE_COUNT) (hconn : (s.devices i).connection = conn)
    (hfirst : ∀ j, j < i → (s.devices j).connection ≠ conn)
    (h0 : b0 < 256) (h1 : b1 < 256) (h2 : b2 < 256) (h3 : b3 < 256) :
    (cfg.APP_ESS_TEMPERATURE = true →
      ∃ s', notify_func cfg conn (subscribe_params_ptr.member i SUBSCRIBE_TEMPERATURE)
          (some (b0 :: b1 :: rest)) s = some (BT_GATT_ITER_CONTINUE, s') ∧
        (s'.devices i).readings.temperature = double_div (b0 + 256 * b1) 100) ∧
    (cfg.APP_ESS_HUMIDITY = true →
      ∃ s', notify_func cfg conn (subscribe_params_ptr.member i SUBSCRIBE_HUMDIITY)
          (some (b0 :: b1 :: rest)) s = some (BT_GATT_ITER_CONTINUE, s') ∧
        (s'.devices i).readings.humidity = double_div (b0 + 256 * b1) 100) ∧
    (double_div (b0 + 256 * b1) 100 = ((b0 + 256 * b1 : Nat) : ℚ) / 100 ↔
      25 ∣ b0 + 256 * b1) ∧
    |double_div (b0 + 256 * b1) 100 - ((b0 + 256 * b1 : Nat) : ℚ) / 100|
      ≤ ((b0 + 256 * b1 : Nat) : ℚ) / 100 / 2 ^ 53 ∧
    (cfg.APP_ESS_PRESSURE = true →
      ∃ s', notify_func cfg conn (subscribe_params_ptr.member i SUBSCRIBE_PRESSURE)
          (some (b0 :: b1 :: b2 :: b3 :: rest)) s = some (BT_GATT_ITER_CONTINUE, s') ∧
        (s'.devices i).readings.pressure
          = ((b0 + 2 ^ 8 * b1 + 2 ^ 16 * b2 + 2 ^ 24 * b3 : Nat) : ℚ)) ∧
    (cfg.APP_ESS_DEW_POINT = true →
      ∃ s', notify_func cfg conn (subscribe_params_ptr.member i SUBSCRIBE_DEW_POINT)
          (some (b0 :: rest)) s = some (BT_GATT_ITER_CONTINUE, s') ∧
        (s'.devices i).readings.dew_point
          = (if b0 < 128 then (b0 : Int) else (b0 : Int) - 256)) ∧
    (cfg.APP_BATTERY_LEVEL = true →
      ∃ s', notify_func cfg conn (subscribe_params_ptr.member i SUBSCRIBE_BATTERY_LEVEL)
          (some (b0 :: rest)) s = some (BT_GATT_ITER_CONTINUE, s') ∧
        (s'.devices i).readings.battery_level = b0) := by
  obtain ⟨k1, k2, k3, k4, k5⟩ :=
    notify_func_stores cfg conn s i b0 b1 b2 b3 rest hi hconn hfirst h0 h1 h2 h3
  refine ⟨?_, ?_, double_div_100_exact _ (by omega),
    by exact_mod_cast double_div_error (b0 + 256 * b1) 100 (by decide) (by norm_num),
    ?_, ?_, ?_⟩
  · intro h
    obtain ⟨s', e1, e2, _⟩ := k1 h
    exact ⟨s', e1, e2⟩
  · intro h
    obtain ⟨s', e1, e2, _⟩ := k2 h
    exact ⟨s', e1, e2⟩
  · intro h
    obtain ⟨s', e1, e2, _⟩ := k3 h
    exact ⟨s', e1, e2⟩
  · intro h
    obtain ⟨s', e1, e2, _⟩ := k4 h
    exact ⟨s', e1, e2⟩
  · intro h
    obtain ⟨s', e1, e2, _⟩ := k5 h
    exact ⟨s', e1, e2⟩

/-- C11 amended, witness: with entry 0 holding connection object 1, the
temperature payload `D0 09` stores the double nearest to 25.12, the pressure
payload `AE 87 01 00` stores 100270, the dew point payload `08` stores 8, the
dew point payload `F8` stores -8, and the battery level payload `C8` stores
200. -/
theorem notify_func_decodes_witness :
    (∃ s', notify_func every_kind (some 1) (subscribe_params_ptr.member 0 SUBSCRIBE_TEMPERATURE)
        (some [0xD0, 0x09]) active_with_failure = some (BT_GATT_ITER_CONTINUE, s') ∧
      (s'.devices 0).readings.temperature = 7070651414971679 / 2 ^ 48) ∧
    (∃ s', notify_func every_kind (some 1) (subscribe_params_ptr.member 0 SUBSCRIBE_PRESSURE)
        (some [0xAE, 0x87, 0x01, 0x00]) active_with_failure = some (BT_GATT_ITER_CONTINUE, s') ∧
      (s'.devices 0).readings.pressure = 100270) ∧
    (∃ s', notify_func every_kind (some 1) (subscribe_params_ptr.member 0 SUBSCRIBE_DEW_POINT)
        (some [0x08]) active_with_failure = some (BT_GATT_ITER_CONTINUE, s') ∧
      (s'.devices 0).readings.dew_point = 8) ∧
    (∃ s', notify_func every_kind (some 1) (subscribe_params_ptr.member 0 SUBSCRIBE_DEW_POINT)
        (some [0xF8]) active_with_failure = some (BT_GATT_ITER_CONTINUE, s') ∧
      (s'.devices 0).readings.dew_point = -8) ∧
    (∃ s', notify_func every_kind (some 1)
        (subscribe_params_ptr.member 0 SUBSCRIBE_BATTERY_LEVEL)
        (some [0xC8]) active_with_failure = some (BT_GATT_ITER_CONTINUE, s') ∧
      (s'.devices 0).readings.battery_level = 200) := by
  have hpre : (active_with_failure.devices 0).connection = some 1 := by decide
  have hfirst : ∀ j, j < 0 → (active_with_failure.devices j).connection ≠ some 1 :=
    fun j hj => absurd hj (Nat.not_lt_zero j)
  have ha := notify_func_decodes every_kind (some 1) active_with_failure 0 0xD0 0x09 0 0 []
    (by decide) hpre hfirst (by decide) (by decide) (by decide) (by decide)
  have hb := notify_func_decodes every_kind (some 1) active_with_failure 0 0xAE 0x87 0x01 0x00 []
    (by decide) hpre hfirst (by decide) (by decide) (by decide) (by decide)
  have hc := notify_func_decodes every_kind (some 1) active_with_failure 0 0x08 0 0 0 []
    (by decide) hpre hfirst (by decide) (by decide) (by decide) (by decide)
  have hd := notify_func_decodes every_kind (some 1) active_with_failure 0 0xF8 0 0 0 []
    (by decide) hpre hfirst (by decide) (by decide) (by decide) (by decide)
  have he := notify_func_decodes every_kind (some 1) active_with_failure 0 0xC8 0 0 0 []
    (by decide) hpre hfirst (by decide) (by decide) (by decide) (by decide)
  obtain ⟨sa, ha1, ha2⟩ := ha.1 rfl
  obtain ⟨sb, hb1, hb2⟩ := hb.2.2.2.2.1 rfl
  obtain ⟨sc, hc1, hc2⟩ := hc.2.2.2.2.2.1 rfl
  obtain ⟨sd, hd1, hd2⟩ := hd.2.2.2.2.2.1 rfl
  obtain ⟨se, he1, he2⟩ := he.2.2.2.2.2.2 rfl
  refine ⟨⟨sa, ha1, ?_⟩, ⟨sb, hb1, ?_⟩, ⟨sc, hc1, ?_⟩, ⟨sd, hd1, ?_⟩, ⟨se, he1, he2⟩⟩
  · rw [ha2, show (208 + 256 * 9 : Nat) = 2512 from rfl, double_div_2512]
    norm_num
  · rw [hb2]
    norm_num
  · rw [hc2]
    norm_num
  · rw [hd2]
    norm_num

/-! ### The report of complete readings (C12) -/

/-- The device numbers of two entries differ when the entries do. -/
theorem device_number_inj (format : output_format) (i j : Nat)
    (h : device_number format i = device_number format j) : i = j := by
  cases format <;> simp [device_number] at h <;> exact h

/-- The loop of `ess_readings_handler`: an entry of the range that is Active
with every reading received is cleared and gets a row that carries its
readings; every other entry is unchanged; and every row added is the row of
such an entry. -/
theorem ess_readings_loop_spec (cfg : Kconfig) (format : output_format) :
    ∀ (n i0 : Nat) (s : State) (rows : List report_row),
      (∀ j, (i0 ≤ j ∧ j < i0 + n ∧ (s.devices j).state = STATE_ACTIVE ∧
            (s.devices j).readings.received = RECEIVED_ALL cfg) →
          (ess_readings_loop cfg format n i0 s rows).1.devices j
            = { s.devices j with
                readings := { (s.devices j).readings with received := RECEIVED_NONE } } ∧
          ({ device := device_number format j, readings := (s.devices j).readings } : report_row)
            ∈ (ess_readings_loop cfg format n i0 s rows).2) ∧
      (∀ j, ¬ (i0 ≤ j ∧ j < i0 + n ∧ (s.devices j).state = STATE_ACTIVE ∧
            (s.devices j).readings.received = RECEIVED_ALL cfg) →
          (ess_readings_loop cfg format n i0 s rows).1.devices j = s.devices j) ∧
      (∀ row ∈ (ess_readings_loop cfg format n i0 s rows).2, row ∈ rows ∨
          ∃ j, i0 ≤ j ∧ j < i0 + n ∧ (s.devices j).state = STATE_ACTIVE ∧
            (s.devices j).readings.received = RECEIVED_ALL cfg ∧
            row.device = device_number format j) ∧
      (∀ row ∈ rows, row ∈ (ess_readings_loop cfg format n i0 s rows).2) ∧
      (ess_readings_loop cfg format n i0 s rows).1.calls = s.calls := by
  intro n
  induction n with
  | zero =>
    intro i0 s rows
    refine ⟨?_, ?_, ?_, ?_, rfl⟩
    · intro j hj
      omega
    · intro j _
      rfl
    · intro row hrow
      exact Or.inl hrow
    · intro row hrow
      exact hrow
  | succ n ih =>
    intro i0 s rows
    unfold ess_readings_loop
    by_cases hdue : (s.devices i0).state = STATE_ACTIVE ∧
        (s.devices i0).readings.received = RECEIVED_ALL cfg
    · rw [if_pos hdue]
      obtain ⟨ih1, ih2, ih3, ih4, ih5⟩ := ih (i0 + 1)
        (s.modify_device i0 (fun d =>
          { d with readings := { d.readings with received := RECEIVED_NONE } }))
        (rows ++ [{ device := device_number format i0, readings := (s.devices i0).readings }])
      have hother : ∀ j, j ≠ i0 →
          ((s.modify_device i0 (fun d =>
            { d with readings := { d.readings with received := RECEIVED_NONE } })).devices j)
            = s.devices j := by
        intro j hj
        simp [State.modify_device, Function.update_noteq hj]
      refine ⟨?_, ?_, ?_, ?_, ?_⟩
      · intro j hj
        by_cases hji : j = i0
        · subst hji
          constructor
          · rw [ih2 j (by omega)]
            simp [State.modify_device]
          · exact ih4 _ (by simp)
        · have h := ih1 j (by
            rw [hother j hji]
            exact ⟨by omega, by omega, hj.2.2⟩)
          rw [hother j hji] at h
          exact h
      · intro j hj
        have hji : j ≠ i0 := by
          intro hji
          subst hji
          exact hj ⟨Nat.le_refl _, by omega, hdue⟩
        rw [ih2 j (by
          rw [hother j hji]
          intro h
          exact hj ⟨by omega, by omega, h.2.2⟩), hother j hji]
      · intro row hrow
        rcases ih3 row hrow with h | ⟨j, h1, h2, h3⟩
        · rcases List.mem_append.1 h with h | h
          · exact Or.inl h
          · right
            simp only [List.mem_singleton] at h
            exact ⟨i0, Nat.le_refl _, by omega, hdue.1, hdue.2, by rw [h]⟩
        · right
          rw [hother j (by omega)] at h3
          exact ⟨j, by omega, by omega, h3⟩
      · intro row hrow
        exact ih4 row (List.mem_append_left _ hrow)
      · rw [ih5]
        rfl
    · rw [if_neg hdue]
      obtain ⟨ih1, ih2, ih3, ih4, ih5⟩ := ih (i0 + 1) s rows
      refine ⟨?_, ?_, ?_, ih4, ih5⟩
      · intro j hj
        have hji : j ≠ i0 := by
          intro hji
          subst hji
          exact hdue hj.2.2
        exact ih1 j ⟨by omega, by omega, hj.2.2⟩
      · intro j hj
        exact ih2 j (fun h => hj ⟨by omega, by omega, h.2.2⟩)
      · intro row hrow
        rcases ih3 row hrow with h | ⟨j, h1, h2, h3⟩
        · exact Or.inl h
        · exact Or.inr ⟨j, by omega, by omega, h3⟩

/-- The rows of the command are the rows of the loop, followed in the CSV
format by at most one row, numbered after the last entry of the table; and the
table after the command is the table after the loop. -/
theorem ess_readings_handler_rows (cfg : Kconfig) (format : output_format)
    (dht22 : dht22_sensor) (last_dht_reading_pass : Bool) (s : State) :
    (ess_readings_handler cfg format dht22 last_dht_reading_pass s).state.devices
      = (ess_readings_loop cfg format DEVICE_COUNT 0 s []).1.devices ∧
    ∀ row, row ∈ (ess_readings_handler cfg format dht22 last_dht_reading_pass s).rows ↔
      (row ∈ (ess_readings_loop cfg format DEVICE_COUNT 0 s []).2 ∨
        (format = output_format.APP_OUTPUT_FORMAT_CSV ∧
          (if dht22.fetch_err ≠ 0 then dht22.retry_err else dht22.fetch_err) = 0 ∧
          row = { device := device_number format DEVICE_COUNT
                  readings := { device_readings.zero with
                    temperature := dht22.temperature, humidity := dht22.humidity } })) := by
  cases format
  · refine ⟨rfl, fun row => ?_⟩
    simp [ess_readings_handler]
  · constructor
    · simp only [ess_readings_handler]
      split_ifs <;> rfl
    · intro row
      by_cases hf : dht22.fetch_err = 0
      · simp [ess_readings_handler, hf]
      · by_cases hr : dht22.retry_err = 0
        · simp [ess_readings_handler, hf, hr]
        · simp [ess_readings_handler, hf, hr]

/-- C12: for every table, feature set and output format, and every entry `i`
of the table, the command `ess readings` prints a row for entry `i` exactly
when the entry is Active and its `received` equals `RECEIVED_ALL`, hence only
if the bitmask is the full configured set; an entry that gets a row has
`received = RECEIVED_NONE = 0` afterwards, and its row carries the readings it
had; an entry that gets no row is unchanged, bitmask and readings included. -/
theorem ess_readings_handler_report_and_clear (cfg : Kconfig) (format : output_format)
    (dht22 : dht22_sensor) (last_dht_reading_pass : Bool) (s : State) (i : Nat)
    (hi : i < DEVICE_COUNT) :
    (has_row format i (ess_readings_handler cfg format dht22 last_dht_reading_pass s).rows ↔
      ((s.devices i).state = STATE_ACTIVE ∧
        (s.devices i).readings.received = RECEIVED_ALL cfg)) ∧
    (has_row format i (ess_readings_handler cfg format dht22 last_dht_reading_pass s).rows →
      ((ess_readings_handler cfg format dht22 last_dht_reading_pass s).state.devices i
        ).readings.received = RECEIVED_NONE ∧ RECEIVED_NONE = 0 ∧
      ({ device := device_number format i, readings := (s.devices i).readings } : report_row)
        ∈ (ess_readings_handler cfg format dht22 last_dht_reading_pass s).rows) ∧
    (¬ has_row format i (ess_readings_handler cfg format dht22 last_dht_reading_pass s).rows →
      (ess_readings_handler cfg format dht22 last_dht_reading_pass s).state.devices i
        = s.devices i) := by
  obtain ⟨hdev, hrows⟩ := ess_readings_handler_rows cfg format dht22 last_dht_reading_pass s
  obtain ⟨l1, l2, l3, _, _⟩ := ess_readings_loop_spec cfg format DEVICE_COUNT 0 s []
  have hiff : has_row format i
        (ess_readings_handler cfg format dht22 last_dht_reading_pass s).rows ↔
      ((s.devices i).state = STATE_ACTIVE ∧
        (s.devices i).readings.received = RECEIVED_ALL cfg) := by
    constructor
    · rintro ⟨row, hrow, hdevice⟩
      rcases (hrows row).1 hrow with h | ⟨_, _, h⟩
      · rcases l3 row h with h | ⟨j, _, _, h1, h2, h3⟩
        · cases h
        · have hji := device_number_inj format j i (by rw [← h3, hdevice])
          subst hji
          exact ⟨h1, h2⟩
      · rw [h] at hdevice
        have := device_number_inj format _ _ hdevice
        omega
    · intro hdue
      exact ⟨_, (hrows _).2 (Or.inl (l1 i ⟨Nat.zero_le _, by omega, hdue⟩).2), rfl⟩
  refine ⟨hiff, ?_, ?_⟩
  · intro h
    have hdue := hiff.1 h
    have hl := l1 i ⟨Nat.zero_le _, by omega, hdue⟩
    refine ⟨?_, rfl, (hrows _).2 (Or.inl hl.2)⟩
    rw [hdev, hl.1]
  · intro h
    have hdue : ¬ ((s.devices i).state = STATE_ACTIVE ∧
        (s.devices i).readings.received = RECEIVED_ALL cfg) := fun hd => h (hiff.2 hd)
    rw [hdev]
    exact l2 i (fun hd => hdue hd.2.2)

/-- C12, witness: under `temperature_only` with entry 0 Active and its
temperature received and entry 1 Idle, the CSV report prints a row for entry 0
only and clears the bitmask of entry 0. -/
theorem ess_readings_handler_report_and_clear_witness :
    has_row output_format.APP_OUTPUT_FORMAT_CSV 0
      (ess_readings_handler temperature_only output_format.APP_OUTPUT_FORMAT_CSV dht22_ok false
        active_with_reading).rows ∧
    (active_with_reading.devices 0).readings.received = 1 ∧
    ((ess_readings_handler temperature_only output_format.APP_OUTPUT_FORMAT_CSV dht22_ok false
        active_with_reading).state.devices 0).readings.received = 0 ∧
    ¬ has_row output_format.APP_OUTPUT_FORMAT_CSV 1
      (ess_readings_handler temperature_only output_format.APP_OUTPUT_FORMAT_CSV dht22_ok false
        active_with_reading).rows :=
  have h0 := ess_readings_handler_report_and_clear temperature_only
    output_format.APP_OUTPUT_FORMAT_CSV dht22_ok false active_with_reading 0 (by decide)
  have h1 := ess_readings_handler_report_and_clear temperature_only
    output_format.APP_OUTPUT_FORMAT_CSV dht22_ok false active_with_reading 1 (by decide)
  have hrow := h0.1.2 ⟨by decide, by decide⟩
  ⟨hrow, by decide, (h0.2.1 hrow).1, fun h => absurd (h1.1.1 h).1 (by decide)⟩

/-! ### The handle ranges of the discovery requests (C15) -/

/-- The discovery requests made after a record of calls, among the calls
appended to it. -/
theorem discover_requests_append (xs ys : List call) :
    discover_requests xs.length (xs ++ ys) = discover_requests 0 ys := by
  simp [discover_requests]

/-- The UUID that the `switch` of `next_action` selects for each kind of
discovery: the battery level characteristic is the one searched in the battery
service; a service discovery searches the battery service; a descriptor
discovery searches the CCC descriptor. -/
theorem next_action_switch_uuid {cfg : Kconfig} {i : Nat} {r : switch_result}
    (h : next_action_switch cfg i = some r) :
    (r.action = 0 → ∃ u, r.uuid = some u ∧
      (if u = BT_UUID_BAS_BATTERY_LEVEL then r.service = 1 else r.service = 0)) ∧
    (r.action = 1 → r.uuid = some BT_UUID_BAS) ∧
    (r.action = 2 → r.uuid = some BT_UUID_GATT_CCC) := by
  unfold next_action_switch at h
  split at h <;> simp at h <;> subst h <;> simp

/-- The request that `next_action` issues for the values chosen by the
`switch`: none for a subscription, and otherwise one discovery whose start
handle is the handle of the sensor service or of the battery service plus one
for a characteristic, the first attribute handle for a service, and the handle
of the attribute passed plus two for a descriptor. -/
theorem next_action_request_discover {conn : Option Nat} {attr : Option bt_gatt_attr}
    {r : switch_result} {s s' : State} (h : next_action_request conn attr r s = some s') :
    (3 ≤ r.action ∧ discover_requests s.calls.length s'.calls = []) ∨
    ∃ p, discover_requests s.calls.length s'.calls = [(s.uuid, p)] ∧
      ((r.action = 1 ∧ p.type = BT_GATT_DISCOVER_PRIMARY ∧
          p.start_handle = BT_ATT_FIRST_ATTRIBUTE_HANDLE ∧
          p.end_handle = BT_ATT_LAST_ATTRIBUTE_HANDLE) ∨
        (r.action = 0 ∧ p.type = BT_GATT_DISCOVER_CHARACTERISTIC ∧
          p.start_handle
            = ((if r.service = 0 then (s.devices s.current_index).handles.service
                else (s.devices s.current_index).handles.battery_service) + 1) % 65536) ∨
        (r.action = 2 ∧ p.type = BT_GATT_DISCOVER_DESCRIPTOR ∧
          ∃ a, attr = some a ∧ p.start_handle = (a.handle + 2) % 65536)) := by
  unfold next_action_request at h
  simp only at h
  split_ifs at h with h0 hsvc h1 h2 h3
  · simp only [Option.some.injEq] at h
    subst h
    right
    refine ⟨{ s.discover_params with
      uuid := true
      start_handle := ((s.devices s.current_index).handles.service + 1) % 65536
      type := BT_GATT_DISCOVER_CHARACTERISTIC }, ?_, Or.inr (Or.inl ⟨h0, rfl, ?_⟩)⟩
    · simp [State.call, discover_requests, hsvc]
    · simp [hsvc]
  · simp only [Option.some.injEq] at h
    subst h
    right
    refine ⟨{ s.discover_params with
      uuid := true
      start_handle := ((s.devices s.current_index).handles.battery_service + 1) % 65536
      type := BT_GATT_DISCOVER_CHARACTERISTIC }, ?_, Or.inr (Or.inl ⟨h0, rfl, ?_⟩)⟩
    · simp [State.call, discover_requests, hsvc]
    · simp [hsvc]
  · simp only [Option.some.injEq] at h
    subst h
    right
    refine ⟨{ s.discover_params with
      uuid := true
      start_handle := BT_ATT_FIRST_ATTRIBUTE_HANDLE
      end_handle := BT_ATT_LAST_ATTRIBUTE_HANDLE
      type := BT_GATT_DISCOVER_PRIMARY }, ?_, Or.inl ⟨h1, rfl, rfl, rfl⟩⟩
    simp [State.call, discover_requests]
  · cases attr with
    | none => simp at h
    | some a =>
      simp only [Option.some.injEq] at h
      subst h
      right
      refine ⟨{ s.discover_params with
        uuid := true
        start_handle := (a.handle + 2) % 65536
        type := BT_GATT_DISCOVER_DESCRIPTOR }, ?_, Or.inr (Or.inr ⟨h2, rfl, a, rfl, rfl⟩)⟩
      simp [State.call, discover_requests]
  · cases hp : r.param with
    | none => simp [hp] at h
    | some which =>
      simp only [hp, Option.some.injEq] at h
      subst h
      left
      refine ⟨by omega, ?_⟩
      simp [State.call, discover_requests]
  · simp only [Option.some.injEq] at h
    subst h
    left
    refine ⟨by omega, ?_⟩
    simp [discover_requests]

/-- C15, as stated, fails: in the negotiation of entry 0 under
`temperature_only`, with the sensor service at handle 10 and the temperature
characteristic declared at handle 12, the three discovery requests start at
handles 1, 11 and 14: the descriptor discovery starts at the handle of the
characteristic attribute plus two, not at the handle of the service plus
one. -/
theorem descriptor_discovery_starts_after_characteristic :
    discover_requests 0 mid_discovery.calls
      = [(BT_UUID_ESS, { uuid := true, func := true, start_handle := 1, end_handle := 65535,
                         type := BT_GATT_DISCOVER_PRIMARY }),
         (BT_UUID_TEMPERATURE, { uuid := true, func := true, start_handle := 11,
                                 end_handle := 65535,
                                 type := BT_GATT_DISCOVER_CHARACTERISTIC }),
         (BT_UUID_GATT_CCC, { uuid := true, func := true, start_handle := 14,
                              end_handle := 65535,
                              type := BT_GATT_DISCOVER_DESCRIPTOR })] ∧
    (mid_discovery.devices 0).handles.service = 10 ∧
    ¬ (∀ u p, (u, p) ∈ discover_requests 0 mid_discovery.calls →
        p.type = BT_GATT_DISCOVER_DESCRIPTOR →
        p.start_handle = (mid_discovery.devices 0).handles.service + 1) :=
  ⟨by decide, by decide, fun h =>
    absurd (h BT_UUID_GATT_CCC
      { uuid := true, func := true, start_handle := 14, end_handle := 65535,
        type := BT_GATT_DISCOVER_DESCRIPTOR } (by decide) rfl) (by decide)⟩

/-- C15, amended: every call of `next_action` that returns issues at most one
discovery request.  A service discovery uses the full attribute handle range
(start `0x0001`, end `0xffff`); a characteristic discovery starts at the
recorded handle of the owning service plus one, as a 16-bit value (the battery
service when the battery level characteristic is searched, the sensor service
otherwise); a descriptor discovery starts at the handle of the attribute
passed to `next_action` (the characteristic just discovered) plus two, as a
16-bit value.  The service discovery issued by a successful `connected` uses
the full attribute handle range as well. -/
theorem discover_request_ranges (cfg : Kconfig) (conn : Option Nat)
    (attr : Option bt_gatt_attr) (s s' : State) (h : next_action cfg conn attr s = some s') :
    (discover_requests s.calls.length s'.calls = [] ∨
      ∃ u p, discover_requests s.calls.length s'.calls = [(u, p)] ∧
        ((p.type = BT_GATT_DISCOVER_PRIMARY ∧
            p.start_handle = BT_ATT_FIRST_ATTRIBUTE_HANDLE ∧
            p.end_handle = BT_ATT_LAST_ATTRIBUTE_HANDLE) ∨
          (p.type = BT_GATT_DISCOVER_CHARACTERISTIC ∧
            p.start_handle
              = ((if u = BT_UUID_BAS_BATTERY_LEVEL then
                    (s.devices s.current_index).handles.battery_service
                  else (s.devices s.current_index).handles.service) + 1) % 65536) ∨
          (p.type = BT_GATT_DISCOVER_DESCRIPTOR ∧
            ∃ a, attr = some a ∧ p.start_handle = (a.handle + 2) % 65536))) ∧
    (∀ (c : Nat) (discover_err : Int) (s0 : State), ∃ p,
      discover_requests s0.calls.length (connected cfg c 0 discover_err s0).calls
        = [(BT_UUID_ESS, p)] ∧
      p.type = BT_GATT_DISCOVER_PRIMARY ∧ p.start_handle = BT_ATT_FIRST_ATTRIBUTE_HANDLE ∧
      p.end_handle = BT_ATT_LAST_ATTRIBUTE_HANDLE) := by
  constructor
  · unfold next_action at h
    simp only at h
    split_ifs at h with hN
    · simp only [Option.some.injEq] at h
      subst h
      left
      simp [State.call, discover_requests]
    · split at h
      · simp only [Option.some.injEq] at h
        subst h
        left
        simp [discover_requests]
      · rename_i r hr
        obtain ⟨hu0, hu1, hu2⟩ := next_action_switch_uuid hr
        have hreq := next_action_request_discover h
        cases hu : r.uuid with
        | none =>
          simp only [hu] at hreq
          rcases hreq with ⟨_, hnone⟩ | ⟨p, _, hp | hp | hp⟩
          · left
            simpa using hnone
          · rw [hu1 hp.1] at hu
            cases hu
          · obtain ⟨u, hu', _⟩ := hu0 hp.1
            rw [hu'] at hu
            cases hu
          · rw [hu2 hp.1] at hu
            cases hu
        | some u =>
          simp only [hu] at hreq
          rcases hreq with ⟨_, hnone⟩ | ⟨p, hp0, hp | hp | hp⟩
          · left
            simpa using hnone
          · right
            exact ⟨u, p, by simpa using hp0, Or.inl hp.2⟩
          · right
            refine ⟨u, p, by simpa using hp0, Or.inr (Or.inl ⟨hp.2.1, ?_⟩)⟩
            obtain ⟨u', hu', hsvc⟩ := hu0 hp.1
            rw [hu] at hu'
            cases hu'
            rw [hp.2.2]
            by_cases hb : u = BT_UUID_BAS_BATTERY_LEVEL
            · rw [if_pos hb] at hsvc
              simp [hb, hsvc]
            · rw [if_neg hb] at hsvc
              simp [hb, hsvc]
          · right
            exact ⟨u, p, by simpa using hp0, Or.inr (Or.inr hp.2)⟩
  · intro c discover_err s0
    refine ⟨{ s0.discover_params with
      uuid := true, func := true
      start_handle := BT_ATT_FIRST_ATTRIBUTE_HANDLE
      end_handle := BT_ATT_LAST_ATTRIBUTE_HANDLE
      type := BT_GATT_DISCOVER_PRIMARY }, ?_, rfl, rfl, rfl⟩
    unfold connected
    simp only [ne_eq, not_true_eq_false, if_false]
    split_ifs <;> simp [State.call, discover_requests]

/-- C15 amended, witness: under `temperature_only`, after the discovery of the
sensor service at handle 10, `next_action` called with the temperature
characteristic at handle 12 issues one descriptor discovery for the CCC
descriptor, which starts at handle 14. -/
theorem discover_request_ranges_witness :
    ∃ s', next_action temperature_only (some 1) (some { handle := 12, value_handle := 13 })
        service_discovered = some s' ∧
      (service_discovered.devices service_discovered.current_index).handles.service = 10 ∧
      discover_requests service_discovered.calls.length s'.calls
        = [(BT_UUID_GATT_CCC, { uuid := true, func := true, start_handle := 14,
                                end_handle := 65535,
                                type := BT_GATT_DISCOVER_DESCRIPTOR })] ∧
      (discover_requests service_discovered.calls.length s'.calls = [] ∨
        ∃ u p, discover_requests service_discovered.calls.length s'.calls = [(u, p)] ∧
          ((p.type = BT_GATT_DISCOVER_PRIMARY ∧
              p.start_handle = BT_ATT_FIRST_ATTRIBUTE_HANDLE ∧
              p.end_handle = BT_ATT_LAST_ATTRIBUTE_HANDLE) ∨
            (p.type = BT_GATT_DISCOVER_CHARACTERISTIC ∧
              p.start_handle
                = ((if u = BT_UUID_BAS_BATTERY_LEVEL then
                      (service_discovered.devices
                        service_discovered.current_index).handles.battery_service
                    else (service_discovered.devices
                      service_discovered.current_index).handles.service) + 1) % 65536) ∨
            (p.type = BT_GATT_DISCOVER_DESCRIPTOR ∧
              ∃ a, (some { handle := 12, value_handle := 13 } : Option bt_gatt_attr) = some a ∧
                p.start_handle = (a.handle + 2) % 65536))) :=
  ⟨_, rfl, by decide, by decide,
    (discover_request_ranges temperature_only (some 1) (some { handle := 12, value_handle := 13 })
      service_discovered _ rfl).1⟩

end CentralEsp
